import Mathlib

/-!
# HealthSense IoT monitoring: anomaly classifier, broadcast hub, ingestion handler

A shallow embedding of the Go sources

* `backend/pkg/anomaly/detector.go`        (rule-based classifier),
* `backend/api/websocket.go`               (hub coordinator, mailboxes, control frames),
* `backend/cmd/consumer/main.go`           (MQTT message handler),
* `backend/pkg/db/dynamodb.go`             (durable item and its keys),
* `backend/pkg/cache/redis.go`             (hot cache),
* `backend/cmd/lambda_processor/main.go`   (stream-processing variant),

followed by theorems about them.

Conventions.  Go `int` is a 64-bit signed integer; the classifier performs no
arithmetic on it, so it is embedded as `Int` (a superset).  Go `float64` is
embedded as `F64`: the IEEE-754 special values plus finite values carried as
exact rationals (every finite double is a rational).  Go channels are embedded
as a record of buffer, capacity and closed flag, and a send on or a close of a
closed channel is a `Panic`.
-/

set_option autoImplicit false

namespace HealthSense

/-! ## float64 -/

/-- Go `float64`: NaN, the two infinities, negative zero and the finite values
(as exact rationals; `fin 0` is positive zero). -/
inductive F64 where
  | nan
  | negInf
  | posInf
  | negZero
  | fin (q : ℚ)
deriving DecidableEq

namespace F64

/-- Position of a non-NaN value on the extended real line: a class
(-1 for -Inf, 0 for finite, 1 for +Inf) and the finite value. NaN has none. -/
def key : F64 → Option (Int × ℚ)
  | nan => none
  | negInf => some (-1, 0)
  | posInf => some (1, 0)
  | negZero => some (0, 0)
  | fin q => some (0, q)

/-- IEEE `<`: false as soon as one side is NaN. -/
def lt (a b : F64) : Bool :=
  match a.key, b.key with
  | some (i, x), some (j, y) => decide (i < j ∨ (i = j ∧ x < y))
  | _, _ => false

/-- IEEE `<=`: false as soon as one side is NaN. -/
def le (a b : F64) : Bool :=
  match a.key, b.key with
  | some (i, x), some (j, y) => decide (i < j ∨ (i = j ∧ x ≤ y))
  | _, _ => false

/-- Go `a > b` on float64. -/
def gt (a b : F64) : Bool := lt b a

/-- Go `a >= b` on float64. -/
def ge (a b : F64) : Bool := le b a

/-- Neither NaN nor an infinity. -/
def isFinite : F64 → Bool
  | fin _ => true
  | negZero => true
  | _ => false

end F64

/-- First magnitude beyond the finite doubles: a rounded magnitude of `2^1024`
or more becomes an infinity. -/
@[irreducible] def float64Overflow : Nat := 2 ^ 1024

/-- Go conversion `float64(n)` of an integer: round to nearest, ties to even,
on a 53-bit significand (exact for `|n| < 2^53`), overflowing to an infinity
from `2^1024` on. -/
def float64 (n : Int) : F64 :=
  let a := n.natAbs
  let e := (Nat.log2 a + 1) - 53
  let q := a / 2 ^ e
  let r := a % 2 ^ e
  let q' := if 2 ^ e < 2 * r ∨ (2 * r = 2 ^ e ∧ q % 2 = 1) then q + 1 else q
  let mag := q' * 2 ^ e
  if float64Overflow ≤ mag then (if n < 0 then F64.negInf else F64.posInf)
  else F64.fin (if n < 0 then -(mag : ℚ) else (mag : ℚ))

/-! ## fmt verbs used by the sources -/

/-- Go `%d` of an `int`. -/
def fmtD (n : Int) : String := toString n

/-- Round a non-negative rational to the nearest natural, ties to even. -/
def roundHalfEven (q : ℚ) : Nat :=
  let fl := (Rat.floor q).toNat
  let r := q - fl
  if 1 / 2 < r then fl + 1
  else if r < 1 / 2 then fl
  else if fl % 2 = 0 then fl else fl + 1

/-- Digits of a non-negative rational with `prec` decimals, as `%.{prec}f`
prints them (correctly rounded, ties to even). -/
def fmtFixedAbs (prec : Nat) (a : ℚ) : String :=
  let n := roundHalfEven (a * 10 ^ prec)
  let ip := n / 10 ^ prec
  let fp := toString (n % 10 ^ prec)
  if prec = 0 then toString ip
  else toString ip ++ "." ++ String.mk (List.replicate (prec - fp.length) '0') ++ fp

/-- Go `%.{prec}f` of a `float64`. -/
def fmtF (prec : Nat) : F64 → String
  | F64.nan => "NaN"
  | F64.posInf => "+Inf"
  | F64.negInf => "-Inf"
  | F64.negZero => "-" ++ fmtFixedAbs prec 0
  | F64.fin q => (if q < 0 then "-" else "") ++ fmtFixedAbs prec |q|

/-! ## `pkg/anomaly/detector.go` -/

/-- Detection result (`AnomalyResult`). -/
structure AnomalyResult where
  IsAnomaly : Bool
  AnomalyType : String
  Reason : String
deriving DecidableEq

/-- Rule-based detector with its three thresholds (`SimpleDetector`). -/
structure SimpleDetector where
  TachycardiaThreshold : F64
  FeverThreshold : F64
  LowSpO2Threshold : Int

/-- Detector with the default thresholds (`NewSimpleDetector`). -/
def NewSimpleDetector : SimpleDetector :=
  { TachycardiaThreshold := F64.fin 150
    FeverThreshold := F64.fin 38
    LowSpO2Threshold := 90 }

/-- Literal `AnomalyResult{IsAnomaly: false}`: the other fields are zero values. -/
def AnomalyResult.none : AnomalyResult :=
  { IsAnomaly := false, AnomalyType := "", Reason := "" }

/-- Classify one sample (`SimpleDetector.Detect`): tachycardia, then fever,
then hypoxia; the first rule that matches returns. -/
def SimpleDetector.Detect (d : SimpleDetector) (hr : Int) (tempC : F64) (spo2 : Int) :
    AnomalyResult :=
  if F64.gt (float64 hr) d.TachycardiaThreshold then
    { IsAnomaly := true
      AnomalyType := "tachycardia"
      Reason := "Heart rate " ++ fmtD hr ++ " exceeds threshold " ++
        fmtF 0 d.TachycardiaThreshold }
  else if F64.ge tempC d.FeverThreshold then
    { IsAnomaly := true
      AnomalyType := "fever"
      Reason := "Temperature " ++ fmtF 1 tempC ++ "°C exceeds threshold " ++
        fmtF 1 d.FeverThreshold ++ "°C" }
  else if spo2 < d.LowSpO2Threshold then
    { IsAnomaly := true
      AnomalyType := "hypoxia"
      Reason := "SpO2 " ++ fmtD spo2 ++ "% below threshold " ++
        fmtD d.LowSpO2Threshold ++ "%" }
  else AnomalyResult.none

/-! ## `api/websocket.go`: channels, sessions and the hub -/

/-- Run-time panics of the Go channel operations the hub performs. -/
inductive Panic where
  | sendOnClosedChannel
  | closeOfClosedChannel
deriving DecidableEq

/-- A `[]byte` message. -/
abbrev Msg := List UInt8

/-- A Go buffered channel `chan []byte`: queued messages (head is the oldest),
capacity and the closed flag. -/
structure Chan where
  buf : List Msg
  cap : Nat
  closed : Bool
deriving DecidableEq

namespace Chan

/-- Go `make(chan []byte, n)`. -/
def make (n : Nat) : Chan := { buf := [], cap := n, closed := false }

/-- Go `len(ch)`. -/
def len (ch : Chan) : Nat := ch.buf.length

/-- Go `close(ch)`: panics on a channel that is already closed; queued messages stay. -/
def close (ch : Chan) : Except Panic Chan :=
  if ch.closed then Except.error Panic.closeOfClosedChannel
  else Except.ok { ch with closed := true }

/-- Go `select { case ch <- m: ... default: ... }` on a buffered channel:
`some ch'` when the send proceeded, `none` when the default branch is taken
(buffer full); a send on a closed channel panics. -/
def trySend (ch : Chan) (m : Msg) : Except Panic (Option Chan) :=
  if ch.closed then Except.error Panic.sendOnClosedChannel
  else if ch.buf.length < ch.cap then Except.ok (some { ch with buf := ch.buf ++ [m] })
  else Except.ok none

/-- Go `<-ch` at a moment it does not block: the oldest queued message is
taken; on an empty channel nothing changes (the receive blocks, or yields the
zero value when the channel is closed). -/
def recv (ch : Chan) : Chan := { ch with buf := ch.buf.tail }

end Chan

/-- A pointer `*WSClient`; sessions are compared by pointer identity. -/
abbrev ClientPtr := Nat

/-- The fields of `WSClient` that hold state: the outbound mailbox, the tenant
scope and the set of subscribed device ids (keys of `map[string]bool`). -/
structure WSClient where
  send : Chan
  tenantID : String
  subs : List String

/-- The hub registry together with the session objects its pointers refer to.
`clients` lists the keys of `map[*WSClient]bool` (every stored value is `true`). -/
structure HubState where
  clients : List ClientPtr
  heap : ClientPtr → WSClient

namespace HubState

/-- The mailbox `client.send` of session `c`. -/
def send (s : HubState) (c : ClientPtr) : Chan := (s.heap c).send

/-- Store a new state of the mailbox of session `c`. -/
def setSend (s : HubState) (c : ClientPtr) (ch : Chan) : HubState :=
  { s with heap := fun x => if x = c then { s.heap c with send := ch } else s.heap x }

end HubState

/-- An empty registry over the given session objects (`NewWSHub`). -/
def NewWSHub (heap : ClientPtr → WSClient) : HubState := { clients := [], heap := heap }

/-- The session object built by `handleWebSocket`: a fresh mailbox of capacity
256 and an empty subscription set. -/
def WSClient.new (tenantID : String) : WSClient :=
  { send := Chan.make 256, tenantID := tenantID, subs := [] }

/-- What reaches the hub and the mailboxes: the three cases of the `select` in
`WSHub.Run`, and `recv c`, one `<-c.send` of the writer loop of session `c`
(it runs concurrently with the hub and drains the mailbox). -/
inductive Event where
  | register (c : ClientPtr)
  | unregister (c : ClientPtr)
  | broadcast (m : Msg)
  | recv (c : ClientPtr)
deriving DecidableEq

namespace WSHub

/-- Body of `for client := range h.clients` in the broadcast case, over the
keys still to visit: a non-blocking send, and on a full mailbox
`close(client.send); delete(h.clients, client)`. Go visits the keys in an
unspecified order; the list gives one order, and `broadcastLoop_any_order`
shows that the outcome is the same for every other. -/
def broadcastLoop (m : Msg) : List ClientPtr → HubState → Except Panic HubState
  | [], s => Except.ok s
  | c :: cs, s =>
    match (s.send c).trySend m with
    | Except.error e => Except.error e
    | Except.ok (some ch) => broadcastLoop m cs (s.setSend c ch)
    | Except.ok none =>
      match (s.send c).close with
      | Except.error e => Except.error e
      | Except.ok ch =>
        broadcastLoop m cs { (s.setSend c ch) with clients := s.clients.erase c }

/-- One iteration of the `for { select { ... } }` loop of `WSHub.Run` (and,
for `recv`, one receive of a writer loop). -/
def step (s : HubState) : Event → Except Panic HubState
  | Event.register c => Except.ok { s with clients := s.clients.insert c }
  | Event.unregister c =>
    if c ∈ s.clients then
      match (s.send c).close with
      | Except.error e => Except.error e
      | Except.ok ch => Except.ok { (s.setSend c ch) with clients := s.clients.erase c }
    else Except.ok s
  | Event.broadcast m => broadcastLoop m s.clients s
  | Event.recv c => Except.ok (s.setSend c (s.send c).recv)

/-- The hub loop over a finite sequence of events (`WSHub.Run`). -/
def Run (s : HubState) (evs : List Event) : Except Panic HubState :=
  evs.foldlM step s

end WSHub

/-- Creation of a session by `handleWebSocket`: allocate the `WSClient` at the
pointer `c`, then hand it to the hub on the `register` channel. -/
def handleWebSocket (s : HubState) (c : ClientPtr) (tenantID : String) :
    Except Panic HubState :=
  WSHub.step { s with heap := fun x => if x = c then WSClient.new tenantID else s.heap x }
    (Event.register c)

/-- The sessions a sequence of events registers, in order. -/
def registered : List Event → List ClientPtr
  | [] => []
  | Event.register c :: evs => c :: registered evs
  | _ :: evs => registered evs

/-- Whether the last `register`/`unregister` event for `c` in the sequence is a
`register` (false when there is none). -/
def lastIsRegister (c : ClientPtr) (evs : List Event) : Bool :=
  evs.foldl (fun b ev =>
    match ev with
    | Event.register x => if x = c then true else b
    | Event.unregister x => if x = c then false else b
    | _ => b) false

/-- Session `c` was evicted during the run of `evs` from `s0` and has not been
registered again since: some broadcast of the sequence found it registered with
no room in its mailbox, and no later event registers it. -/
def EvictedSince (s0 : HubState) (evs : List Event) (c : ClientPtr) : Prop :=
  ∃ pre m post s, evs = pre ++ Event.broadcast m :: post ∧ c ∉ registered post ∧
    WSHub.Run s0 pre = Except.ok s ∧ c ∈ s.clients ∧
    ¬ (s.send c).buf.length < (s.send c).cap

/-- Well-formed hub state: the registry has no duplicate key, and every
registered session has an open mailbox of capacity 256 (as `handleWebSocket`
creates it). -/
def WellFormed (s : HubState) : Prop :=
  s.clients.Nodup ∧ ∀ c ∈ s.clients, (s.send c).closed = false ∧ (s.send c).cap = 256

/-! ## `cmd/consumer/main.go`, with the two sinks it calls -/

/-- A `time.Time` instant: Unix seconds, nanoseconds within the second, and the
zone offset (seconds east of UTC) it was written with. -/
structure Time where
  unix : Int
  nsec : Nat
  offset : Int
deriving DecidableEq

/-- The zero `time.Time` (January 1, year 1, 00:00:00 UTC). -/
def Time.zero : Time := { unix := -62135596800, nsec := 0, offset := 0 }

/-- Offset of the Unix epoch from the start of year 1, in seconds: Go counts the
seconds of a `time.Time` from January 1, year 1. -/
def unixToInternal : Int := 62135596800

/-- `time.Hour`, a `time.Duration` in nanoseconds. -/
def Time.Hour : Int := 3600 * 1000000000

/-- `t.Add(d)` for a duration `d` in nanoseconds: the whole seconds of `d` go to
the seconds, the rest to the nanoseconds, with a carry. Go keeps the seconds in
an int64 and the arithmetic here is exact as long as they fit. -/
def Time.Add (t : Time) (d : Int) : Time :=
  let dsec := Int.tdiv d 1000000000
  let nsec := (t.nsec : Int) + Int.tmod d 1000000000
  if 1000000000 ≤ nsec then
    { t with unix := t.unix + dsec + 1, nsec := (nsec - 1000000000).toNat }
  else if nsec < 0 then
    { t with unix := t.unix + dsec - 1, nsec := (nsec + 1000000000).toNat }
  else { t with unix := t.unix + dsec, nsec := nsec.toNat }

/-- `t.Unix()`: seconds since the Unix epoch. -/
def Time.Unix (t : Time) : Int := t.unix

/-- Go library behaviour, not part of the repository (package `time`, Go 1.20
and later): the error of `Time.MarshalJSON`, `none` when the time is written.
The text is RFC 3339 in the zone of the time; a wall-clock year outside
0..9999 and a zone offset of 24 hours or more cannot be written. -/
def Time.marshalJSONErr (t : Time) : Option String :=
  if t.unix + t.offset < -62167219200 ∨ 253402300800 ≤ t.unix + t.offset then
    some "Time.MarshalJSON: year outside of range [0,9999]"
  else if 86400 ≤ t.offset.natAbs then
    some "Time.MarshalJSON: timezone hour outside of range [0,23]"
  else none

/-- Go library behaviour, not part of the repository (package `time`): what
`Time.UnmarshalJSON` reads from the text `Time.MarshalJSON` wrote. The text
carries the wall clock of the time in its zone and the zone as `±hh:mm` (whole
minutes, truncated toward zero), so the written zone loses the seconds of the
offset and the instant read back is the written wall clock taken in the
written zone. -/
def Time.jsonRoundTrip (t : Time) : Time :=
  let zone := Int.tdiv t.offset 60 * 60
  { unix := t.unix + t.offset - zone, nsec := t.nsec, offset := zone }

/-- Vital signs of one sample (`Metrics`). -/
structure Metrics where
  HeartRate : Int
  TempC : F64
  SpO2 : Int
  Steps : Int
deriving DecidableEq

/-- One device message (`Telemetry`). -/
structure Telemetry where
  TenantID : String
  DeviceID : String
  Timestamp : String
  Metrics : Metrics
  BatteryPct : Int
  FWVersion : String
deriving DecidableEq

/-- Record handed to the durable store (`db.TelemetryRecord`). -/
structure TelemetryRecord where
  TenantID : String
  DeviceID : String
  Timestamp : String
  HeartRate : Int
  TempC : F64
  SpO2 : Int
  Steps : Int
  BatteryPct : Int
  FWVersion : String
  AnomalyFlag : Bool
  AnomalyType : String
deriving DecidableEq

/-- Value kept in the hot cache (`cache.LatestTelemetry`). -/
structure LatestTelemetry where
  DeviceID : String
  Timestamp : Time
  HeartRate : Int
  TempC : F64
  SpO2 : Int
  Steps : Int
  BatteryPct : Int
deriving DecidableEq

/-- A DynamoDB attribute value (`types.AttributeValueMemberS/N/BOOL`). -/
inductive AttributeValue where
  | S (v : String)
  | N (v : String)
  | BOOL (v : Bool)
deriving DecidableEq

/-- The JSON object `pushToWebSocket` posts to the API: the envelope fields and
the `data` object. -/
structure PushPayload where
  type : String
  device_id : String
  tenant_id : String
  timestamp : String
  hr_bpm : Int
  temp_c : F64
  spo2_pct : Int
  steps : Int
  battery_pct : Int
deriving DecidableEq

/-- What the handler does to the outside world, in order of occurrence. -/
inductive Effect where
  | log (line : String)
  | ddbPutItem (item : List (String × AttributeValue))
  | redisSet (key : String) (value : LatestTelemetry) (ttlSeconds : Nat)
  | httpPost (url : String) (body : PushPayload)
deriving DecidableEq

/-- Whether an effect reaches a sink (durable store, cache, push endpoint)
rather than the log. -/
def Effect.isSink : Effect → Bool
  | Effect.log _ => false
  | _ => true

/-- What the outside world answers during one delivery: the clock, and the
error (if any) of the DynamoDB `PutItem` and of the Redis `SET`. The answer to
the HTTP POST is not part of it: `pushToWebSocket` drops it. -/
structure Outcome where
  now : Time
  putItemErr : Option String
  redisSetErr : Option String

/-- The library functions the handler calls: `json.Unmarshal` into a
`Telemetry` and `time.Parse(time.RFC3339, ·)`, each yielding a value or an
error text, and `Time.MarshalJSON`, which `json.Marshal` calls for the
`Timestamp` of a cache value: its error, `none` when the time is written. -/
structure Lib where
  unmarshal : Msg → Except String Telemetry
  timeParse : String → Except String Time
  timeMarshalJSON : Time → Option String

/-- Error of `json.Marshal` on a float it cannot encode (NaN and the
infinities), `none` for a finite value. -/
def jsonFloatErr : F64 → Option String
  | F64.nan => some "json: unsupported value: NaN"
  | F64.posInf => some "json: unsupported value: +Inf"
  | F64.negInf => some "json: unsupported value: -Inf"
  | _ => none

/-- The item `PutTelemetry` builds, `now` being the reading of `time.Now()`;
the attributes are listed in the order of the map literal, `anomaly_type` last
when it is set. -/
def putTelemetryItem (now : Time) (record : TelemetryRecord) :
    List (String × AttributeValue) :=
  let pk := "TENANT#" ++ record.TenantID ++ "#DEVICE#" ++ record.DeviceID
  let sk := "TS#" ++ record.Timestamp
  let ttl := (now.Add (30 * 24 * Time.Hour)).Unix
  let item :=
    [ ("PK", AttributeValue.S pk),
      ("SK", AttributeValue.S sk),
      ("tenant_id", AttributeValue.S record.TenantID),
      ("device_id", AttributeValue.S record.DeviceID),
      ("timestamp", AttributeValue.S record.Timestamp),
      ("hr_bpm", AttributeValue.N (fmtD record.HeartRate)),
      ("temp_c", AttributeValue.N (fmtF 2 record.TempC)),
      ("spo2_pct", AttributeValue.N (fmtD record.SpO2)),
      ("steps", AttributeValue.N (fmtD record.Steps)),
      ("battery_pct", AttributeValue.N (fmtD record.BatteryPct)),
      ("fw_version", AttributeValue.S record.FWVersion),
      ("anomaly_flag", AttributeValue.BOOL record.AnomalyFlag),
      ("ttl", AttributeValue.N (fmtD ttl)) ]
  if record.AnomalyType ≠ "" then
    item ++ [("anomaly_type", AttributeValue.S record.AnomalyType)]
  else item

/-- Store a record (`DynamoDBClient.PutTelemetry`): the effects and the
returned error. -/
def PutTelemetry (o : Outcome) (record : TelemetryRecord) : List Effect × Option String :=
  ([Effect.ddbPutItem (putTelemetryItem o.now record)],
    o.putItemErr.map (fun e => "failed to put item: " ++ e))

/-- Error of `json.Marshal` on a `LatestTelemetry`, `none` when it yields a
document. The fields are written in declaration order and the first error
ends the encoding: the `Timestamp`, a `time.Time`, is written by
`Time.MarshalJSON` (the parameter `timeMarshalJSON` is its error), the
temperature must be finite; strings and integers are always written. -/
def jsonMarshalErr (timeMarshalJSON : Time → Option String) (data : LatestTelemetry) :
    Option String :=
  match timeMarshalJSON data.Timestamp with
  | some e => some ("json: error calling MarshalJSON for type time.Time: " ++ e)
  | none => jsonFloatErr data.TempC

/-- Cache the latest sample of a device (`RedisClient.SetLatest`): the effects
and the returned error. When `json.Marshal` fails nothing is sent to Redis. -/
def SetLatest (timeMarshalJSON : Time → Option String) (o : Outcome)
    (tenantID deviceID : String) (data : LatestTelemetry) : List Effect × Option String :=
  let key := "latest:" ++ tenantID ++ ":" ++ deviceID
  match jsonMarshalErr timeMarshalJSON data with
  | some e => ([], some ("failed to marshal data: " ++ e))
  | none =>
    ([Effect.redisSet key data 600],
      o.redisSetErr.map (fun e => "failed to set cache: " ++ e))

/-- Post a sample to the API for broadcast (`pushToWebSocket`); an error of the
POST is dropped silently. -/
def pushToWebSocket (telemetry : Telemetry) : List Effect :=
  match jsonFloatErr telemetry.Metrics.TempC with
  | some e => [Effect.log ("Failed to marshal WebSocket payload: " ++ e)]
  | none =>
    [Effect.httpPost "http://localhost:8080/api/v1/internal/broadcast"
      { type := "telemetry"
        device_id := telemetry.DeviceID
        tenant_id := telemetry.TenantID
        timestamp := telemetry.Timestamp
        hr_bpm := telemetry.Metrics.HeartRate
        temp_c := telemetry.Metrics.TempC
        spo2_pct := telemetry.Metrics.SpO2
        steps := telemetry.Metrics.Steps
        battery_pct := telemetry.BatteryPct }]

/-- The classification the handler computes for a parsed message. -/
def classify (telemetry : Telemetry) : AnomalyResult :=
  NewSimpleDetector.Detect telemetry.Metrics.HeartRate telemetry.Metrics.TempC
    telemetry.Metrics.SpO2

/-- The record the handler assembles for the durable store. -/
def recordOf (telemetry : Telemetry) (anomalyResult : AnomalyResult) : TelemetryRecord :=
  { TenantID := telemetry.TenantID
    DeviceID := telemetry.DeviceID
    Timestamp := telemetry.Timestamp
    HeartRate := telemetry.Metrics.HeartRate
    TempC := telemetry.Metrics.TempC
    SpO2 := telemetry.Metrics.SpO2
    Steps := telemetry.Metrics.Steps
    BatteryPct := telemetry.BatteryPct
    FWVersion := telemetry.FWVersion
    AnomalyFlag := anomalyResult.IsAnomaly
    AnomalyType := anomalyResult.AnomalyType }

/-- The value the handler assembles for the cache; a timestamp that does not
parse leaves the zero time (`ts, _ := time.Parse(...)`). -/
def cacheDataOf (lib : Lib) (telemetry : Telemetry) : LatestTelemetry :=
  { DeviceID := telemetry.DeviceID
    Timestamp :=
      match lib.timeParse telemetry.Timestamp with
      | Except.ok ts => ts
      | Except.error _ => Time.zero
    HeartRate := telemetry.Metrics.HeartRate
    TempC := telemetry.Metrics.TempC
    SpO2 := telemetry.Metrics.SpO2
    Steps := telemetry.Metrics.Steps
    BatteryPct := telemetry.BatteryPct }

/-- The MQTT message handler of the consumer (`messageHandler`): the effects of
one delivery, in order. -/
def messageHandler (lib : Lib) (o : Outcome) (payload : Msg) : List Effect :=
  match lib.unmarshal payload with
  | Except.error err => [Effect.log ("Invalid JSON: " ++ err)]
  | Except.ok telemetry =>
    let anomalyResult := classify telemetry
    let record := recordOf telemetry anomalyResult
    let put := PutTelemetry o record
    let set := SetLatest lib.timeMarshalJSON o telemetry.TenantID telemetry.DeviceID
      (cacheDataOf lib telemetry)
    [Effect.log ("[" ++ telemetry.DeviceID ++ "] HR:" ++ fmtD telemetry.Metrics.HeartRate ++
        " Temp:" ++ fmtF 1 telemetry.Metrics.TempC ++ " SpO2:" ++
        fmtD telemetry.Metrics.SpO2)] ++
    (if anomalyResult.IsAnomaly then
      [Effect.log ("[" ++ telemetry.DeviceID ++ "] ANOMALY DETECTED: " ++
        anomalyResult.AnomalyType ++ " - " ++ anomalyResult.Reason)]
     else []) ++
    put.1 ++
    (match put.2 with
     | some err => [Effect.log ("Failed to store in DynamoDB: " ++ err)]
     | none => []) ++
    set.1 ++
    (match set.2 with
     | some err => [Effect.log ("Failed to cache in Redis: " ++ err)]
     | none => []) ++
    pushToWebSocket telemetry

/-- The consumer over a sequence of deliveries, each with what the outside
world answers during it: the handler runs once per message, in order. -/
def consume (lib : Lib) (deliveries : List (Msg × Outcome)) : List Effect :=
  deliveries.flatMap (fun d => messageHandler lib d.2 d.1)

/-- Whether a payload parses (`json.Unmarshal` returns no error). -/
def parses (lib : Lib) (payload : Msg) : Bool :=
  match lib.unmarshal payload with
  | Except.ok _ => true
  | Except.error _ => false

/-! ## `pkg/db/dynamodb.go`: reading back -/

/-- The fields `GetLatestTelemetry` sets in its `dynamodb.QueryInput`: the key
condition, the value bound to `:pk`, the scan direction and the limit. -/
structure QueryInput where
  keyConditionExpression : String
  pk : String
  scanIndexForward : Bool
  limit : Nat
deriving DecidableEq

/-- The partition key both `PutTelemetry` and `GetLatestTelemetry` format. -/
def partitionKey (tenantID deviceID : String) : String :=
  "TENANT#" ++ tenantID ++ "#DEVICE#" ++ deviceID

/-- The sort key `PutTelemetry` formats. -/
def sortKey (timestamp : String) : String := "TS#" ++ timestamp

/-- The query `GetLatestTelemetry` issues. -/
def getLatestTelemetryQuery (tenantID deviceID : String) : QueryInput :=
  { keyConditionExpression := "PK = :pk"
    pk := "TENANT#" ++ tenantID ++ "#DEVICE#" ++ deviceID
    scanIndexForward := false
    limit := 1 }

/-- What `GetLatestTelemetry` yields: a record, an error, or a panic of the
type assertion on the `timestamp` attribute. -/
inductive GetLatestResult where
  | record (r : TelemetryRecord)
  | error (msg : String)
  | typeAssertionPanic
deriving DecidableEq

/-- Most recent reading of a device (`DynamoDBClient.GetLatestTelemetry`), given
what the query answers: only tenant, device and timestamp are filled in. -/
def GetLatestTelemetry (answer : Except String (List (List (String × AttributeValue))))
    (tenantID deviceID : String) : GetLatestResult :=
  match answer with
  | Except.error e => GetLatestResult.error ("failed to query: " ++ e)
  | Except.ok [] => GetLatestResult.error ("no data found for device " ++ deviceID)
  | Except.ok (item :: _) =>
    match item.lookup "timestamp" with
    | some (AttributeValue.S v) =>
      GetLatestResult.record
        { TenantID := tenantID, DeviceID := deviceID, Timestamp := v
          HeartRate := 0, TempC := F64.fin 0, SpO2 := 0, Steps := 0, BatteryPct := 0
          FWVersion := "", AnomalyFlag := false, AnomalyType := "" }
    | _ => GetLatestResult.typeAssertionPanic

/-! ## `pkg/cache/redis.go`: the cache and reading back -/

/-- The key `SetLatest` and `GetLatest` format. -/
def cacheKey (tenantID deviceID : String) : String :=
  "latest:" ++ tenantID ++ ":" ++ deviceID

/-- An entry of the hot cache: the value whose JSON document is stored, and the
instant (milliseconds on the clock of the cache) from which it is gone. -/
structure CacheEntry where
  value : LatestTelemetry
  expiresAt : Nat
deriving DecidableEq

/-- Modelled from the spec: the hot cache is an external store (Redis, no part
of the repository) that holds one entry per key, overwrites it on every write
and drops it when its expiry is reached; a read before the expiry yields the
entry, a read from the expiry on finds nothing. -/
abbrev CacheState := String → Option CacheEntry

/-- Modelled from the spec: `SET key value EX ttlSeconds` processed at `now`. -/
def CacheState.set (st : CacheState) (now : Nat) (key : String) (value : LatestTelemetry)
    (ttlSeconds : Nat) : CacheState :=
  fun k => if k = key then some { value := value, expiresAt := now + ttlSeconds * 1000 }
    else st k

/-- Modelled from the spec: `GET key` processed at `now`; `none` is `redis.Nil`. -/
def CacheState.get (st : CacheState) (now : Nat) (key : String) : Option LatestTelemetry :=
  match st key with
  | some e => if now < e.expiresAt then some e.value else none
  | none => none

/-- What an effect of the handler does to the cache when it is carried out at `now`. -/
def CacheState.exec (now : Nat) (st : CacheState) : Effect → CacheState
  | Effect.redisSet key value ttlSeconds => st.set now key value ttlSeconds
  | _ => st

/-- Go library behaviour, not part of the repository (package `encoding/json`):
what `json.Unmarshal` makes of the document `json.Marshal` wrote for a
`LatestTelemetry` that it accepted. Strings, integers and finite doubles are
read back as they were (a double is written with the shortest digits that
read back the same double); the `Timestamp` goes through the text of
`Time.MarshalJSON`. -/
def LatestTelemetry.jsonRoundTrip (v : LatestTelemetry) : Except String LatestTelemetry :=
  Except.ok { v with Timestamp := v.Timestamp.jsonRoundTrip }

/-- Read the cached sample of a device (`RedisClient.GetLatest`) at `now`.
`getErr` is the error of the `GET` other than `redis.Nil` (connection trouble),
and `jsonRoundTrip v` is what `json.Unmarshal` makes of the document
`json.Marshal` wrote for `v`. -/
def GetLatest (getErr : Option String)
    (jsonRoundTrip : LatestTelemetry → Except String LatestTelemetry)
    (st : CacheState) (now : Nat) (tenantID deviceID : String) :
    Except String LatestTelemetry :=
  let key := "latest:" ++ tenantID ++ ":" ++ deviceID
  match getErr with
  | some e => Except.error ("failed to get cache: " ++ e)
  | none =>
    match st.get now key with
    | none => Except.error ("no cached data for device " ++ deviceID)
    | some v =>
      match jsonRoundTrip v with
      | Except.error e => Except.error ("failed to unmarshal data: " ++ e)
      | Except.ok data => Except.ok data

/-! ## `cmd/lambda_processor/main.go` -/

namespace Lambda

/-- Package variable `hrThreshold`. -/
def hrThreshold : F64 := F64.fin 150

/-- Package variable `tempThreshold`. -/
def tempThreshold : F64 := F64.fin 38

/-- Classification of the stream-processing variant (`detectAnomaly`). -/
def detectAnomaly (t : Telemetry) : AnomalyResult :=
  if F64.gt (float64 t.Metrics.HeartRate) hrThreshold then
    { IsAnomaly := true
      AnomalyType := "tachycardia"
      Reason := "Heart rate " ++ fmtD t.Metrics.HeartRate ++ " exceeds threshold " ++
        fmtF 0 hrThreshold }
  else if F64.ge t.Metrics.TempC tempThreshold then
    { IsAnomaly := true
      AnomalyType := "fever"
      Reason := "Temperature " ++ fmtF 1 t.Metrics.TempC ++ "°C exceeds threshold " ++
        fmtF 1 tempThreshold ++ "°C" }
  else if t.Metrics.SpO2 < 90 then
    { IsAnomaly := true
      AnomalyType := "hypoxia"
      Reason := "SpO2 " ++ fmtD t.Metrics.SpO2 ++ "% below threshold 90%" }
  else { IsAnomaly := false, AnomalyType := "", Reason := "" }

/-- The item `storeTelemetry` builds, `now` being the reading of `time.Now()`. -/
def storeTelemetryItem (now : Time) (t : Telemetry) (anomaly : AnomalyResult) :
    List (String × AttributeValue) :=
  let pk := "TENANT#" ++ t.TenantID ++ "#DEVICE#" ++ t.DeviceID
  let sk := "TS#" ++ t.Timestamp
  let ttl := (now.Add (30 * 24 * Time.Hour)).Unix
  let item :=
    [ ("PK", AttributeValue.S pk),
      ("SK", AttributeValue.S sk),
      ("tenant_id", AttributeValue.S t.TenantID),
      ("device_id", AttributeValue.S t.DeviceID),
      ("timestamp", AttributeValue.S t.Timestamp),
      ("hr_bpm", AttributeValue.N (fmtD t.Metrics.HeartRate)),
      ("temp_c", AttributeValue.N (fmtF 2 t.Metrics.TempC)),
      ("spo2_pct", AttributeValue.N (fmtD t.Metrics.SpO2)),
      ("steps", AttributeValue.N (fmtD t.Metrics.Steps)),
      ("battery_pct", AttributeValue.N (fmtD t.BatteryPct)),
      ("fw_version", AttributeValue.S t.FWVersion),
      ("anomaly_flag", AttributeValue.BOOL anomaly.IsAnomaly),
      ("ttl", AttributeValue.N (fmtD ttl)) ]
  if anomaly.IsAnomaly then
    item ++ [("anomaly_type", AttributeValue.S anomaly.AnomalyType)]
  else item

/-- Text of the notification `sendAlert` publishes. -/
def alertMessage (t : Telemetry) (anomaly : AnomalyResult) : String :=
  "🚨 HEALTH ALERT 🚨\n\nDevice: " ++ t.DeviceID ++
  "\nTenant: " ++ t.TenantID ++
  "\nTimestamp: " ++ t.Timestamp ++
  "\n\nAnomaly Type: " ++ anomaly.AnomalyType ++
  "\nDetails: " ++ anomaly.Reason ++
  "\n\nVitals:\n- Heart Rate: " ++ fmtD t.Metrics.HeartRate ++
  " bpm\n- Temperature: " ++ fmtF 1 t.Metrics.TempC ++
  "°C\n- SpO2: " ++ fmtD t.Metrics.SpO2 ++
  "%\n- Steps: " ++ fmtD t.Metrics.Steps ++
  "\n- Battery: " ++ fmtD t.BatteryPct ++
  "%\n\nAction Required: Please check patient immediately."

/-- Subject of the notification `sendAlert` publishes. -/
def alertSubject (t : Telemetry) (anomaly : AnomalyResult) : String :=
  "[HealthSense] " ++ anomaly.AnomalyType ++ " Alert - " ++ t.DeviceID

/-- What the lambda handler does to the outside world, in order of occurrence. -/
inductive Effect where
  | log (line : String)
  | snsPublish (topicArn subject message : String)
  | ddbPutItem (tableName : String) (item : List (String × AttributeValue))
deriving DecidableEq

/-- Configuration read from the environment by `init`. -/
structure Config where
  tableName : String
  snsTopicARN : String

/-- What the outside world answers while one record is handled: the clock and
the error (if any) of the SNS `Publish` and of the DynamoDB `PutItem`. -/
structure Outcome where
  now : Time
  publishErr : Option String
  putItemErr : Option String

/-- Body of the `for` loop of `handler` for one record: the effects, and the
store error that makes `handler` return. -/
def processRecord (cfg : Config) (unmarshal : Msg → Except String Telemetry)
    (o : Outcome) (data : Msg) : List Effect × Option String :=
  match unmarshal data with
  | Except.error err => ([Effect.log ("❌ Failed to unmarshal record: " ++ err)], none)
  | Except.ok telemetry =>
    let anomaly := detectAnomaly telemetry
    ([Effect.log ("📥 [" ++ telemetry.DeviceID ++ "] HR:" ++
        fmtD telemetry.Metrics.HeartRate ++ " Temp:" ++ fmtF 1 telemetry.Metrics.TempC ++
        " SpO2:" ++ fmtD telemetry.Metrics.SpO2)] ++
     (if anomaly.IsAnomaly then
        [Effect.log ("⚠️  [" ++ telemetry.DeviceID ++ "] ANOMALY: " ++
          anomaly.AnomalyType ++ " - " ++ anomaly.Reason),
         Effect.snsPublish cfg.snsTopicARN (alertSubject telemetry anomaly)
          (alertMessage telemetry anomaly)] ++
        (match o.publishErr with
         | some err => [Effect.log ("❌ Failed to send alert: " ++ err)]
         | none => [])
      else []) ++
     [Effect.ddbPutItem cfg.tableName (storeTelemetryItem o.now telemetry anomaly)] ++
     (match o.putItemErr with
      | some err => [Effect.log ("❌ Failed to store telemetry: " ++ err)]
      | none => []),
     o.putItemErr)

/-- The `for` loop of `handler` over the records still to handle, each with
what the outside world answers during it. -/
def handlerLoop (cfg : Config) (unmarshal : Msg → Except String Telemetry) :
    List (Msg × Outcome) → List Effect × Option String
  | [] => ([], none)
  | r :: rest =>
    match processRecord cfg unmarshal r.2 r.1 with
    | (effs, some err) => (effs, some err)
    | (effs, none) =>
      ((effs ++ (handlerLoop cfg unmarshal rest).1), (handlerLoop cfg unmarshal rest).2)

/-- The Kinesis batch handler (`handler`): the effects and the returned error. -/
def handler (cfg : Config) (unmarshal : Msg → Except String Telemetry)
    (records : List (Msg × Outcome)) : List Effect × Option String :=
  let r := handlerLoop cfg unmarshal records
  ([Effect.log ("Processing " ++ toString records.length ++ " records")] ++ r.1 ++
    (match r.2 with
     | none => [Effect.log ("✅ Successfully processed " ++ toString records.length ++
         " records")]
     | some _ => []),
   r.2)

/-- The notifications among the effects, in order. -/
def published : List Effect → List (String × String × String)
  | [] => []
  | Effect.snsPublish topic subject message :: effs =>
    (topic, subject, message) :: published effs
  | _ :: effs => published effs

/-- The items stored among the effects, in order. -/
def stored : List Effect → List (List (String × AttributeValue))
  | [] => []
  | Effect.ddbPutItem _ item :: effs => item :: stored effs
  | _ :: effs => stored effs

end Lambda

/-- The text `x` occurs in the text `s`. -/
def Contains (s x : String) : Prop := ∃ a b, s = a ++ x ++ b

/-! ## `api/websocket.go`: envelopes and control frames -/

/-- A WebSocket message (`WSMessage`); `type` is the field `Type` (a reserved
word here) under the name of its JSON tag, and `Data` is the raw JSON of the
payload, absent when there is none. -/
structure WSMessage where
  type : String
  DeviceID : String
  TenantID : String
  Timestamp : String
  Data : Option Msg
deriving DecidableEq

/-- Send a message to all connected clients (`WSHub.Broadcast`), the hub taking
it off its `broadcast` channel: a message that does not marshal is logged and
dropped. `marshal` is `json.Marshal`. -/
def WSHub.Broadcast (marshal : WSMessage → Except String Msg) (s : HubState)
    (msg : WSMessage) : Except Panic HubState :=
  match marshal msg with
  | Except.error _ => Except.ok s
  | Except.ok data => WSHub.step s (Event.broadcast data)

/-- One iteration of the read loop of `WSClient.readPump` on a frame that was
read: a subscribe adds the device to `subs`, an unsubscribe deletes it, anything
else leaves the session as it is. `unmarshal` is `json.Unmarshal` into a
`WSMessage`. -/
def WSClient.readPump (unmarshal : Msg → Except String WSMessage) (c : WSClient)
    (message : Msg) : WSClient :=
  match unmarshal message with
  | Except.error _ => c
  | Except.ok msg =>
    if msg.type = "subscribe" ∧ msg.DeviceID ≠ "" then
      { c with subs := c.subs.insert msg.DeviceID }
    else if msg.type = "unsubscribe" ∧ msg.DeviceID ≠ "" then
      { c with subs := c.subs.filter (fun d => d ≠ msg.DeviceID) }
    else c

/-! ## `api/websocket.go`: the writer loop of a session -/

/-- What `writePump` hands to the connection: a text frame flushed by
`w.Close()`, the close frame, or a ping. -/
inductive Frame where
  | text (data : List UInt8)
  | close
  | ping
deriving DecidableEq

/-- The payloads of the text frames among the frames written, oldest first. -/
def textFrames : List Frame → List (List UInt8)
  | [] => []
  | Frame.text data :: fs => data :: textFrames fs
  | _ :: fs => textFrames fs

/-- Where `WSClient.writePump` stands: at the `select`; past
`message, ok := <-c.send` with `ok` true, holding `message`; inside the frame
opened by `NextWriter`, with the bytes written to `w` so far and the number of
passes the `for i := 0; i < n; i++` loop still makes; or returned. -/
inductive WriterPhase where
  | atSelect
  | received (message : Msg)
  | writing (w : List UInt8) (n : Nat)
  | returned
deriving DecidableEq

/-- A session seen from its writer loop: the mailbox `c.send`, the position of
`writePump`, and the frames written to `c.conn` so far. -/
structure WriterState where
  send : Chan
  phase : WriterPhase
  conn : List Frame
deriving DecidableEq

/-- What moves a session's mailbox and writer loop. The hub side:
`hubSend m`, the `select { case client.send <- message: default: close(client.send) ... }`
of a broadcast reaching this session, and `hubClose`, the `close(client.send)`
of an unregister. The writer side, one statement of `writePump` each:
`recvSend` is `message, ok := <-c.send`; `nextWriter err` is
`c.conn.NextWriter(websocket.TextMessage)` (with its outcome) followed by
`w.Write(message)` and `n := len(c.send)`; `loopPass` is one pass of the `for`
loop; `closeWriter err` is `w.Close()`; `tick err` is the `ticker.C` case with
the outcome of the ping write. -/
inductive WriterEvent where
  | hubSend (m : Msg)
  | hubClose
  | recvSend
  | nextWriter (err : Bool)
  | loopPass
  | closeWriter (err : Bool)
  | tick (err : Bool)
deriving DecidableEq

/-- The hub's non-blocking send to the mailbox of a registered session, with
the eviction of the `default` branch: a full mailbox is closed. The hub holds
only sessions whose mailbox is open, so a closed mailbox is not touched. -/
def Chan.hubSend (ch : Chan) (m : Msg) : Chan :=
  match ch.trySend m with
  | Except.ok (some ch1) => ch1
  | Except.ok none => { ch with closed := true }
  | Except.error _ => ch

/-- The hub's `close(client.send)` on unregister; a session that is no longer
registered (mailbox closed) is not touched. -/
def Chan.hubClose (ch : Chan) : Chan :=
  match ch.close with
  | Except.ok ch1 => ch1
  | Except.error _ => ch

/-- One move of a session: a hub operation on the mailbox, or the next
statement of `WSClient.writePump`. An event the writer is not at (or a receive
that blocks on an empty open mailbox) leaves the state as it is. Errors of
`w.Write` are not looked at by the source; the failed write of a frame shows in
the outcome of `w.Close()`. -/
def WSClient.writePump (s : WriterState) : WriterEvent → WriterState
  | WriterEvent.hubSend m => { s with send := s.send.hubSend m }
  | WriterEvent.hubClose => { s with send := s.send.hubClose }
  | WriterEvent.recvSend =>
    match s.phase with
    | WriterPhase.atSelect =>
      match s.send.buf with
      | message :: _ => { s with send := s.send.recv, phase := WriterPhase.received message }
      | [] =>
        if s.send.closed then
          { s with conn := s.conn ++ [Frame.close], phase := WriterPhase.returned }
        else s
    | _ => s
  | WriterEvent.nextWriter err =>
    match s.phase with
    | WriterPhase.received message =>
      if err then { s with phase := WriterPhase.returned }
      else { s with phase := WriterPhase.writing message s.send.len }
    | _ => s
  | WriterEvent.loopPass =>
    match s.phase with
    | WriterPhase.writing w (n + 1) =>
      match s.send.buf with
      | message :: _ =>
        { s with send := s.send.recv, phase := WriterPhase.writing (w ++ [10] ++ message) n }
      | [] =>
        if s.send.closed then { s with phase := WriterPhase.writing (w ++ [10]) n }
        else s
    | _ => s
  | WriterEvent.closeWriter err =>
    match s.phase with
    | WriterPhase.writing w 0 =>
      if err then { s with phase := WriterPhase.returned }
      else { s with conn := s.conn ++ [Frame.text w], phase := WriterPhase.atSelect }
    | _ => s
  | WriterEvent.tick err =>
    match s.phase with
    | WriterPhase.atSelect =>
      if err then { s with phase := WriterPhase.returned }
      else { s with conn := s.conn ++ [Frame.ping] }
    | _ => s

/-- A session's mailbox and writer loop over a sequence of moves. -/
def WSClient.writePumpRun (s : WriterState) (evs : List WriterEvent) : WriterState :=
  evs.foldl WSClient.writePump s

/-- The bytes of a batch of messages in one frame: the first message, then a
newline byte and the message for every further one. -/
def batchBytes : List Msg → List UInt8
  | [] => []
  | m :: ms => m ++ ms.flatMap (fun x => 10 :: x)

/-- The messages the hub put into the mailbox during the moves `evs` from
state `s`, in order: those of the `hubSend` moves that found the mailbox open
with room. -/
def enqueued : WriterState → List WriterEvent → List Msg
  | _, [] => []
  | s, ev :: evs =>
    (match ev with
      | WriterEvent.hubSend m =>
        if s.send.closed = false ∧ s.send.buf.length < s.send.cap then [m] else []
      | _ => []) ++ enqueued (WSClient.writePump s ev) evs

/-- No write to the connection fails during the moves. -/
def noWriteError : List WriterEvent → Bool
  | [] => true
  | WriterEvent.nextWriter true :: _ => false
  | WriterEvent.closeWriter true :: _ => false
  | WriterEvent.tick true :: _ => false
  | _ :: evs => noWriteError evs

/-- The messages the writer has taken from the mailbox and not yet flushed in
a frame, as far as the phase shows them; `cur` is a batch in progress. -/
def inProgress (s : WriterState) (cur : List Msg) : Prop :=
  match s.phase with
  | WriterPhase.atSelect => cur = []
  | WriterPhase.received message => cur = [message]
  | WriterPhase.writing w n => cur ≠ [] ∧ w = batchBytes cur ∧ n ≤ s.send.buf.length
  | WriterPhase.returned => cur = []

/-! # Theorems -/

/-! ### The classifier -/

/-- Below `2^53` no bit is shifted out by the conversion. -/
theorem float64_exp_zero (a : Nat) (h : a < 2 ^ 53) : (Nat.log2 a + 1) - 53 = 0 := by
  rcases Nat.eq_zero_or_pos a with h0 | h0
  · subst h0; simp [Nat.log2]
  · have : Nat.log2 a < 53 := (Nat.log2_lt (by omega)).2 h
    omega

/-- When bits are shifted out, the kept significand has 53 bits. -/
theorem float64_quot_large (a : Nat) (h : 0 < (Nat.log2 a + 1) - 53) :
    2 ^ 52 ≤ a / 2 ^ ((Nat.log2 a + 1) - 53) := by
  have ha : a ≠ 0 := by
    rintro rfl
    simp [Nat.log2] at h
  have h1 : 2 ^ Nat.log2 a ≤ a := Nat.log2_self_le ha
  rw [Nat.le_div_iff_mul_le (by positivity), ← pow_add]
  have : 52 + (Nat.log2 a + 1 - 53) = Nat.log2 a := by omega
  rw [this]; exact h1

/-- The magnitude `float64` rounds to: exact below `2^53`, at least `2^52` otherwise. -/
theorem float64_spec (n : Int) :
    ∃ mag : Nat, (n.natAbs < 2 ^ 53 → mag = n.natAbs) ∧ (2 ^ 53 ≤ n.natAbs → 2 ^ 52 ≤ mag) ∧
      float64 n = if float64Overflow ≤ mag then (if n < 0 then F64.negInf else F64.posInf)
        else F64.fin (if n < 0 then -(mag : ℚ) else (mag : ℚ)) := by
  refine ⟨_, ?_, ?_, rfl⟩
  · intro h
    rw [float64_exp_zero _ h]
    simp [Nat.mod_one]
  · intro h
    have he : 0 < (Nat.log2 n.natAbs + 1) - 53 := by
      have : ¬ Nat.log2 n.natAbs < 53 := by
        rw [Nat.log2_lt (by intro h0; rw [h0] at h; norm_num at h)]
        omega
      omega
    have hq := float64_quot_large _ he
    have hp : 1 ≤ 2 ^ ((Nat.log2 n.natAbs + 1) - 53) := Nat.one_le_two_pow
    split
    · calc 2 ^ 52 ≤ 2 ^ 52 * 1 := by norm_num
        _ ≤ (n.natAbs / 2 ^ ((Nat.log2 n.natAbs + 1) - 53) + 1) * 2 ^ ((Nat.log2 n.natAbs + 1) - 53) :=
            Nat.mul_le_mul (by omega) hp
    · calc 2 ^ 52 ≤ 2 ^ 52 * 1 := by norm_num
        _ ≤ (n.natAbs / 2 ^ ((Nat.log2 n.natAbs + 1) - 53)) * 2 ^ ((Nat.log2 n.natAbs + 1) - 53) :=
            Nat.mul_le_mul hq hp

set_option exponentiation.threshold 2048 in
/-- Doubles reach far beyond `2^53`. -/
theorem float64Overflow_ge : 2 ^ 53 ≤ float64Overflow := by
  unfold float64Overflow
  exact Nat.pow_le_pow_right (by norm_num) (by norm_num)

/-- Rounding an integer to a double keeps it on its side of 150. -/
theorem float64_gt_150 (hr : Int) : F64.gt (float64 hr) (F64.fin 150) = true ↔ 150 < hr := by
  obtain ⟨mag, hsmall, hlarge, heq⟩ := float64_spec hr
  rw [heq]
  by_cases hneg : hr < 0
  · have h150 : ¬ (150 < hr) := by omega
    have hm : ¬ ((150 : ℚ) < -(mag : ℚ)) := by
      have : (0 : ℚ) ≤ (mag : ℚ) := Nat.cast_nonneg mag
      linarith
    split <;> simp [hneg, F64.gt, F64.lt, F64.key, h150, hm]
  · have habs : (hr.natAbs : Int) = hr := Int.natAbs_of_nonneg (by omega)
    simp only [hneg, if_false]
    split
    · rename_i hbig
      have : 150 < hr := by
        by_contra hc
        have hlt : hr.natAbs < 2 ^ 53 := by
          have : hr.natAbs ≤ 150 := by omega
          calc hr.natAbs ≤ 150 := this
            _ < 2 ^ 53 := by norm_num
        rw [hsmall hlt] at hbig
        have h8 : (2:ℕ) ^ 53 ≤ float64Overflow := float64Overflow_ge
        have : (2:ℕ) ^ 53 ≤ 150 := le_trans h8 (le_trans hbig (by omega))
        norm_num at this
      simp [F64.gt, F64.lt, F64.key, this]
    · simp only [F64.gt, F64.lt, F64.key, decide_eq_true_eq]
      have hcast : ((150 : ℚ) < (mag : ℚ)) ↔ 150 < mag := by exact_mod_cast Iff.rfl
      simp only [lt_self_iff_false, true_and, false_or, hcast]
      by_cases hlt : hr.natAbs < 2 ^ 53
      · rw [hsmall hlt]; omega
      · have h1 := hlarge (by omega)
        have h2 : (2:ℕ) ^ 53 ≤ hr.natAbs := by omega
        have h3 : (150 : ℕ) < 2 ^ 52 := by norm_num
        have h4 : (150 : ℕ) < 2 ^ 53 := by norm_num
        constructor
        · intro _; omega
        · intro _; omega

/-- Below `2^53` in magnitude the conversion to a double is exact. -/
theorem float64_exact (n : Int) (h : n.natAbs < 2 ^ 53) : float64 n = F64.fin (n : ℚ) := by
  obtain ⟨mag, hsmall, _, heq⟩ := float64_spec n
  rw [heq, hsmall h]
  have hno : ¬ float64Overflow ≤ n.natAbs := by
    have := float64Overflow_ge
    omega
  rw [if_neg hno]
  congr 1
  by_cases hneg : n < 0
  · rw [if_pos hneg, Nat.cast_natAbs, abs_of_neg hneg]
    push_cast
    ring
  · rw [if_neg hneg, Nat.cast_natAbs, abs_of_nonneg (by omega)]

/-- The three branches of the default detector, by the conditions the code tests. -/
theorem detect_default (hr : Int) (tempC : F64) (spo2 : Int) :
    (150 < hr → (NewSimpleDetector.Detect hr tempC spo2).IsAnomaly = true ∧
      (NewSimpleDetector.Detect hr tempC spo2).AnomalyType = "tachycardia") ∧
    (hr ≤ 150 → F64.ge tempC (F64.fin 38) = true →
      (NewSimpleDetector.Detect hr tempC spo2).IsAnomaly = true ∧
      (NewSimpleDetector.Detect hr tempC spo2).AnomalyType = "fever") ∧
    (hr ≤ 150 → F64.ge tempC (F64.fin 38) = false → spo2 < 90 →
      (NewSimpleDetector.Detect hr tempC spo2).IsAnomaly = true ∧
      (NewSimpleDetector.Detect hr tempC spo2).AnomalyType = "hypoxia") ∧
    (hr ≤ 150 → F64.ge tempC (F64.fin 38) = false → 90 ≤ spo2 →
      NewSimpleDetector.Detect hr tempC spo2 = AnomalyResult.none) := by
  have hgt := float64_gt_150 hr
  refine ⟨?_, ?_, ?_, ?_⟩
  · intro h
    simp [SimpleDetector.Detect, NewSimpleDetector, hgt.2 h]
  · intro h hge
    have : ¬ F64.gt (float64 hr) (F64.fin 150) = true := fun hc => absurd (hgt.1 hc) (by omega)
    simp [SimpleDetector.Detect, NewSimpleDetector, this, hge]
  · intro h hge hs
    have : ¬ F64.gt (float64 hr) (F64.fin 150) = true := fun hc => absurd (hgt.1 hc) (by omega)
    simp [SimpleDetector.Detect, NewSimpleDetector, this, hge, hs]
  · intro h hge hs
    have : ¬ F64.gt (float64 hr) (F64.fin 150) = true := fun hc => absurd (hgt.1 hc) (by omega)
    have hs' : ¬ spo2 < 90 := by omega
    simp [SimpleDetector.Detect, NewSimpleDetector, this, hge, hs']

/-- For a value that is not NaN, `>= 38.0` fails exactly when `< 38.0` holds. -/
theorem ge38_false_iff_lt (tempC : F64) (h : tempC ≠ F64.nan) :
    F64.ge tempC (F64.fin 38) = false ↔ F64.lt tempC (F64.fin 38) = true := by
  cases tempC <;> simp [F64.ge, F64.le, F64.lt, F64.key] at h ⊢

/-- The binary logarithm of `2^53 + 1`. -/
theorem log2_tie : Nat.log2 9007199254740993 = 53 := by
  rw [Nat.log2_eq_log_two]
  exact (Nat.log_eq_iff (Or.inl (by norm_num))).2 ⟨by norm_num, by norm_num⟩

set_option exponentiation.threshold 2048 in
/-- The double nearest to `2^53 + 1` is `2^53`: a tie, resolved to the even
significand. -/
theorem float64_tie : float64 9007199254740993 = F64.fin 9007199254740992 := by
  have hov : ¬ float64Overflow ≤ 9007199254740992 := by
    have h4 : (2 : ℕ) ^ 54 ≤ float64Overflow := by
      unfold float64Overflow
      exact Nat.pow_le_pow_right (by norm_num) (by norm_num)
    have h5 : (9007199254740992 : ℕ) < 2 ^ 54 := by norm_num
    omega
  have hn : (9007199254740993 : Int).natAbs = 9007199254740993 := rfl
  unfold float64
  simp only [hn, log2_tie]
  norm_num [hov]

/-- Claim C1 fails as stated: for a detector whose tachycardia threshold is
`2^53` and the heart rate `2^53 + 1`, the heart rate as a number is strictly
greater than the threshold, yet `float64(hr)` rounds to `2^53`, the test
`float64(hr) > threshold` fails, and `Detect` (temperature 37.0, spo2 98)
reports no anomaly. -/
theorem C1_counterexample_rounding :
    (9007199254740992 : ℚ) < ((9007199254740993 : Int) : ℚ) ∧
    (SimpleDetector.Detect
      { TachycardiaThreshold := F64.fin 9007199254740992, FeverThreshold := F64.fin 38
        LowSpO2Threshold := 90 } 9007199254740993 (F64.fin 37) 98).IsAnomaly = false ∧
    (SimpleDetector.Detect
      { TachycardiaThreshold := F64.fin 9007199254740992, FeverThreshold := F64.fin 38
        LowSpO2Threshold := 90 } 9007199254740993 (F64.fin 37) 98).AnomalyType = "" := by
  have hgt : F64.gt (F64.fin 9007199254740992) (F64.fin 9007199254740992) = false := by
    simp [F64.gt, F64.lt, F64.key]
  have hge : F64.ge (F64.fin 37) (F64.fin 38) = false := by
    simp [F64.ge, F64.le, F64.key]
    norm_num
  refine ⟨by norm_num, ?_, ?_⟩
  · unfold SimpleDetector.Detect
    rw [float64_tie]
    simp [hgt, hge, AnomalyResult.none]
  · unfold SimpleDetector.Detect
    rw [float64_tie]
    simp [hgt, hge, AnomalyResult.none]

/-- Claim C1, amended: for every detector `d` and every sample whose heart rate, converted
as the code converts it (`float64(hr)`), is strictly greater than
`d.TachycardiaThreshold`, `Detect` returns `IsAnomaly = true` and
`AnomalyType = "tachycardia"`, whatever the temperature and spo2; for a finite
threshold and a heart rate below `2^53` in magnitude (where the conversion is
exact) this is the comparison of the integer with the threshold; the default
threshold is 150 and the default detector does so for every integer heart rate
above 150; the sample hr 160, temp 39.0, spo2 98 is tachycardia, not fever. -/
theorem C1_tachycardia_checked_first :
    (∀ (d : SimpleDetector) (hr : Int) (tempC : F64) (spo2 : Int),
      F64.gt (float64 hr) d.TachycardiaThreshold = true →
        (d.Detect hr tempC spo2).IsAnomaly = true ∧
        (d.Detect hr tempC spo2).AnomalyType = "tachycardia") ∧
    (∀ (d : SimpleDetector) (q : ℚ) (hr : Int) (tempC : F64) (spo2 : Int),
      d.TachycardiaThreshold = F64.fin q → hr.natAbs < 2 ^ 53 → q < (hr : ℚ) →
        (d.Detect hr tempC spo2).IsAnomaly = true ∧
        (d.Detect hr tempC spo2).AnomalyType = "tachycardia") ∧
    NewSimpleDetector.TachycardiaThreshold = F64.fin 150 ∧
    (∀ (hr : Int) (tempC : F64) (spo2 : Int), 150 < hr →
        (NewSimpleDetector.Detect hr tempC spo2).IsAnomaly = true ∧
        (NewSimpleDetector.Detect hr tempC spo2).AnomalyType = "tachycardia") ∧
    (NewSimpleDetector.Detect 160 (F64.fin 39) 98).AnomalyType = "tachycardia" ∧
    (NewSimpleDetector.Detect 160 (F64.fin 39) 98).AnomalyType ≠ "fever" := by
  have hdef : ∀ (hr : Int) (tempC : F64) (spo2 : Int), 150 < hr →
      (NewSimpleDetector.Detect hr tempC spo2).IsAnomaly = true ∧
      (NewSimpleDetector.Detect hr tempC spo2).AnomalyType = "tachycardia" :=
    fun hr tempC spo2 h => (detect_default hr tempC spo2).1 h
  refine ⟨?_, ?_, rfl, hdef, (hdef 160 (F64.fin 39) 98 (by decide)).2, ?_⟩
  · intro d hr tempC spo2 h
    simp [SimpleDetector.Detect, h]
  · intro d q hr tempC spo2 hd hsmall hq
    have h : F64.gt (float64 hr) d.TachycardiaThreshold = true := by
      rw [float64_exact hr hsmall, hd]
      simp [F64.gt, F64.lt, F64.key, hq]
    simp [SimpleDetector.Detect, h]
  · rw [(hdef 160 (F64.fin 39) 98 (by decide)).2]
    decide

/-- Witness for C1: hr 160 is above 150, and (160, 39.0, 98) is tachycardia. -/
theorem C1_witness :
    (150 : Int) < 160 ∧ (NewSimpleDetector.Detect 160 (F64.fin 39) 98).IsAnomaly = true ∧
      (NewSimpleDetector.Detect 160 (F64.fin 39) 98).AnomalyType = "tachycardia" :=
  ⟨by decide, C1_tachycardia_checked_first.2.2.2.1 160 (F64.fin 39) 98 (by decide)⟩

/-- Claim C2: for the default detector and every input, `Detect` returns
`AnomalyType = "fever"` with `IsAnomaly = true` exactly when `hr <= 150` and
`tempC >= 38.0`, for every spo2 (so fever is consulted after tachycardia and
wins over hypoxia); the boundary 38.0 is a fever, and hr 80, temp 38.5, spo2 98
is a fever. -/
theorem C2_fever_iff (hr : Int) (tempC : F64) (spo2 : Int) :
    (((NewSimpleDetector.Detect hr tempC spo2).AnomalyType = "fever" ∧
        (NewSimpleDetector.Detect hr tempC spo2).IsAnomaly = true) ↔
      (hr ≤ 150 ∧ F64.ge tempC (F64.fin 38) = true)) ∧
    (NewSimpleDetector.Detect 80 (F64.fin 38) 98).AnomalyType = "fever" ∧
    (NewSimpleDetector.Detect 80 (F64.fin (77 / 2)) 98).AnomalyType = "fever" := by
  obtain ⟨h1, h2, h3, h4⟩ := detect_default hr tempC spo2
  refine ⟨⟨?_, fun h => ⟨(h2 h.1 h.2).2, (h2 h.1 h.2).1⟩⟩, ?_, ?_⟩
  · rintro ⟨ht, _⟩
    by_cases hhr : 150 < hr
    · rw [(h1 hhr).2] at ht; exact absurd ht (by decide)
    · have hle : hr ≤ 150 := by omega
      refine ⟨hle, ?_⟩
      by_contra hge
      have hge' : F64.ge tempC (F64.fin 38) = false := by simpa using hge
      by_cases hs : spo2 < 90
      · rw [(h3 hle hge' hs).2] at ht; exact absurd ht (by decide)
      · rw [h4 hle hge' (by omega)] at ht; exact absurd ht (by decide)
  · refine ((detect_default 80 (F64.fin 38) 98).2.1 (by decide) ?_).2
    simp [F64.ge, F64.le, F64.key]
  · refine ((detect_default 80 (F64.fin (77 / 2)) 98).2.1 (by decide) ?_).2
    simp [F64.ge, F64.le, F64.key]; norm_num

/-- Claim C3 fails as stated: for hr 80, spo2 85 and a NaN temperature `Detect`
returns hypoxia (NaN >= 38.0 is false, so the fever rule does not fire), while
`temperature < 38.0` is false for NaN. -/
theorem C3_counterexample_nan :
    ¬ (((NewSimpleDetector.Detect 80 F64.nan 85).AnomalyType = "hypoxia" ∧
          (NewSimpleDetector.Detect 80 F64.nan 85).IsAnomaly = true) ↔
        ((80 : Int) ≤ 150 ∧ F64.lt F64.nan (F64.fin 38) = true ∧ (85 : Int) < 90)) := by
  have h := (detect_default 80 F64.nan 85).2.2.1 (by decide) (by simp [F64.ge, F64.le, F64.key])
    (by decide)
  intro hiff
  have := (hiff.1 ⟨h.2, h.1⟩).2.1
  simp [F64.lt, F64.key] at this

/-- Claim C3, amended: for the default detector and every input, `Detect` returns
`AnomalyType = "hypoxia"` with `IsAnomaly = true` exactly when `hr <= 150`, the
test `tempC >= 38.0` fails and `spo2 < 90`; for every temperature that is not
NaN the failing test is the same as `tempC < 38.0`; with spo2 = 90 and no other
breach the verdict is not hypoxia; hr 80, temp 37.0, spo2 85 is hypoxia. -/
theorem C3_hypoxia_iff (hr : Int) (tempC : F64) (spo2 : Int) :
    (((NewSimpleDetector.Detect hr tempC spo2).AnomalyType = "hypoxia" ∧
        (NewSimpleDetector.Detect hr tempC spo2).IsAnomaly = true) ↔
      (hr ≤ 150 ∧ F64.ge tempC (F64.fin 38) = false ∧ spo2 < 90)) ∧
    (tempC ≠ F64.nan →
      (((NewSimpleDetector.Detect hr tempC spo2).AnomalyType = "hypoxia" ∧
          (NewSimpleDetector.Detect hr tempC spo2).IsAnomaly = true) ↔
        (hr ≤ 150 ∧ F64.lt tempC (F64.fin 38) = true ∧ spo2 < 90))) ∧
    (hr ≤ 150 → F64.ge tempC (F64.fin 38) = false →
      (NewSimpleDetector.Detect hr tempC 90).AnomalyType ≠ "hypoxia") ∧
    (NewSimpleDetector.Detect 80 (F64.fin 37) 85).AnomalyType = "hypoxia" := by
  have key : ((NewSimpleDetector.Detect hr tempC spo2).AnomalyType = "hypoxia" ∧
        (NewSimpleDetector.Detect hr tempC spo2).IsAnomaly = true) ↔
      (hr ≤ 150 ∧ F64.ge tempC (F64.fin 38) = false ∧ spo2 < 90) := by
    obtain ⟨h1, h2, h3, h4⟩ := detect_default hr tempC spo2
    refine ⟨?_, fun h => ⟨(h3 h.1 h.2.1 h.2.2).2, (h3 h.1 h.2.1 h.2.2).1⟩⟩
    rintro ⟨ht, _⟩
    by_cases hhr : 150 < hr
    · rw [(h1 hhr).2] at ht; exact absurd ht (by decide)
    · have hle : hr ≤ 150 := by omega
      by_cases hge : F64.ge tempC (F64.fin 38) = true
      · rw [(h2 hle hge).2] at ht; exact absurd ht (by decide)
      · have hge' : F64.ge tempC (F64.fin 38) = false := by simpa using hge
        by_cases hs : spo2 < 90
        · exact ⟨hle, hge', hs⟩
        · rw [h4 hle hge' (by omega)] at ht; exact absurd ht (by decide)
  refine ⟨key, fun hn => ?_, ?_, ?_⟩
  · rw [key, ge38_false_iff_lt tempC hn]
  · intro hle hge
    rw [(detect_default hr tempC 90).2.2.2 hle hge (by decide)]
    decide
  · refine ((detect_default 80 (F64.fin 37) 85).2.2.1 (by decide) ?_ (by decide)).2
    simp [F64.ge, F64.le, F64.key]; norm_num

/-- Witness for C3: 37.0 is not NaN, and (80, 37.0, 85) is hypoxia exactly by the three tests. -/
theorem C3_witness :
    F64.fin 37 ≠ F64.nan ∧
    (((NewSimpleDetector.Detect 80 (F64.fin 37) 85).AnomalyType = "hypoxia" ∧
        (NewSimpleDetector.Detect 80 (F64.fin 37) 85).IsAnomaly = true) ↔
      ((80 : Int) ≤ 150 ∧ F64.lt (F64.fin 37) (F64.fin 38) = true ∧ (85 : Int) < 90)) :=
  ⟨by decide, (C3_hypoxia_iff 80 (F64.fin 37) 85).2.1 (by decide)⟩

/-- Claim C4 fails as stated: for hr 80, spo2 96 and a NaN temperature `Detect`
returns the no-anomaly verdict, while `temperature < 38.0` is false for NaN. -/
theorem C4_counterexample_nan :
    ¬ (NewSimpleDetector.Detect 80 F64.nan 96 = AnomalyResult.none ↔
        ((80 : Int) ≤ 150 ∧ F64.lt F64.nan (F64.fin 38) = true ∧ (90 : Int) ≤ 96)) := by
  have h := (detect_default 80 F64.nan 96).2.2.2 (by decide) (by simp [F64.ge, F64.le, F64.key])
    (by decide)
  intro hiff
  have := (hiff.1 h).2.1
  simp [F64.lt, F64.key] at this

/-- Claim C4, amended: for the default detector and every input, `Detect` returns
the no-anomaly verdict (flag false, type and reason empty) if and only if
`hr <= 150`, the test `tempC >= 38.0` fails and `spo2 >= 90`; for every
temperature that is not NaN the failing test is the same as `tempC < 38.0`;
for every input the flag is true exactly when the type is one of tachycardia,
fever, hypoxia and false exactly when the type is empty; hr 80, temp 37.0,
spo2 96 gives the no-anomaly verdict. -/
theorem C4_none_iff (hr : Int) (tempC : F64) (spo2 : Int) :
    (NewSimpleDetector.Detect hr tempC spo2 =
        { IsAnomaly := false, AnomalyType := "", Reason := "" } ↔
      (hr ≤ 150 ∧ F64.ge tempC (F64.fin 38) = false ∧ 90 ≤ spo2)) ∧
    (tempC ≠ F64.nan →
      (NewSimpleDetector.Detect hr tempC spo2 =
          { IsAnomaly := false, AnomalyType := "", Reason := "" } ↔
        (hr ≤ 150 ∧ F64.lt tempC (F64.fin 38) = true ∧ 90 ≤ spo2))) ∧
    ((NewSimpleDetector.Detect hr tempC spo2).IsAnomaly = true ↔
      ((NewSimpleDetector.Detect hr tempC spo2).AnomalyType = "tachycardia" ∨
       (NewSimpleDetector.Detect hr tempC spo2).AnomalyType = "fever" ∨
       (NewSimpleDetector.Detect hr tempC spo2).AnomalyType = "hypoxia")) ∧
    ((NewSimpleDetector.Detect hr tempC spo2).IsAnomaly = false ↔
      (NewSimpleDetector.Detect hr tempC spo2).AnomalyType = "") ∧
    NewSimpleDetector.Detect 80 (F64.fin 37) 96 =
      { IsAnomaly := false, AnomalyType := "", Reason := "" } := by
  obtain ⟨h1, h2, h3, h4⟩ := detect_default hr tempC spo2
  have hnone : AnomalyResult.none = { IsAnomaly := false, AnomalyType := "", Reason := "" } := rfl
  -- the four exhaustive cases of the tests
  have cases4 : (150 < hr) ∨ (hr ≤ 150 ∧ F64.ge tempC (F64.fin 38) = true) ∨
      (hr ≤ 150 ∧ F64.ge tempC (F64.fin 38) = false ∧ spo2 < 90) ∨
      (hr ≤ 150 ∧ F64.ge tempC (F64.fin 38) = false ∧ 90 ≤ spo2) := by
    by_cases hhr : 150 < hr
    · exact Or.inl hhr
    · have hle : hr ≤ 150 := by omega
      by_cases hge : F64.ge tempC (F64.fin 38) = true
      · exact Or.inr (Or.inl ⟨hle, hge⟩)
      · have hge' : F64.ge tempC (F64.fin 38) = false := by simpa using hge
        by_cases hs : spo2 < 90
        · exact Or.inr (Or.inr (Or.inl ⟨hle, hge', hs⟩))
        · exact Or.inr (Or.inr (Or.inr ⟨hle, hge', by omega⟩))
  have key : NewSimpleDetector.Detect hr tempC spo2 =
        { IsAnomaly := false, AnomalyType := "", Reason := "" } ↔
      (hr ≤ 150 ∧ F64.ge tempC (F64.fin 38) = false ∧ 90 ≤ spo2) := by
    refine ⟨fun heq => ?_, fun h => by rw [← hnone]; exact h4 h.1 h.2.1 h.2.2⟩
    have hflag : (NewSimpleDetector.Detect hr tempC spo2).IsAnomaly = false := by rw [heq]
    rcases cases4 with h | h | h | h
    · rw [(h1 h).1] at hflag; exact absurd hflag (by decide)
    · rw [(h2 h.1 h.2).1] at hflag; exact absurd hflag (by decide)
    · rw [(h3 h.1 h.2.1 h.2.2).1] at hflag; exact absurd hflag (by decide)
    · exact h
  refine ⟨key, fun hn => ?_, ?_, ?_, ?_⟩
  · rw [key, ge38_false_iff_lt tempC hn]
  · rcases cases4 with h | h | h | h
    · simp [(h1 h).1, (h1 h).2]
    · simp [(h2 h.1 h.2).1, (h2 h.1 h.2).2]
    · simp [(h3 h.1 h.2.1 h.2.2).1, (h3 h.1 h.2.1 h.2.2).2]
    · rw [h4 h.1 h.2.1 h.2.2]; decide
  · rcases cases4 with h | h | h | h
    · rw [(h1 h).1, (h1 h).2]; decide
    · rw [(h2 h.1 h.2).1, (h2 h.1 h.2).2]; decide
    · rw [(h3 h.1 h.2.1 h.2.2).1, (h3 h.1 h.2.1 h.2.2).2]; decide
    · rw [h4 h.1 h.2.1 h.2.2]; decide
  · rw [← hnone]
    refine (detect_default 80 (F64.fin 37) 96).2.2.2 (by decide) ?_ (by decide)
    simp [F64.ge, F64.le, F64.key]; norm_num

/-- Witness for C4: 37.0 is not NaN, and (80, 37.0, 96) gives the no-anomaly verdict. -/
theorem C4_witness :
    F64.fin 37 ≠ F64.nan ∧
    (NewSimpleDetector.Detect 80 (F64.fin 37) 96 =
        { IsAnomaly := false, AnomalyType := "", Reason := "" } ↔
      ((80 : Int) ≤ 150 ∧ F64.lt (F64.fin 37) (F64.fin 38) = true ∧ (90 : Int) ≤ 96)) :=
  ⟨by decide, (C4_none_iff 80 (F64.fin 37) 96).2.1 (by decide)⟩

/-! ### Mailboxes and the registry under one step -/

@[simp] theorem setSend_clients (s : HubState) (c : ClientPtr) (ch : Chan) :
    (s.setSend c ch).clients = s.clients := rfl

theorem setSend_send (s : HubState) (c x : ClientPtr) (ch : Chan) :
    (s.setSend c ch).send x = if x = c then ch else s.send x := by
  unfold HubState.setSend HubState.send
  by_cases h : x = c
  · subst h; simp
  · simp [h]

theorem run_nil (s : HubState) : WSHub.Run s [] = Except.ok s := rfl

theorem run_cons (s : HubState) (ev : Event) (evs : List Event) :
    WSHub.Run s (ev :: evs) =
      match WSHub.step s ev with
      | Except.ok s1 => WSHub.Run s1 evs
      | Except.error e => Except.error e := by
  unfold WSHub.Run
  rw [List.foldlM_cons]
  cases WSHub.step s ev <;> rfl

theorem run_append (s : HubState) (evs evs2 : List Event) :
    WSHub.Run s (evs ++ evs2) =
      match WSHub.Run s evs with
      | Except.ok s1 => WSHub.Run s1 evs2
      | Except.error e => Except.error e := by
  induction evs generalizing s with
  | nil => rfl
  | cons ev evs ih =>
    rw [List.cons_append, run_cons, run_cons]
    cases WSHub.step s ev with
    | error e => rfl
    | ok s1 => exact ih s1

theorem run_concat (s : HubState) (evs : List Event) (ev : Event) :
    WSHub.Run s (evs ++ [ev]) =
      match WSHub.Run s evs with
      | Except.ok s1 => WSHub.step s1 ev
      | Except.error e => Except.error e := by
  rw [run_append]
  cases WSHub.Run s evs with
  | error e => rfl
  | ok s1 =>
    show WSHub.Run s1 [ev] = WSHub.step s1 ev
    rw [run_cons]
    cases WSHub.step s1 ev <;> rfl

theorem setSend_heap_ne (s : HubState) (c x : ClientPtr) (ch : Chan) (h : x ≠ c) :
    (s.setSend c ch).heap x = s.heap x := by
  simp [HubState.setSend, h]

theorem setSend_meta (s : HubState) (c x : ClientPtr) (ch : Chan) :
    ((s.setSend c ch).heap x).tenantID = (s.heap x).tenantID ∧
    ((s.setSend c ch).heap x).subs = (s.heap x).subs := by
  unfold HubState.setSend
  by_cases h : x = c
  · subst h; simp
  · simp [h]

/-- A non-blocking send either panics (closed mailbox), enqueues (room), or
falls through to the default branch (full). -/
theorem trySend_cases (ch : Chan) (m : Msg) :
    (ch.closed = true ∧ ch.trySend m = Except.error Panic.sendOnClosedChannel) ∨
    (ch.closed = false ∧ ch.buf.length < ch.cap ∧
      ch.trySend m = Except.ok (some { ch with buf := ch.buf ++ [m] })) ∨
    (ch.closed = false ∧ ¬ ch.buf.length < ch.cap ∧ ch.trySend m = Except.ok none) := by
  unfold Chan.trySend
  by_cases hc : ch.closed = true
  · left; simp [hc]
  · have hc' : ch.closed = false := by simpa using hc
    by_cases hr : ch.buf.length < ch.cap
    · right; left; simp [hc', hr]
    · right; right; simp [hc', hr]

theorem close_open (ch : Chan) (h : ch.closed = false) :
    ch.close = Except.ok { ch with closed := true } := by
  simp [Chan.close, h]

theorem close_closed (ch : Chan) (h : ch.closed = true) :
    ch.close = Except.error Panic.closeOfClosedChannel := by
  simp [Chan.close, h]

/-- One pass of the broadcast loop over distinct keys `cs` that ends without a
panic: every visited mailbox was open; a visited session with room got the
message at the tail and stays registered, a visited session without room is
closed and erased; nothing else changes. -/
theorem broadcastLoop_ok (m : Msg) (cs : List ClientPtr) :
    ∀ (s s' : HubState), cs.Nodup → s.clients.Nodup →
      WSHub.broadcastLoop m cs s = Except.ok s' →
      (∀ x ∈ cs, (s.send x).closed = false) ∧
      (∀ x, x ∉ cs → s'.heap x = s.heap x) ∧
      (∀ x ∈ cs, (s.send x).buf.length < (s.send x).cap →
        s'.send x = { s.send x with buf := (s.send x).buf ++ [m] }) ∧
      (∀ x ∈ cs, ¬ (s.send x).buf.length < (s.send x).cap →
        s'.send x = { s.send x with closed := true }) ∧
      (∀ x, (s'.heap x).tenantID = (s.heap x).tenantID ∧ (s'.heap x).subs = (s.heap x).subs) ∧
      s'.clients.Nodup ∧
      (∀ x, x ∈ s'.clients ↔
        x ∈ s.clients ∧ (x ∈ cs → (s.send x).buf.length < (s.send x).cap)) := by
  induction cs with
  | nil =>
    intro s s' _ hcl h
    have hs : s' = s := by
      have : Except.ok s = (Except.ok s' : Except Panic HubState) := h
      injection this with h1
      exact h1.symm
    subst hs
    simp [hcl]
  | cons c cs ih =>
    intro s s' hcs hcl h
    have hc_notin : c ∉ cs := (List.nodup_cons.1 hcs).1
    have hcs' : cs.Nodup := (List.nodup_cons.1 hcs).2
    have hne : ∀ x ∈ cs, x ≠ c := fun x hx hxc => hc_notin (hxc ▸ hx)
    unfold WSHub.broadcastLoop at h
    rcases trySend_cases (s.send c) m with ⟨_, ht⟩ | ⟨hopen, hroom, ht⟩ | ⟨hopen, hroom, ht⟩
    · rw [ht] at h; cases h
    · rw [ht] at h
      simp only at h
      obtain ⟨i1, i2, i3, i4, i5, i6, i7⟩ := ih _ s' hcs' (by simpa using hcl) h
      have hsend : ∀ x, x ≠ c →
          (s.setSend c { s.send c with buf := (s.send c).buf ++ [m] }).send x = s.send x := by
        intro x hx; rw [setSend_send]; simp [hx]
      refine ⟨?_, ?_, ?_, ?_, ?_, i6, ?_⟩
      · intro x hx
        rcases List.mem_cons.1 hx with rfl | hx
        · exact hopen
        · rw [← hsend x (hne x hx)]; exact i1 x hx
      · intro x hx
        have hxc : x ≠ c := fun e => hx (e ▸ List.mem_cons_self _ _)
        rw [i2 x (fun hm => hx (List.mem_cons_of_mem _ hm)), setSend_heap_ne _ _ _ _ hxc]
      · intro x hx hr
        rcases List.mem_cons.1 hx with rfl | hx
        · have := i2 x hc_notin
          unfold HubState.send
          rw [this]
          simp [HubState.setSend, HubState.send]
        · have h3 := i3 x hx (by rw [hsend x (hne x hx)]; exact hr)
          rw [h3, hsend x (hne x hx)]
      · intro x hx hr
        rcases List.mem_cons.1 hx with rfl | hx
        · exact absurd hroom hr
        · have h4 := i4 x hx (by rw [hsend x (hne x hx)]; exact hr)
          rw [h4, hsend x (hne x hx)]
      · intro x
        have := setSend_meta s c x { s.send c with buf := (s.send c).buf ++ [m] }
        exact ⟨(i5 x).1.trans this.1, (i5 x).2.trans this.2⟩
      · intro x
        rw [i7 x, setSend_clients]
        constructor
        · rintro ⟨hx, himp⟩
          refine ⟨hx, fun hm => ?_⟩
          rcases List.mem_cons.1 hm with rfl | hm
          · exact hroom
          · rw [← hsend x (hne x hm)]; exact himp hm
        · rintro ⟨hx, himp⟩
          refine ⟨hx, fun hm => ?_⟩
          rw [hsend x (hne x hm)]; exact himp (List.mem_cons_of_mem _ hm)
    · rw [ht] at h
      simp only at h
      rw [close_open _ hopen] at h
      simp only at h
      have hcl1 : ({ (s.setSend c { s.send c with closed := true }) with
          clients := s.clients.erase c } : HubState).clients.Nodup := hcl.erase c
      obtain ⟨i1, i2, i3, i4, i5, i6, i7⟩ := ih _ s' hcs' hcl1 h
      have hsend : ∀ x, x ≠ c →
          ({ (s.setSend c { s.send c with closed := true }) with
            clients := s.clients.erase c } : HubState).send x = s.send x := by
        intro x hx
        show (s.setSend c { s.send c with closed := true }).send x = s.send x
        rw [setSend_send]; simp [hx]
      refine ⟨?_, ?_, ?_, ?_, ?_, i6, ?_⟩
      · intro x hx
        rcases List.mem_cons.1 hx with rfl | hx
        · exact hopen
        · rw [← hsend x (hne x hx)]; exact i1 x hx
      · intro x hx
        have hxc : x ≠ c := fun e => hx (e ▸ List.mem_cons_self _ _)
        rw [i2 x (fun hm => hx (List.mem_cons_of_mem _ hm))]
        exact setSend_heap_ne _ _ _ _ hxc
      · intro x hx hr
        rcases List.mem_cons.1 hx with rfl | hx
        · exact absurd hr hroom
        · have h3 := i3 x hx (by rw [hsend x (hne x hx)]; exact hr)
          rw [h3, hsend x (hne x hx)]
      · intro x hx hr
        rcases List.mem_cons.1 hx with rfl | hx
        · have := i2 x hc_notin
          unfold HubState.send
          rw [this]
          simp [HubState.setSend, HubState.send]
        · have h4 := i4 x hx (by rw [hsend x (hne x hx)]; exact hr)
          rw [h4, hsend x (hne x hx)]
      · intro x
        have := setSend_meta s c x { s.send c with closed := true }
        exact ⟨(i5 x).1.trans this.1, (i5 x).2.trans this.2⟩
      · intro x
        rw [i7 x]
        show x ∈ s.clients.erase c ∧ _ ↔ _
        rw [hcl.mem_erase_iff]
        constructor
        · rintro ⟨⟨hxc, hx⟩, himp⟩
          refine ⟨hx, fun hm => ?_⟩
          rcases List.mem_cons.1 hm with rfl | hm
          · exact absurd rfl hxc
          · rw [← hsend x (hne x hm)]; exact himp hm
        · rintro ⟨hx, himp⟩
          have hxc : x ≠ c := by
            rintro rfl
            exact hroom (himp (List.mem_cons_self _ _))
          refine ⟨⟨hxc, hx⟩, fun hm => ?_⟩
          rw [hsend x hxc]; exact himp (List.mem_cons_of_mem _ hm)

/-- The broadcast loop does not panic when every key it visits has an open mailbox. -/
theorem broadcastLoop_total (m : Msg) (cs : List ClientPtr) :
    ∀ (s : HubState), cs.Nodup → (∀ x ∈ cs, (s.send x).closed = false) →
      ∃ s', WSHub.broadcastLoop m cs s = Except.ok s' := by
  induction cs with
  | nil => intro s _ _; exact ⟨s, rfl⟩
  | cons c cs ih =>
    intro s hcs hopen
    have hc_notin : c ∉ cs := (List.nodup_cons.1 hcs).1
    have hcs' : cs.Nodup := (List.nodup_cons.1 hcs).2
    have hne : ∀ x ∈ cs, x ≠ c := fun x hx hxc => hc_notin (hxc ▸ hx)
    have hco := hopen c (List.mem_cons_self _ _)
    unfold WSHub.broadcastLoop
    rcases trySend_cases (s.send c) m with ⟨hcl, _⟩ | ⟨_, _, ht⟩ | ⟨_, _, ht⟩
    · rw [hco] at hcl; cases hcl
    · rw [ht]
      apply ih _ hcs'
      intro x hx
      rw [setSend_send]; simp [hne x hx]
      exact hopen x (List.mem_cons_of_mem _ hx)
    · rw [ht, close_open _ hco]
      apply ih _ hcs'
      intro x hx
      show ((s.setSend c { s.send c with closed := true }).send x).closed = false
      rw [setSend_send]; simp [hne x hx]
      exact hopen x (List.mem_cons_of_mem _ hx)

/-- Go visits the keys of a map in an unspecified order. The outcome of the
broadcast loop does not depend on it: visiting the same keys in another order
panics in the same cases and otherwise yields the same session objects and the
same registry members. -/
theorem broadcastLoop_any_order (m : Msg) (cs cs2 : List ClientPtr) (s s1 : HubState)
    (hperm : cs.Perm cs2) (hcs : cs.Nodup) (hcl : s.clients.Nodup)
    (h1 : WSHub.broadcastLoop m cs s = Except.ok s1) :
    ∃ s2, WSHub.broadcastLoop m cs2 s = Except.ok s2 ∧ s2.heap = s1.heap ∧
      ∀ x, x ∈ s2.clients ↔ x ∈ s1.clients := by
  have hcs2 : cs2.Nodup := hperm.nodup_iff.1 hcs
  obtain ⟨a1, a2, a3, a4, a5, _, a7⟩ := broadcastLoop_ok m cs s s1 hcs hcl h1
  obtain ⟨s2, h2⟩ := broadcastLoop_total m cs2 s hcs2
    (fun x hx => a1 x (hperm.mem_iff.2 hx))
  obtain ⟨_, b2, b3, b4, b5, _, b7⟩ := broadcastLoop_ok m cs2 s s2 hcs2 hcl h2
  refine ⟨s2, h2, ?_, ?_⟩
  · funext x
    have hsend : s2.send x = s1.send x := by
      by_cases hx : x ∈ cs
      · have hx2 : x ∈ cs2 := hperm.mem_iff.1 hx
        by_cases hr : (s.send x).buf.length < (s.send x).cap
        · rw [a3 x hx hr, b3 x hx2 hr]
        · rw [a4 x hx hr, b4 x hx2 hr]
      · have hx2 : x ∉ cs2 := fun h => hx (hperm.mem_iff.2 h)
        unfold HubState.send
        rw [a2 x hx, b2 x hx2]
    have ht := (b5 x).1.trans (a5 x).1.symm
    have hsu := (b5 x).2.trans (a5 x).2.symm
    unfold HubState.send at hsend
    cases h2x : s2.heap x
    cases h1x : s1.heap x
    rw [h2x, h1x] at hsend ht hsu
    simp only at hsend ht hsu
    rw [hsend, ht, hsu]
  · intro x
    rw [a7 x, b7 x, hperm.mem_iff]

/-! ### Single events -/

theorem step_register (s : HubState) (c : ClientPtr) :
    WSHub.step s (Event.register c) = Except.ok { s with clients := s.clients.insert c } := rfl

theorem step_recv (s : HubState) (c : ClientPtr) :
    WSHub.step s (Event.recv c) = Except.ok (s.setSend c (s.send c).recv) := rfl

theorem step_broadcast (s : HubState) (m : Msg) :
    WSHub.step s (Event.broadcast m) = WSHub.broadcastLoop m s.clients s := rfl

theorem step_unregister_absent (s : HubState) (c : ClientPtr) (h : c ∉ s.clients) :
    WSHub.step s (Event.unregister c) = Except.ok s := by
  simp [WSHub.step, h]

theorem step_unregister_open (s : HubState) (c : ClientPtr) (h : c ∈ s.clients)
    (ho : (s.send c).closed = false) :
    WSHub.step s (Event.unregister c) =
      Except.ok { (s.setSend c { s.send c with closed := true }) with
        clients := s.clients.erase c } := by
  simp [WSHub.step, h, close_open _ ho]

theorem step_unregister_closed (s : HubState) (c : ClientPtr) (h : c ∈ s.clients)
    (ho : (s.send c).closed = true) :
    WSHub.step s (Event.unregister c) = Except.error Panic.closeOfClosedChannel := by
  simp [WSHub.step, h, close_closed _ ho]

/-- The registry keeps its keys distinct under every event. -/
theorem step_nodup (s s' : HubState) (ev : Event) (hnd : s.clients.Nodup)
    (h : WSHub.step s ev = Except.ok s') : s'.clients.Nodup := by
  cases ev with
  | register c =>
    rw [step_register] at h
    injection h with h; subst h
    exact hnd.insert
  | unregister c =>
    by_cases hc : c ∈ s.clients
    · by_cases ho : (s.send c).closed = true
      · rw [step_unregister_closed s c hc ho] at h; cases h
      · rw [step_unregister_open s c hc (by simpa using ho)] at h
        injection h with h; subst h
        exact hnd.erase c
    · rw [step_unregister_absent s c hc] at h
      injection h with h; subst h
      exact hnd
  | broadcast m =>
    rw [step_broadcast] at h
    exact (broadcastLoop_ok m s.clients s s' hnd hnd h).2.2.2.2.2.1
  | recv c =>
    rw [step_recv] at h
    injection h with h; subst h
    exact hnd

theorem run_nodup (evs : List Event) :
    ∀ (s s' : HubState), s.clients.Nodup → WSHub.Run s evs = Except.ok s' → s'.clients.Nodup := by
  induction evs with
  | nil =>
    intro s s' hnd h
    rw [run_nil] at h; injection h with h; subst h; exact hnd
  | cons ev evs ih =>
    intro s s' hnd h
    rw [run_cons] at h
    cases hs : WSHub.step s ev with
    | error e => rw [hs] at h; cases h
    | ok s1 =>
      rw [hs] at h
      exact ih s1 s' (step_nodup s s1 ev hnd hs) h

/-- Membership in the registry after one event that did not panic. -/
theorem step_mem (s s' : HubState) (ev : Event) (hnd : s.clients.Nodup)
    (h : WSHub.step s ev = Except.ok s') (x : ClientPtr) :
    x ∈ s'.clients ↔
      match ev with
      | Event.register c => x = c ∨ x ∈ s.clients
      | Event.unregister c => x ∈ s.clients ∧ x ≠ c
      | Event.broadcast _ => x ∈ s.clients ∧ (s.send x).buf.length < (s.send x).cap
      | Event.recv _ => x ∈ s.clients := by
  cases ev with
  | register c =>
    rw [step_register] at h
    injection h with h; subst h
    simp [List.mem_insert_iff]
  | unregister c =>
    by_cases hc : c ∈ s.clients
    · by_cases ho : (s.send c).closed = true
      · rw [step_unregister_closed s c hc ho] at h; cases h
      · rw [step_unregister_open s c hc (by simpa using ho)] at h
        injection h with h; subst h
        show x ∈ s.clients.erase c ↔ _
        rw [hnd.mem_erase_iff]; tauto
    · rw [step_unregister_absent s c hc] at h
      injection h with h; subst h
      simp only
      constructor
      · intro hx; exact ⟨hx, fun e => hc (e ▸ hx)⟩
      · exact fun hx => hx.1
  | broadcast m =>
    rw [step_broadcast] at h
    have := (broadcastLoop_ok m s.clients s s' hnd hnd h).2.2.2.2.2.2 x
    simp only
    rw [this]
    constructor
    · exact fun hx => ⟨hx.1, hx.2 hx.1⟩
    · exact fun hx => ⟨hx.1, fun _ => hx.2⟩
  | recv c =>
    rw [step_recv] at h
    injection h with h; subst h
    simp

/-- An event that is not about session `x` and is not a broadcast visiting it
leaves the mailbox of `x` alone; in general the closed flag is only ever set,
the capacity never changes, and the buffer changes by one append or one take. -/
theorem step_send (s s' : HubState) (ev : Event) (hnd : s.clients.Nodup)
    (h : WSHub.step s ev = Except.ok s') (x : ClientPtr) :
    (s'.send x).cap = (s.send x).cap ∧
    ((s.send x).closed = true → (s'.send x).closed = true) ∧
    ((s'.send x).closed = true → (s.send x).closed = true ∨ x ∈ s.clients) ∧
    (x ∉ s.clients → (s'.send x).closed = (s.send x).closed ∧
      (s'.send x).buf <:+ (s.send x).buf) := by
  cases ev with
  | register c =>
    rw [step_register] at h
    injection h with h; subst h
    exact ⟨rfl, id, Or.inl, fun _ => ⟨rfl, List.suffix_refl _⟩⟩
  | unregister c =>
    by_cases hc : c ∈ s.clients
    · by_cases ho : (s.send c).closed = true
      · rw [step_unregister_closed s c hc ho] at h; cases h
      · rw [step_unregister_open s c hc (by simpa using ho)] at h
        injection h with h; subst h
        have e : ∀ y, HubState.send { (s.setSend c { s.send c with closed := true }) with
            clients := s.clients.erase c } y =
              if y = c then { s.send c with closed := true } else s.send y :=
          fun y => setSend_send s c y _
        rw [e x]
        by_cases hx : x = c
        · subst hx
          rw [if_pos rfl]
          exact ⟨rfl, fun _ => rfl, fun _ => Or.inr hc, fun hn => absurd hc hn⟩
        · rw [if_neg hx]
          exact ⟨rfl, id, Or.inl, fun _ => ⟨rfl, List.suffix_refl _⟩⟩
    · rw [step_unregister_absent s c hc] at h
      injection h with h; subst h
      exact ⟨rfl, id, Or.inl, fun _ => ⟨rfl, List.suffix_refl _⟩⟩
  | broadcast m =>
    rw [step_broadcast] at h
    obtain ⟨_, i2, i3, i4, _, _, _⟩ := broadcastLoop_ok m s.clients s s' hnd hnd h
    by_cases hx : x ∈ s.clients
    · by_cases hr : (s.send x).buf.length < (s.send x).cap
      · rw [i3 x hx hr]
        exact ⟨rfl, id, Or.inl, fun hn => absurd hx hn⟩
      · rw [i4 x hx hr]
        exact ⟨rfl, fun _ => rfl, fun _ => Or.inr hx, fun hn => absurd hx hn⟩
    · have : s'.send x = s.send x := by unfold HubState.send; rw [i2 x hx]
      rw [this]
      exact ⟨rfl, id, Or.inl, fun _ => ⟨rfl, List.suffix_refl _⟩⟩
  | recv c =>
    rw [step_recv] at h
    injection h with h; subst h
    rw [setSend_send]
    by_cases hx : x = c
    · subst hx
      rw [if_pos rfl]
      unfold Chan.recv
      exact ⟨rfl, id, Or.inl, fun _ => ⟨rfl, List.tail_suffix _⟩⟩
    · rw [if_neg hx]
      exact ⟨rfl, id, Or.inl, fun _ => ⟨rfl, List.suffix_refl _⟩⟩

/-! ### Runs -/

theorem registered_append (a b : List Event) :
    registered (a ++ b) = registered a ++ registered b := by
  induction a with
  | nil => rfl
  | cons ev a ih =>
    cases ev <;> simp [registered, ih]

/-- A session is among the registered ones exactly when a register event names it. -/
theorem mem_registered (c : ClientPtr) (evs : List Event) :
    c ∈ registered evs ↔ Event.register c ∈ evs := by
  induction evs with
  | nil => simp [registered]
  | cons ev evs ih =>
    cases ev <;> simp [registered, ih]

/-- No event panics in a state whose registered sessions all have an open mailbox. -/
theorem step_total (s : HubState) (ev : Event) (hnd : s.clients.Nodup)
    (hopen : ∀ c ∈ s.clients, (s.send c).closed = false) :
    ∃ s', WSHub.step s ev = Except.ok s' := by
  cases ev with
  | register c => exact ⟨_, step_register s c⟩
  | unregister c =>
    by_cases hc : c ∈ s.clients
    · exact ⟨_, step_unregister_open s c hc (hopen c hc)⟩
    · exact ⟨_, step_unregister_absent s c hc⟩
  | broadcast m => exact broadcastLoop_total m s.clients s hnd hopen
  | recv c => exact ⟨_, step_recv s c⟩

/-- Invariant of the runs that register each session at most once, its mailbox
open to begin with: the run does not panic, registry keys are distinct, a
registered session has an open mailbox, only sessions registered so far are in
the registry or were closed by the hub, and capacities never change. -/
theorem run_invariant (heap : ClientPtr → WSClient) (evs : List Event) :
    (registered evs).Nodup → (∀ c ∈ registered evs, (heap c).send.closed = false) →
    ∃ s, WSHub.Run (NewWSHub heap) evs = Except.ok s ∧ s.clients.Nodup ∧
      (∀ c ∈ s.clients, (s.send c).closed = false) ∧
      (∀ c ∈ s.clients, c ∈ registered evs) ∧
      (∀ c, (s.send c).closed = true → (heap c).send.closed = true ∨ c ∈ registered evs) ∧
      (∀ c, (s.send c).cap = (heap c).send.cap) := by
  induction evs using List.reverseRecOn with
  | nil =>
    intro _ _
    refine ⟨NewWSHub heap, rfl, List.nodup_nil, ?_, ?_, ?_, ?_⟩
    · intro c hc; cases hc
    · intro c hc; cases hc
    · intro c hc; exact Or.inl hc
    · intro c; rfl
  | append_singleton evs ev ih =>
    intro hnd hopen
    rw [registered_append] at hnd hopen
    obtain ⟨s, hrun, i1, i2, i3, i4, i5⟩ := ih (List.Nodup.of_append_left hnd)
      (fun c hc => hopen c (List.mem_append_left _ hc))
    obtain ⟨s', hstep⟩ := step_total s ev i1 i2
    have hmem := step_mem s s' ev i1 hstep
    have hsend := step_send s s' ev i1 hstep
    refine ⟨s', ?_, step_nodup s s' ev i1 hstep, ?_, ?_, ?_, ?_⟩
    · rw [run_concat, hrun]; exact hstep
    · -- a registered session has an open mailbox
      intro c hc
      by_contra hcl
      have hcl' : (s'.send c).closed = true := by simpa using hcl
      cases ev with
      | register x =>
        rw [step_register] at hstep
        injection hstep with hstep; subst hstep
        have hc' : c = x ∨ c ∈ s.clients := by simpa [List.mem_insert_iff] using hc
        have hcs : (s.send c).closed = true := hcl'
        rcases hc' with rfl | hc'
        · have hfresh : c ∉ registered evs := by
            intro hin
            have := List.disjoint_of_nodup_append hnd hin
            exact this (by simp [registered])
          rcases i4 c hcs with h0 | h0
          · rw [hopen c (by simp [registered])] at h0; cases h0
          · exact hfresh h0
        · rw [i2 c hc'] at hcs; cases hcs
      | unregister x =>
        have h1 := (hmem c).1 hc
        simp only at h1
        rcases (hsend c).2.2.1 hcl' with h2 | h2
        · rw [i2 c h1.1] at h2; cases h2
        · by_cases hx : x ∈ s.clients
          · rw [step_unregister_open s x hx (i2 x hx)] at hstep
            injection hstep with hstep; subst hstep
            have e := setSend_send s x c { s.send x with closed := true }
            rw [if_neg h1.2] at e
            have : (s.send c).closed = true := by rw [← e]; exact hcl'
            rw [i2 c h1.1] at this; cases this
          · rw [step_unregister_absent s x hx] at hstep
            injection hstep with hstep; subst hstep
            rw [i2 c h1.1] at hcl'; cases hcl'
      | broadcast m =>
        have h1 := (hmem c).1 hc
        simp only at h1
        rw [step_broadcast] at hstep
        have h3 := (broadcastLoop_ok m s.clients s s' i1 i1 hstep).2.2.1 c h1.1 h1.2
        rw [h3] at hcl'
        have : (s.send c).closed = true := hcl'
        rw [i2 c h1.1] at this; cases this
      | recv x =>
        have h1 : c ∈ s.clients := (hmem c).1 hc
        rw [step_recv] at hstep
        injection hstep with hstep; subst hstep
        rw [setSend_send] at hcl'
        by_cases hx : c = x
        · subst hx
          rw [if_pos rfl] at hcl'
          have : (s.send c).closed = true := hcl'
          rw [i2 c h1] at this; cases this
        · rw [if_neg hx] at hcl'
          rw [i2 c h1] at hcl'; cases hcl'
    · -- only registered sessions are in the registry
      intro c hc
      rw [registered_append]
      have h1 := (hmem c).1 hc
      cases ev with
      | register x =>
        simp only at h1
        rcases h1 with rfl | h1
        · simp [registered]
        · exact List.mem_append_left _ (i3 c h1)
      | unregister x => exact List.mem_append_left _ (i3 c h1.1)
      | broadcast m => exact List.mem_append_left _ (i3 c h1.1)
      | recv x => exact List.mem_append_left _ (i3 c h1)
    · -- only the hub closes mailboxes, and only of registered sessions
      intro c hc
      rw [registered_append]
      rcases (hsend c).2.2.1 hc with h2 | h2
      · rcases i4 c h2 with h0 | h0
        · exact Or.inl h0
        · exact Or.inr (List.mem_append_left _ h0)
      · exact Or.inr (List.mem_append_left _ (i3 c h2))
    · intro c
      rw [(hsend c).1, i5 c]

/-- A session outside the registry that later events do not register stays
outside, keeps its closed flag, and its mailbox only loses messages. -/
theorem run_frame (c : ClientPtr) (evs : List Event) :
    ∀ (s s2 : HubState), s.clients.Nodup → c ∉ s.clients → c ∉ registered evs →
      WSHub.Run s evs = Except.ok s2 →
      c ∉ s2.clients ∧ (s2.send c).closed = (s.send c).closed ∧
        (s2.send c).buf <:+ (s.send c).buf := by
  induction evs with
  | nil =>
    intro s s2 _ hc _ h
    rw [run_nil] at h; injection h with h; subst h
    exact ⟨hc, rfl, List.suffix_refl _⟩
  | cons ev evs ih =>
    intro s s2 hnd hc hreg h
    rw [run_cons] at h
    cases hs : WSHub.step s ev with
    | error e => rw [hs] at h; cases h
    | ok s1 =>
      rw [hs] at h
      have hmem := step_mem s s1 ev hnd hs c
      have hsend := (step_send s s1 ev hnd hs c).2.2.2 hc
      have hc1 : c ∉ s1.clients := by
        rw [hmem]
        cases ev with
        | register x =>
          have : c ≠ x := fun e => hreg (by simp [registered, e])
          simp [this, hc]
        | unregister x => simp [hc]
        | broadcast m => simp [hc]
        | recv x => simpa using hc
      have hreg1 : c ∉ registered evs := by
        intro hin
        apply hreg
        cases ev <;> simp [registered, hin]
      obtain ⟨j1, j2, j3⟩ := ih s1 s2 (step_nodup s s1 ev hnd hs) hc1 hreg1 h
      exact ⟨j1, j2.trans hsend.1, j3.trans hsend.2⟩

/-- Runs that register each session at most once, with the mailbox
`handleWebSocket` makes (open, capacity 256), reach well-formed states only. -/
theorem run_wellFormed (heap : ClientPtr → WSClient) (evs : List Event)
    (hnd : (registered evs).Nodup)
    (hnew : ∀ c ∈ registered evs, (heap c).send.closed = false ∧ (heap c).send.cap = 256) :
    ∃ s, WSHub.Run (NewWSHub heap) evs = Except.ok s ∧ WellFormed s := by
  obtain ⟨s, hrun, i1, i2, i3, _, i5⟩ :=
    run_invariant heap evs hnd (fun c hc => (hnew c hc).1)
  refine ⟨s, hrun, i1, fun c hc => ⟨i2 c hc, ?_⟩⟩
  rw [i5 c]; exact (hnew c (i3 c hc)).2

/-- Claim C5: in every well-formed hub state (distinct registry keys, every
registered mailbox open with capacity 256) one broadcast does not panic and
appends exactly one copy of the message at the tail of the mailbox of every
registered session holding fewer than 256 messages, the earlier contents
unchanged, the session still registered and its mailbox open; a session created
by `handleWebSocket` on an empty registry has an empty mailbox and after one
broadcast holds exactly that message; and every run from an empty registry that
registers each session at most once, with the mailbox `handleWebSocket` makes,
ends in a well-formed state. -/
theorem C5_broadcast_delivers_one_copy :
    (∀ (s : HubState) (m : Msg), WellFormed s →
      ∃ s', WSHub.step s (Event.broadcast m) = Except.ok s' ∧
        ∀ c ∈ s.clients, (s.send c).buf.length < 256 →
          (s'.send c).buf = (s.send c).buf ++ [m] ∧ c ∈ s'.clients ∧
          (s'.send c).closed = false) ∧
    (∀ (heap : ClientPtr → WSClient) (c : ClientPtr) (tenantID : String) (m : Msg),
      ∃ s1 s2, handleWebSocket (NewWSHub heap) c tenantID = Except.ok s1 ∧
        (s1.send c).buf = [] ∧ s1.clients = [c] ∧
        WSHub.step s1 (Event.broadcast m) = Except.ok s2 ∧
        (s2.send c).buf = [m] ∧ s2.clients = [c]) ∧
    (∀ (heap : ClientPtr → WSClient) (evs : List Event), (registered evs).Nodup →
      (∀ c ∈ registered evs, (heap c).send.closed = false ∧ (heap c).send.cap = 256) →
      ∃ s, WSHub.Run (NewWSHub heap) evs = Except.ok s ∧ WellFormed s) := by
  refine ⟨?_, ?_, run_wellFormed⟩
  · intro s m hwf
    obtain ⟨s', hs'⟩ := step_total s (Event.broadcast m) hwf.1 (fun c hc => (hwf.2 c hc).1)
    refine ⟨s', hs', fun c hc hlen => ?_⟩
    have hroom : (s.send c).buf.length < (s.send c).cap := by rw [(hwf.2 c hc).2]; exact hlen
    have hmem := (step_mem s s' _ hwf.1 hs' c).2 ⟨hc, hroom⟩
    rw [step_broadcast] at hs'
    have h3 := (broadcastLoop_ok m s.clients s s' hwf.1 hwf.1 hs').2.2.1 c hc hroom
    rw [h3]
    exact ⟨rfl, hmem, (hwf.2 c hc).1⟩
  · intro heap c tenantID m
    refine ⟨{ clients := [c], heap := fun x => if x = c then WSClient.new tenantID else heap x },
      { clients := [c]
        heap := fun x => if x = c then
          { WSClient.new tenantID with send := { buf := [m], cap := 256, closed := false } }
          else heap x }, ?_, ?_, rfl, ?_, ?_, rfl⟩
    · simp [handleWebSocket, WSHub.step, NewWSHub]
    · simp [HubState.send, WSClient.new, Chan.make]
    · simp only [WSHub.step, WSHub.broadcastLoop, HubState.send, Chan.trySend, WSClient.new,
        Chan.make, HubState.setSend, if_true]
      simp
      funext x
      by_cases hx : x = c <;> simp [hx]
    · simp [HubState.send]

/-- Witness for C5: one registered session with an empty mailbox gets one copy. -/
theorem C5_witness :
    WellFormed { clients := [0], heap := fun _ => WSClient.new "acme-clinic" } ∧
    ∃ s', WSHub.step { clients := [0], heap := fun _ => WSClient.new "acme-clinic" }
        (Event.broadcast [1]) = Except.ok s' ∧
      ∀ c ∈ [0], (0 : Nat) < 256 →
        (s'.send c).buf = [] ++ [[1]] ∧ c ∈ s'.clients ∧ (s'.send c).closed = false :=
  ⟨⟨by decide, fun _ _ => ⟨rfl, rfl⟩⟩,
    C5_broadcast_delivers_one_copy.1
      { clients := [0], heap := fun _ => WSClient.new "acme-clinic" } [1]
      ⟨by decide, fun _ _ => ⟨rfl, rfl⟩⟩⟩

/-- Claim C6: in every well-formed hub state, a broadcast that finds a registered
session with 256 queued messages does not panic, closes that mailbox, removes
the session from the registry and leaves its mailbox contents as they were (the
message is not enqueued); every other registered session with fewer than 256
queued messages gets the message at the tail of its mailbox and stays
registered; and in every later run that does not register the evicted session
again it stays out of the registry, its mailbox stays closed and never gains a
message (its contents are a suffix of what they were). -/
theorem C6_full_mailbox_evicted (s : HubState) (m : Msg) (c : ClientPtr)
    (hwf : WellFormed s) (hc : c ∈ s.clients) (hfull : (s.send c).buf.length = 256) :
    ∃ s', WSHub.step s (Event.broadcast m) = Except.ok s' ∧
      (s'.send c).closed = true ∧ c ∉ s'.clients ∧ (s'.send c).buf = (s.send c).buf ∧
      (∀ c2 ∈ s.clients, (s.send c2).buf.length < 256 →
        (s'.send c2).buf = (s.send c2).buf ++ [m] ∧ c2 ∈ s'.clients) ∧
      (∀ (evs : List Event) (s2 : HubState), c ∉ registered evs →
        WSHub.Run s' evs = Except.ok s2 →
        c ∉ s2.clients ∧ (s2.send c).closed = true ∧ (s2.send c).buf <:+ (s.send c).buf) := by
  obtain ⟨s', hs'⟩ := step_total s (Event.broadcast m) hwf.1 (fun x hx => (hwf.2 x hx).1)
  have hnd' := step_nodup s s' _ hwf.1 hs'
  have hmem := step_mem s s' _ hwf.1 hs'
  have hloop := hs'
  rw [step_broadcast] at hloop
  obtain ⟨_, _, i3, i4, _, _, _⟩ := broadcastLoop_ok m s.clients s s' hwf.1 hwf.1 hloop
  have hnoroom : ¬ (s.send c).buf.length < (s.send c).cap := by
    rw [(hwf.2 c hc).2, hfull]; exact lt_irrefl _
  have hsc := i4 c hc hnoroom
  have hout : c ∉ s'.clients := fun hin => hnoroom ((hmem c).1 hin).2
  refine ⟨s', hs', by rw [hsc], hout, by rw [hsc], ?_, ?_⟩
  · intro c2 hc2 hlen
    have hroom : (s.send c2).buf.length < (s.send c2).cap := by
      rw [(hwf.2 c2 hc2).2]; exact hlen
    rw [i3 c2 hc2 hroom]
    exact ⟨rfl, (hmem c2).2 ⟨hc2, hroom⟩⟩
  · intro evs s2 hreg hrun
    obtain ⟨j1, j2, j3⟩ := run_frame c evs s' s2 hnd' hout hreg hrun
    refine ⟨j1, ?_, ?_⟩
    · rw [j2, hsc]
    · have : (s'.send c).buf = (s.send c).buf := by rw [hsc]
      rw [← this]; exact j3

/-- Witness for C6: session 0 holds 256 messages and is evicted, session 1 is
empty and receives the message. -/
theorem C6_witness :
    ∃ s', WSHub.step
        { clients := [0, 1]
          heap := fun x => if x = 0 then
            { send := { buf := List.replicate 256 [], cap := 256, closed := false }
              tenantID := "acme-clinic", subs := [] }
            else WSClient.new "acme-clinic" }
        (Event.broadcast [1]) = Except.ok s' ∧
      (s'.send 0).closed = true ∧ 0 ∉ s'.clients ∧
      (s'.send 1).buf = [[1]] ∧ 1 ∈ s'.clients := by
  obtain ⟨s', h1, h2, h3, _, h5, _⟩ := C6_full_mailbox_evicted
    { clients := [0, 1]
      heap := fun x => if x = 0 then
        { send := { buf := List.replicate 256 [], cap := 256, closed := false }
          tenantID := "acme-clinic", subs := [] }
        else WSClient.new "acme-clinic" }
    [1] 0
    ⟨by decide, by
      intro c hc
      rcases List.mem_cons.1 hc with rfl | hc
      · exact ⟨rfl, rfl⟩
      · rcases List.mem_cons.1 hc with rfl | hc
        · exact ⟨rfl, rfl⟩
        · cases hc⟩
    (by decide) (List.length_replicate 256 ([] : Msg))
  exact ⟨s', h1, h2, h3, (h5 1 (by decide) (by simp [HubState.send, WSClient.new, Chan.make])).1,
    (h5 1 (by decide) (by simp [HubState.send, WSClient.new, Chan.make])).2⟩

/-- Claim C8: for every sequence of events that registers each session at most
once, its mailbox open to begin with, every prefix of the sequence runs from
the empty registry without a panic (no close of a closed mailbox, no send on a
closed mailbox) and ends in a state where every registered session has an open
mailbox; no event panics in such a state; an unregister of a session that is
not in the registry changes nothing, so neither does a second unregister nor an
unregister that arrives after the hub evicted the session. -/
theorem C8_registered_implies_open :
    (∀ (heap : ClientPtr → WSClient) (evs : List Event), (registered evs).Nodup →
      (∀ c ∈ registered evs, (heap c).send.closed = false) →
      ∀ pre, pre <+: evs →
        ∃ s, WSHub.Run (NewWSHub heap) pre = Except.ok s ∧ s.clients.Nodup ∧
          ∀ c ∈ s.clients, (s.send c).closed = false) ∧
    (∀ (s : HubState) (ev : Event), s.clients.Nodup →
      (∀ c ∈ s.clients, (s.send c).closed = false) →
      ∃ s', WSHub.step s ev = Except.ok s') ∧
    (∀ (s : HubState) (c : ClientPtr), c ∉ s.clients →
      WSHub.step s (Event.unregister c) = Except.ok s) ∧
    (∀ (s s1 : HubState) (c : ClientPtr), s.clients.Nodup →
      WSHub.step s (Event.unregister c) = Except.ok s1 →
      WSHub.step s1 (Event.unregister c) = Except.ok s1) ∧
    (∀ (s s1 : HubState) (m : Msg) (c : ClientPtr), s.clients.Nodup → c ∈ s.clients →
      ¬ (s.send c).buf.length < (s.send c).cap →
      WSHub.step s (Event.broadcast m) = Except.ok s1 →
      WSHub.step s1 (Event.unregister c) = Except.ok s1) := by
  refine ⟨?_, step_total, step_unregister_absent, ?_, ?_⟩
  · intro heap evs hnd hopen pre hpre
    obtain ⟨post, rfl⟩ := hpre
    rw [registered_append] at hnd hopen
    obtain ⟨s, hrun, i1, i2, _⟩ := run_invariant heap pre (List.Nodup.of_append_left hnd)
      (fun c hc => hopen c (List.mem_append_left _ hc))
    exact ⟨s, hrun, i1, i2⟩
  · intro s s1 c hnd h
    apply step_unregister_absent
    intro hin
    exact ((step_mem s s1 _ hnd h c).1 hin).2 rfl
  · intro s s1 m c hnd hc hfull h
    apply step_unregister_absent
    intro hin
    exact hfull ((step_mem s s1 _ hnd h c).1 hin).2

/-- Witness for C8: register, broadcast, unregister, unregister again. -/
theorem C8_witness :
    ∃ s, WSHub.Run (NewWSHub (fun _ => WSClient.new "acme-clinic"))
        [Event.register 0, Event.broadcast [1], Event.unregister 0, Event.unregister 0] =
          Except.ok s ∧ s.clients.Nodup ∧ ∀ c ∈ s.clients, (s.send c).closed = false :=
  C8_registered_implies_open.1 (fun _ => WSClient.new "acme-clinic")
    [Event.register 0, Event.broadcast [1], Event.unregister 0, Event.unregister 0]
    (by decide) (fun _ _ => rfl) _ (List.prefix_refl _)

/-! ### The registry after a run -/

/-- The last register/unregister event, one event later. -/
theorem lastIsRegister_concat (c : ClientPtr) (evs : List Event) (ev : Event) :
    lastIsRegister c (evs ++ [ev]) =
      match ev with
      | Event.register x => if x = c then true else lastIsRegister c evs
      | Event.unregister x => if x = c then false else lastIsRegister c evs
      | _ => lastIsRegister c evs := by
  unfold lastIsRegister
  rw [List.foldl_append]
  cases ev <;> rfl

/-- A session whose last register/unregister event is a register was registered. -/
theorem lastIsRegister_registered (c : ClientPtr) (evs : List Event) :
    lastIsRegister c evs = true → c ∈ registered evs := by
  induction evs using List.reverseRecOn with
  | nil => intro h; cases h
  | append_singleton evs ev ih =>
    rw [lastIsRegister_concat, registered_append]
    cases ev with
    | register x =>
      by_cases hx : x = c
      · intro _; subst hx; simp [registered]
      · simp only [hx, if_false]
        exact fun h => List.mem_append_left _ (ih h)
    | unregister x =>
      by_cases hx : x = c
      · simp [hx]
      · simp only [hx, if_false]
        exact fun h => List.mem_append_left _ (ih h)
    | broadcast m => exact fun h => List.mem_append_left _ (ih h)
    | recv x => exact fun h => List.mem_append_left _ (ih h)

/-- A run that ends without a panic got through each of its steps. -/
theorem run_concat_ok (s0 s' : HubState) (evs : List Event) (ev : Event)
    (h : WSHub.Run s0 (evs ++ [ev]) = Except.ok s') :
    ∃ s, WSHub.Run s0 evs = Except.ok s ∧ WSHub.step s ev = Except.ok s' := by
  rw [run_concat] at h
  cases hs : WSHub.Run s0 evs with
  | error e => rw [hs] at h; cases h
  | ok s => rw [hs] at h; exact ⟨s, rfl, h⟩

/-- Eviction, one event later: an earlier eviction stands unless the new event
registers the session again, and a broadcast evicts a registered session that
has no room. -/
theorem evictedSince_concat (s0 s : HubState) (evs : List Event) (ev : Event) (c : ClientPtr)
    (hrun : WSHub.Run s0 evs = Except.ok s) :
    EvictedSince s0 (evs ++ [ev]) c ↔
      (EvictedSince s0 evs c ∧ ev ≠ Event.register c) ∨
      (∃ m, ev = Event.broadcast m ∧ c ∈ s.clients ∧
        ¬ (s.send c).buf.length < (s.send c).cap) := by
  constructor
  · rintro ⟨pre, m, post, s1, heq, hpost, hrun1, hin, hfull⟩
    rcases List.eq_nil_or_concat post with rfl | ⟨post', x, rfl⟩
    · have h2 := List.append_inj' heq rfl
      obtain ⟨h3, h4⟩ := h2
      subst h3
      rw [hrun] at hrun1
      injection hrun1 with hrun1
      subst hrun1
      right
      exact ⟨m, by simpa using h4, hin, hfull⟩
    · have heq' : evs ++ [ev] = (pre ++ Event.broadcast m :: post') ++ [x] := by
        rw [heq]; simp
      obtain ⟨h3, h4⟩ := List.append_inj' heq' rfl
      have h5 : ev = x := by simpa using h4
      subst h5
      rw [List.concat_eq_append, registered_append] at hpost
      left
      refine ⟨⟨pre, m, post', s1, h3, fun hm => hpost (List.mem_append_left _ hm), hrun1, hin,
        hfull⟩, ?_⟩
      rintro rfl
      exact hpost (List.mem_append_right _ (by simp [registered]))
  · rintro (⟨⟨pre, m, post, s1, heq, hpost, hrun1, hin, hfull⟩, hev⟩ | ⟨m, rfl, hin, hfull⟩)
    · refine ⟨pre, m, post ++ [ev], s1, by rw [heq]; simp, ?_, hrun1, hin, hfull⟩
      rw [registered_append]
      intro hm
      rcases List.mem_append.1 hm with hm | hm
      · exact hpost hm
      · rw [mem_registered] at hm
        exact hev (List.mem_singleton.1 hm).symm
    · exact ⟨evs, m, [], s, rfl, by simp [registered], hrun, hin, hfull⟩

/-- Membership in the registry after a run from an empty registry: the last
register/unregister event of the session is a register, and no broadcast has
evicted it since. -/
theorem run_membership (s0 : HubState) (h0 : s0.clients = []) (evs : List Event) :
    ∀ s, WSHub.Run s0 evs = Except.ok s →
      ∀ c, c ∈ s.clients ↔ (lastIsRegister c evs = true ∧ ¬ EvictedSince s0 evs c) := by
  induction evs using List.reverseRecOn with
  | nil =>
    intro s h c
    rw [run_nil] at h; injection h with h; subst h
    simp [h0, lastIsRegister]
  | append_singleton evs ev ih =>
    intro s' h c
    obtain ⟨s, hrun, hstep⟩ := run_concat_ok s0 s' evs ev h
    have hnd : s.clients.Nodup := run_nodup evs s0 s (by rw [h0]; exact List.nodup_nil) hrun
    have hmem := step_mem s s' ev hnd hstep c
    have hE := evictedSince_concat s0 s evs ev c hrun
    have hI := ih s hrun c
    rw [hmem, hE, lastIsRegister_concat]
    clear hmem hE
    cases ev with
    | register x =>
      by_cases hx : x = c
      · subst hx; simp
      · have hx' : c ≠ x := fun e => hx e.symm
        simp [hx, hx', hI]
    | unregister x =>
      by_cases hx : x = c
      · subst hx; simp
      · have hx' : c ≠ x := fun e => hx e.symm
        simp [hx, hx', hI]
    | broadcast m =>
      simp only [hI]
      constructor
      · rintro ⟨⟨hl, hne⟩, hroom⟩
        refine ⟨hl, ?_⟩
        rintro (⟨he, _⟩ | ⟨_, _, _, hfull⟩)
        · exact hne he
        · exact hfull hroom
      · rintro ⟨hl, hne⟩
        have hne' : ¬ EvictedSince s0 evs c := fun he => hne (Or.inl ⟨he, by simp⟩)
        refine ⟨⟨hl, hne'⟩, ?_⟩
        by_contra hfull
        exact hne (Or.inr ⟨m, rfl, ⟨hl, hne'⟩, hfull⟩)
    | recv x =>
      simp [hI]

set_option maxRecDepth 100000 in
/-- Claim C7 fails as stated: register one session created by `handleWebSocket`
(empty mailbox of capacity 256) and process 257 broadcasts with nobody draining
the mailbox; the last register/unregister event of the session is a register,
yet the final registry is empty, because the 257th broadcast evicts it. -/
theorem C7_counterexample_eviction :
    ∃ s, WSHub.Run (NewWSHub (fun _ => WSClient.new "acme-clinic"))
        (Event.register 0 :: List.replicate 257 (Event.broadcast [])) = Except.ok s ∧
      lastIsRegister 0 (Event.register 0 :: List.replicate 257 (Event.broadcast [])) = true ∧
      s.clients = [] := by
  have hfinal : (match WSHub.Run (NewWSHub (fun _ => WSClient.new "acme-clinic"))
        (Event.register 0 :: List.replicate 257 (Event.broadcast [])) with
      | Except.ok s => s.clients
      | Except.error _ => [0]) = [] := by decide
  obtain ⟨s, hrun, _⟩ := run_invariant (fun _ => WSClient.new "acme-clinic")
    (Event.register 0 :: List.replicate 257 (Event.broadcast [])) (by decide) (fun _ _ => rfl)
  rw [hrun] at hfinal
  exact ⟨s, hrun, by decide, hfinal⟩

/-- Claim C7, amended: for every sequence of events run from an empty registry
without a panic, the final registry has no duplicate, contains only sessions
that were registered, and contains a session exactly when its last
register/unregister event is a register and no broadcast has evicted it since
(found it registered with a full mailbox, with no register of it afterwards); in
particular, when no broadcast evicts anybody, it contains exactly the sessions
whose last register/unregister event is a register. Every sequence that
registers each session at most once, its mailbox open to begin with, runs
without a panic. -/
theorem C7_registry_matches_net_sequence :
    (∀ (heap : ClientPtr → WSClient) (evs : List Event) (s : HubState),
      WSHub.Run (NewWSHub heap) evs = Except.ok s →
        s.clients.Nodup ∧
        (∀ c, c ∈ s.clients ↔
          (lastIsRegister c evs = true ∧ ¬ EvictedSince (NewWSHub heap) evs c)) ∧
        (∀ c ∈ s.clients, c ∈ registered evs) ∧
        ((∀ c, ¬ EvictedSince (NewWSHub heap) evs c) →
          ∀ c, c ∈ s.clients ↔ lastIsRegister c evs = true)) ∧
    (∀ (heap : ClientPtr → WSClient) (evs : List Event), (registered evs).Nodup →
      (∀ c ∈ registered evs, (heap c).send.closed = false) →
      ∃ s, WSHub.Run (NewWSHub heap) evs = Except.ok s) := by
  constructor
  · intro heap evs s hrun
    have hmem := run_membership (NewWSHub heap) rfl evs s hrun
    refine ⟨run_nodup evs _ s List.nodup_nil hrun, hmem, ?_, ?_⟩
    · intro c hc
      exact lastIsRegister_registered c evs ((hmem c).1 hc).1
    · intro hno c
      rw [hmem c]
      exact ⟨fun h => h.1, fun h => ⟨h, hno c⟩⟩
  · intro heap evs hnd hopen
    obtain ⟨s, hrun, _⟩ := run_invariant heap evs hnd hopen
    exact ⟨s, hrun⟩

/-- Witness for C7: a short run from the empty registry. -/
theorem C7_witness :
    ∃ s, WSHub.Run (NewWSHub (fun _ => WSClient.new "acme-clinic"))
        [Event.register 0, Event.register 1, Event.broadcast [1], Event.unregister 0] =
          Except.ok s ∧
      s.clients.Nodup ∧
      (∀ c ∈ s.clients, c ∈ registered
        [Event.register 0, Event.register 1, Event.broadcast [1], Event.unregister 0]) := by
  obtain ⟨s, hs⟩ := C7_registry_matches_net_sequence.2 (fun _ => WSClient.new "acme-clinic")
    [Event.register 0, Event.register 1, Event.broadcast [1], Event.unregister 0]
    (by decide) (fun _ _ => rfl)
  have h := C7_registry_matches_net_sequence.1 (fun _ => WSClient.new "acme-clinic")
    [Event.register 0, Event.register 1, Event.broadcast [1], Event.unregister 0] s hs
  exact ⟨s, hs, h.1, h.2.2.1⟩

/-! ### The consumer's handler -/

theorem filter_cons_true {α : Type} (p : α → Bool) (a : α) (l : List α) (h : p a = true) :
    (a :: l).filter p = a :: l.filter p := by
  simp [List.filter_cons, h]

/-- Filtering drops a head that fails the test. -/
theorem filter_cons_false {α : Type} (p : α → Bool) (a : α) (l : List α) (h : p a = false) :
    (a :: l).filter p = l.filter p := by
  simp [List.filter_cons, h]

/-- A payload that does not parse is logged and dropped. -/
theorem handler_invalid (lib : Lib) (o : Outcome) (payload : Msg) (err : String)
    (h : lib.unmarshal payload = Except.error err) :
    messageHandler lib o payload = [Effect.log ("Invalid JSON: " ++ err)] := by
  simp [messageHandler, h]

/-- Claim C9: a payload that `json.Unmarshal` rejects makes the handler log one
line and nothing else (no durable write, no cache write, no push); running the
consumer on the deliveries that parse gives, message for message, the effects
they have in the full run; so the writes and pushes of a run are exactly those
of the run without the invalid messages, and removing one invalid message from
anywhere in the sequence changes no write and no push. -/
theorem C9_parse_failure_dropped (lib : Lib) :
    (∀ (o : Outcome) (payload : Msg), parses lib payload = false →
      (∃ err, messageHandler lib o payload = [Effect.log ("Invalid JSON: " ++ err)]) ∧
      (messageHandler lib o payload).filter Effect.isSink = []) ∧
    (∀ (deliveries : List (Msg × Outcome)),
      consume lib (deliveries.filter (fun d => parses lib d.1)) =
        deliveries.flatMap (fun d =>
          if parses lib d.1 then messageHandler lib d.2 d.1 else [])) ∧
    (∀ (deliveries : List (Msg × Outcome)),
      (consume lib deliveries).filter Effect.isSink =
        (consume lib (deliveries.filter (fun d => parses lib d.1))).filter Effect.isSink) ∧
    (∀ (before after : List (Msg × Outcome)) (bad : Msg × Outcome),
      parses lib bad.1 = false →
      (consume lib (before ++ bad :: after)).filter Effect.isSink =
        (consume lib (before ++ after)).filter Effect.isSink) := by
  have hbad : ∀ (o : Outcome) (payload : Msg), parses lib payload = false →
      (∃ err, messageHandler lib o payload = [Effect.log ("Invalid JSON: " ++ err)]) ∧
      (messageHandler lib o payload).filter Effect.isSink = [] := by
    intro o payload hp
    unfold parses at hp
    cases hu : lib.unmarshal payload with
    | ok t => rw [hu] at hp; cases hp
    | error err =>
      rw [handler_invalid lib o payload err hu]
      exact ⟨⟨err, rfl⟩, rfl⟩
  have hsplit : ∀ (deliveries : List (Msg × Outcome)),
      (consume lib deliveries).filter Effect.isSink =
        (consume lib (deliveries.filter (fun d => parses lib d.1))).filter Effect.isSink := by
    intro deliveries
    induction deliveries with
    | nil => rfl
    | cons d ds ih =>
      by_cases hp : parses lib d.1 = true
      · rw [filter_cons_true (fun d : Msg × Outcome => parses lib d.1) d ds hp]
        simp only [consume, List.flatMap_cons, List.filter_append] at ih ⊢
        rw [ih]
      · have hp' : parses lib d.1 = false := by simpa using hp
        rw [filter_cons_false (fun d : Msg × Outcome => parses lib d.1) d ds hp']
        simp only [consume, List.flatMap_cons, List.filter_append] at ih ⊢
        rw [(hbad d.2 d.1 hp').2, ih]
        rfl
  refine ⟨hbad, ?_, hsplit, ?_⟩
  · intro deliveries
    induction deliveries with
    | nil => rfl
    | cons d ds ih =>
      by_cases hp : parses lib d.1 = true
      · rw [filter_cons_true (fun d : Msg × Outcome => parses lib d.1) d ds hp]
        simp only [consume, List.flatMap_cons] at ih ⊢
        rw [ih]; simp [hp]
      · have hp' : parses lib d.1 = false := by simpa using hp
        rw [filter_cons_false (fun d : Msg × Outcome => parses lib d.1) d ds hp']
        simp only [consume, List.flatMap_cons] at ih ⊢
        rw [ih]; simp [hp]
  · intro before after bad hp
    rw [hsplit (before ++ bad :: after), hsplit (before ++ after)]
    rw [List.filter_append, List.filter_append,
      filter_cons_false (fun d : Msg × Outcome => parses lib d.1) bad after hp]

/-- The two ways `SetLatest` ends: the value marshals and one `SET` is sent
(whose error, if any, is returned), or it does not and nothing is sent. -/
theorem setLatest_cases (timeMarshalJSON : Time → Option String) (o : Outcome)
    (tenantID deviceID : String) (x : LatestTelemetry) :
    (jsonMarshalErr timeMarshalJSON x = none →
      SetLatest timeMarshalJSON o tenantID deviceID x =
        ([Effect.redisSet ("latest:" ++ tenantID ++ ":" ++ deviceID) x 600],
          o.redisSetErr.map (fun e => "failed to set cache: " ++ e))) ∧
    (∀ e, jsonMarshalErr timeMarshalJSON x = some e →
      SetLatest timeMarshalJSON o tenantID deviceID x =
        ([], some ("failed to marshal data: " ++ e))) := by
  constructor
  · intro h
    unfold SetLatest
    rw [h]
  · intro e h
    unfold SetLatest
    rw [h]

/-- The trace of the handler on a payload that parses to a sample with a finite
temperature: the log lines, the three calls in their order, and after each of
the two writes the log line of its error, if it returned one. -/
theorem handler_parsed (lib : Lib) (o : Outcome) (payload : Msg) (t : Telemetry)
    (hparse : lib.unmarshal payload = Except.ok t)
    (hfin : t.Metrics.TempC.isFinite = true) :
    messageHandler lib o payload =
      [Effect.log ("[" ++ t.DeviceID ++ "] HR:" ++ fmtD t.Metrics.HeartRate ++
        " Temp:" ++ fmtF 1 t.Metrics.TempC ++ " SpO2:" ++ fmtD t.Metrics.SpO2)] ++
      (if (classify t).IsAnomaly then
        [Effect.log ("[" ++ t.DeviceID ++ "] ANOMALY DETECTED: " ++
          (classify t).AnomalyType ++ " - " ++ (classify t).Reason)]
       else []) ++
      [Effect.ddbPutItem (putTelemetryItem o.now (recordOf t (classify t)))] ++
      (match o.putItemErr with
       | some err => [Effect.log ("Failed to store in DynamoDB: failed to put item: " ++ err)]
       | none => []) ++
      (SetLatest lib.timeMarshalJSON o t.TenantID t.DeviceID (cacheDataOf lib t)).1 ++
      (match (SetLatest lib.timeMarshalJSON o t.TenantID t.DeviceID (cacheDataOf lib t)).2 with
       | some err => [Effect.log ("Failed to cache in Redis: " ++ err)]
       | none => []) ++
      [Effect.httpPost "http://localhost:8080/api/v1/internal/broadcast"
        { type := "telemetry"
          device_id := t.DeviceID
          tenant_id := t.TenantID
          timestamp := t.Timestamp
          hr_bpm := t.Metrics.HeartRate
          temp_c := t.Metrics.TempC
          spo2_pct := t.Metrics.SpO2
          steps := t.Metrics.Steps
          battery_pct := t.BatteryPct }] := by
  have hj : jsonFloatErr t.Metrics.TempC = none := by
    cases hT : t.Metrics.TempC <;> rw [hT] at hfin <;> simp [F64.isFinite, jsonFloatErr] at hfin ⊢
  unfold messageHandler
  rw [hparse]
  simp only [PutTelemetry, pushToWebSocket, hj]
  cases o.putItemErr <;> rfl

/-- Claim C10: for every payload that parses (to a sample with a finite
temperature, the only kind `json.Unmarshal` yields) and every outcome of the
DynamoDB put and of the Redis set, the handler makes the durable write, then
the cache write, then the broadcast push, once each and in this order. The
sink operations it issues are the `PutItem` of the classified record, then
what the one call of `SetLatest` sends, then the `POST`; `SetLatest` either
sends one `SET` under `latest:{tenant}:{device}` with a 600-second expiry, or,
when `json.Marshal` rejects the value, sends nothing and returns the error,
which the handler logs as a failed cache write; in both cases the `PutItem`
before it and the `POST` after it are issued. What is sent to the sinks is the
same for every outcome of the put and of the set. -/
theorem C10_sinks_independent (lib : Lib) (o : Outcome) (payload : Msg) (t : Telemetry)
    (hparse : lib.unmarshal payload = Except.ok t)
    (hfin : t.Metrics.TempC.isFinite = true) :
    ((messageHandler lib o payload).filter Effect.isSink =
      [Effect.ddbPutItem (putTelemetryItem o.now (recordOf t (classify t)))] ++
      (SetLatest lib.timeMarshalJSON o t.TenantID t.DeviceID (cacheDataOf lib t)).1 ++
      [Effect.httpPost "http://localhost:8080/api/v1/internal/broadcast"
        { type := "telemetry"
          device_id := t.DeviceID
          tenant_id := t.TenantID
          timestamp := t.Timestamp
          hr_bpm := t.Metrics.HeartRate
          temp_c := t.Metrics.TempC
          spo2_pct := t.Metrics.SpO2
          steps := t.Metrics.Steps
          battery_pct := t.BatteryPct }]) ∧
    (((SetLatest lib.timeMarshalJSON o t.TenantID t.DeviceID (cacheDataOf lib t)).1 =
        [Effect.redisSet ("latest:" ++ t.TenantID ++ ":" ++ t.DeviceID)
          (cacheDataOf lib t) 600] ∧
      jsonMarshalErr lib.timeMarshalJSON (cacheDataOf lib t) = none) ∨
     (∃ e, jsonMarshalErr lib.timeMarshalJSON (cacheDataOf lib t) = some e ∧
      (SetLatest lib.timeMarshalJSON o t.TenantID t.DeviceID (cacheDataOf lib t)).1 = [] ∧
      Effect.log ("Failed to cache in Redis: " ++ ("failed to marshal data: " ++ e)) ∈
        messageHandler lib o payload)) ∧
    (∀ o2 : Outcome, o2.now = o.now →
      (messageHandler lib o2 payload).filter Effect.isSink =
        (messageHandler lib o payload).filter Effect.isSink) := by
  have hsinks : ∀ o1 : Outcome,
      (messageHandler lib o1 payload).filter Effect.isSink =
        [Effect.ddbPutItem (putTelemetryItem o1.now (recordOf t (classify t)))] ++
        (SetLatest lib.timeMarshalJSON o1 t.TenantID t.DeviceID (cacheDataOf lib t)).1 ++
        [Effect.httpPost "http://localhost:8080/api/v1/internal/broadcast"
          { type := "telemetry"
            device_id := t.DeviceID
            tenant_id := t.TenantID
            timestamp := t.Timestamp
            hr_bpm := t.Metrics.HeartRate
            temp_c := t.Metrics.TempC
            spo2_pct := t.Metrics.SpO2
            steps := t.Metrics.Steps
            battery_pct := t.BatteryPct }] := by
    intro o1
    rw [handler_parsed lib o1 payload t hparse hfin]
    obtain ⟨hok, hbad⟩ := setLatest_cases lib.timeMarshalJSON o1 t.TenantID t.DeviceID
      (cacheDataOf lib t)
    cases hm : jsonMarshalErr lib.timeMarshalJSON (cacheDataOf lib t) with
    | none =>
      rw [hok hm]
      cases o1.putItemErr <;> cases o1.redisSetErr <;> cases (classify t).IsAnomaly <;>
        simp [Effect.isSink]
    | some e =>
      rw [hbad e hm]
      cases o1.putItemErr <;> cases (classify t).IsAnomaly <;> simp [Effect.isSink]
  refine ⟨hsinks o, ?_, ?_⟩
  · obtain ⟨hok, hbad⟩ := setLatest_cases lib.timeMarshalJSON o t.TenantID t.DeviceID
      (cacheDataOf lib t)
    cases hm : jsonMarshalErr lib.timeMarshalJSON (cacheDataOf lib t) with
    | none => exact Or.inl ⟨by rw [hok hm], rfl⟩
    | some e =>
      refine Or.inr ⟨e, rfl, by rw [hbad e hm], ?_⟩
      rw [handler_parsed lib o payload t hparse hfin, hbad e hm]
      simp
  · intro o2 hnow
    rw [hsinks o2, hsinks o, hnow]
    obtain ⟨hok, hbad⟩ := setLatest_cases lib.timeMarshalJSON o t.TenantID t.DeviceID
      (cacheDataOf lib t)
    obtain ⟨hok2, hbad2⟩ := setLatest_cases lib.timeMarshalJSON o2 t.TenantID t.DeviceID
      (cacheDataOf lib t)
    cases hm : jsonMarshalErr lib.timeMarshalJSON (cacheDataOf lib t) with
    | none => rw [hok hm, hok2 hm]
    | some e => rw [hbad e hm, hbad2 e hm]

/-- Witness for C9: one message that does not parse between two that do. -/
theorem C9_witness :
    (consume
        { unmarshal := fun p => if p = [] then Except.error "unexpected end of JSON input"
            else Except.ok
              { TenantID := "acme-clinic", DeviceID := "watch-0000"
                Timestamp := "2024-01-01T00:00:00Z"
                Metrics := { HeartRate := 80, TempC := F64.fin 37, SpO2 := 96, Steps := 10 }
                BatteryPct := 90, FWVersion := "1.0.0" }
          timeParse := fun _ => Except.ok { unix := 1704067200, nsec := 0, offset := 0 }
          timeMarshalJSON := Time.marshalJSONErr }
        ([([1], { now := Time.zero, putItemErr := none, redisSetErr := none })] ++
          ([], { now := Time.zero, putItemErr := none, redisSetErr := none }) ::
          [([2], { now := Time.zero, putItemErr := some "timeout", redisSetErr := none })])).filter Effect.isSink =
      (consume
        { unmarshal := fun p => if p = [] then Except.error "unexpected end of JSON input"
            else Except.ok
              { TenantID := "acme-clinic", DeviceID := "watch-0000"
                Timestamp := "2024-01-01T00:00:00Z"
                Metrics := { HeartRate := 80, TempC := F64.fin 37, SpO2 := 96, Steps := 10 }
                BatteryPct := 90, FWVersion := "1.0.0" }
          timeParse := fun _ => Except.ok { unix := 1704067200, nsec := 0, offset := 0 }
          timeMarshalJSON := Time.marshalJSONErr }
        ([([1], { now := Time.zero, putItemErr := none, redisSetErr := none })] ++
          [([2], { now := Time.zero, putItemErr := some "timeout", redisSetErr := none })])).filter Effect.isSink :=
  (C9_parse_failure_dropped _).2.2.2 _ _
    ([], { now := Time.zero, putItemErr := none, redisSetErr := none })
    rfl

/-- Witness for C10: both writes fail, and all three sink operations are still issued. -/
theorem C10_witness :
    (messageHandler
        { unmarshal := fun p => if p = [] then Except.error "unexpected end of JSON input"
            else Except.ok
              { TenantID := "acme-clinic", DeviceID := "watch-0000"
                Timestamp := "2024-01-01T00:00:00Z"
                Metrics := { HeartRate := 160, TempC := F64.fin 39, SpO2 := 98, Steps := 10 }
                BatteryPct := 90, FWVersion := "1.0.0" }
          timeParse := fun _ => Except.ok { unix := 1704067200, nsec := 0, offset := 0 }
          timeMarshalJSON := Time.marshalJSONErr }
        { now := { unix := 1704067200, nsec := 0, offset := 0 }
          putItemErr := some "timeout", redisSetErr := some "connection refused" }
        [1]).filter Effect.isSink =
      [Effect.ddbPutItem (putTelemetryItem { unix := 1704067200, nsec := 0, offset := 0 }
          (recordOf
            { TenantID := "acme-clinic", DeviceID := "watch-0000"
              Timestamp := "2024-01-01T00:00:00Z"
              Metrics := { HeartRate := 160, TempC := F64.fin 39, SpO2 := 98, Steps := 10 }
              BatteryPct := 90, FWVersion := "1.0.0" }
            (classify
              { TenantID := "acme-clinic", DeviceID := "watch-0000"
                Timestamp := "2024-01-01T00:00:00Z"
                Metrics := { HeartRate := 160, TempC := F64.fin 39, SpO2 := 98, Steps := 10 }
                BatteryPct := 90, FWVersion := "1.0.0" })))] ++
      [Effect.redisSet "latest:acme-clinic:watch-0000"
        { DeviceID := "watch-0000", Timestamp := { unix := 1704067200, nsec := 0, offset := 0 }
          HeartRate := 160, TempC := F64.fin 39, SpO2 := 98, Steps := 10
          BatteryPct := 90 } 600] ++
      [Effect.httpPost "http://localhost:8080/api/v1/internal/broadcast"
        { type := "telemetry"
          device_id := "watch-0000"
          tenant_id := "acme-clinic"
          timestamp := "2024-01-01T00:00:00Z"
          hr_bpm := 160
          temp_c := F64.fin 39
          spo2_pct := 98
          steps := 10
          battery_pct := 90 }] :=
  (C10_sinks_independent
    { unmarshal := fun p => if p = [] then Except.error "unexpected end of JSON input"
        else Except.ok
          { TenantID := "acme-clinic", DeviceID := "watch-0000"
            Timestamp := "2024-01-01T00:00:00Z"
            Metrics := { HeartRate := 160, TempC := F64.fin 39, SpO2 := 98, Steps := 10 }
            BatteryPct := 90, FWVersion := "1.0.0" }
      timeParse := fun _ => Except.ok { unix := 1704067200, nsec := 0, offset := 0 }
      timeMarshalJSON := Time.marshalJSONErr }
    { now := { unix := 1704067200, nsec := 0, offset := 0 }
      putItemErr := some "timeout", redisSetErr := some "connection refused" }
    [1]
    { TenantID := "acme-clinic", DeviceID := "watch-0000"
      Timestamp := "2024-01-01T00:00:00Z"
      Metrics := { HeartRate := 160, TempC := F64.fin 39, SpO2 := 98, Steps := 10 }
      BatteryPct := 90, FWVersion := "1.0.0" } rfl rfl).1

/-! ## Second part: stores, cache, stream variant, subscriptions -/

/-! ### The durable item -/

/-- Thirty days as a duration: whole seconds, no nanoseconds left over. -/
theorem thirtyDays_seconds :
    Int.tdiv (30 * 24 * Time.Hour) 1000000000 = 2592000 ∧
    Int.tmod (30 * 24 * Time.Hour) 1000000000 = 0 := by
  unfold Time.Hour
  constructor <;> decide

/-- Adding thirty days to a time (nanoseconds below one second, as in every
`time.Time`) moves the Unix seconds by 2592000 and nothing else. -/
theorem add_thirtyDays (now : Time) (h : now.nsec < 1000000000) :
    now.Add (30 * 24 * Time.Hour) = { now with unix := now.unix + 2592000 } := by
  unfold Time.Add
  rw [thirtyDays_seconds.1, thirtyDays_seconds.2]
  have h1 : ¬ (1000000000 : Int) ≤ (now.nsec : Int) + 0 := by omega
  have h2 : ¬ (now.nsec : Int) + 0 < 0 := by omega
  simp only [h1, h2, if_false]
  simp

/-- The attributes of the item `PutTelemetry` builds, by name. -/
theorem putTelemetryItem_lookup (now : Time) (r : TelemetryRecord) :
    (putTelemetryItem now r).lookup "PK" =
      some (AttributeValue.S ("TENANT#" ++ r.TenantID ++ "#DEVICE#" ++ r.DeviceID)) ∧
    (putTelemetryItem now r).lookup "SK" = some (AttributeValue.S ("TS#" ++ r.Timestamp)) ∧
    (putTelemetryItem now r).lookup "ttl" =
      some (AttributeValue.N (fmtD (now.Add (30 * 24 * Time.Hour)).Unix)) ∧
    (putTelemetryItem now r).lookup "anomaly_flag" = some (AttributeValue.BOOL r.AnomalyFlag) ∧
    (putTelemetryItem now r).lookup "anomaly_type" =
      if r.AnomalyType ≠ "" then some (AttributeValue.S r.AnomalyType) else none := by
  unfold putTelemetryItem
  by_cases h : r.AnomalyType = ""
  · simp [h, List.lookup]
  · simp [h, List.lookup]

/-- The default detector sets the flag exactly when it names a type. -/
theorem detect_flag_iff_type (hr : Int) (tempC : F64) (spo2 : Int) :
    (NewSimpleDetector.Detect hr tempC spo2).IsAnomaly = true ↔
      (NewSimpleDetector.Detect hr tempC spo2).AnomalyType ≠ "" := by
  obtain ⟨h1, h2, h3, h4⟩ := detect_default hr tempC spo2
  by_cases hhr : 150 < hr
  · rw [(h1 hhr).1, (h1 hhr).2]; decide
  · have hle : hr ≤ 150 := by omega
    by_cases hge : F64.ge tempC (F64.fin 38) = true
    · rw [(h2 hle hge).1, (h2 hle hge).2]; decide
    · have hge' : F64.ge tempC (F64.fin 38) = false := by simpa using hge
      by_cases hs : spo2 < 90
      · rw [(h3 hle hge' hs).1, (h3 hle hge' hs).2]; decide
      · rw [h4 hle hge' (by omega)]; decide

/-- Claim C11: the code departs from it. For the record with
`AnomalyFlag = false` and `AnomalyType = "fever"` the item `PutTelemetry`
builds has the attribute `anomaly_type` (it tests the type string, not the
flag), while the item `storeTelemetry` of the stream-processing variant builds
for the same sample and the same verdict has none (it tests the flag, as the
claim states). -/
theorem C11_core_stores_type_without_flag :
    (putTelemetryItem Time.zero
      { TenantID := "acme-clinic", DeviceID := "watch-0000"
        Timestamp := "2024-01-01T00:00:00Z", HeartRate := 80, TempC := F64.fin 37
        SpO2 := 96, Steps := 10, BatteryPct := 90, FWVersion := "1.0.0"
        AnomalyFlag := false, AnomalyType := "fever" }).lookup "anomaly_type" =
      some (AttributeValue.S "fever") ∧
    (Lambda.storeTelemetryItem Time.zero
      { TenantID := "acme-clinic", DeviceID := "watch-0000"
        Timestamp := "2024-01-01T00:00:00Z"
        Metrics := { HeartRate := 80, TempC := F64.fin 37, SpO2 := 96, Steps := 10 }
        BatteryPct := 90, FWVersion := "1.0.0" }
      { IsAnomaly := false, AnomalyType := "fever", Reason := "" }).lookup "anomaly_type" =
      none := by
  constructor
  · rw [(putTelemetryItem_lookup _ _).2.2.2.2]
    decide
  · unfold Lambda.storeTelemetryItem
    simp [List.lookup]

/-- The guard of `anomaly_type` in `PutTelemetry`: for every record, the item
has the attribute exactly when the record's `AnomalyType` is not empty, and
then it holds that string; for every record whose flag is set exactly when its
type is not empty, and so for every record the consumer's handler assembles
from the verdict of `Detect`, the attribute is there exactly when
`AnomalyFlag = true`. -/
theorem putTelemetry_anomaly_type_gate (now : Time) (r : TelemetryRecord) :
    ((putTelemetryItem now r).lookup "anomaly_type" =
      if r.AnomalyType ≠ "" then some (AttributeValue.S r.AnomalyType) else none) ∧
    ((r.AnomalyFlag = true ↔ r.AnomalyType ≠ "") →
      (putTelemetryItem now r).lookup "anomaly_type" =
        if r.AnomalyFlag = true then some (AttributeValue.S r.AnomalyType) else none) ∧
    (∀ t : Telemetry,
      (putTelemetryItem now (recordOf t (classify t))).lookup "anomaly_type" =
        if (recordOf t (classify t)).AnomalyFlag = true then
          some (AttributeValue.S (recordOf t (classify t)).AnomalyType)
        else none) := by
  have hgen : ∀ r : TelemetryRecord, (r.AnomalyFlag = true ↔ r.AnomalyType ≠ "") →
      (putTelemetryItem now r).lookup "anomaly_type" =
        if r.AnomalyFlag = true then some (AttributeValue.S r.AnomalyType) else none := by
    intro r h
    rw [(putTelemetryItem_lookup now r).2.2.2.2]
    by_cases hf : r.AnomalyFlag = true
    · rw [if_pos hf, if_pos (h.1 hf)]
    · rw [if_neg hf, if_neg (fun hn => hf (h.2 hn))]
  refine ⟨(putTelemetryItem_lookup now r).2.2.2.2, hgen r, fun t => hgen _ ?_⟩
  exact detect_flag_iff_type _ _ _

/-- Claim C14: for every record, `PutTelemetry` sets the attribute `PK` to
`"TENANT#" + tenant + "#DEVICE#" + device` and `SK` to `"TS#" + timestamp`;
`GetLatestTelemetry` queries with the condition `PK = :pk` and the same
partition key for the same tenant and device; so two deliveries of a sample
with the same tenant, device and timestamp, whatever else differs and whenever
they are stored, address the same `(PK, SK)`. -/
theorem C14_durable_key_schema :
    (∀ (now : Time) (r : TelemetryRecord),
      (putTelemetryItem now r).lookup "PK" =
        some (AttributeValue.S ("TENANT#" ++ r.TenantID ++ "#DEVICE#" ++ r.DeviceID)) ∧
      (putTelemetryItem now r).lookup "SK" =
        some (AttributeValue.S ("TS#" ++ r.Timestamp))) ∧
    (∀ (now : Time) (r : TelemetryRecord),
      (getLatestTelemetryQuery r.TenantID r.DeviceID).keyConditionExpression = "PK = :pk" ∧
      some (AttributeValue.S (getLatestTelemetryQuery r.TenantID r.DeviceID).pk) =
        (putTelemetryItem now r).lookup "PK") ∧
    (∀ (now1 now2 : Time) (r1 r2 : TelemetryRecord),
      r1.TenantID = r2.TenantID → r1.DeviceID = r2.DeviceID → r1.Timestamp = r2.Timestamp →
      (putTelemetryItem now1 r1).lookup "PK" = (putTelemetryItem now2 r2).lookup "PK" ∧
      (putTelemetryItem now1 r1).lookup "SK" = (putTelemetryItem now2 r2).lookup "SK") := by
  refine ⟨fun now r => ⟨(putTelemetryItem_lookup now r).1, (putTelemetryItem_lookup now r).2.1⟩,
    fun now r => ⟨rfl, ?_⟩, ?_⟩
  · rw [(putTelemetryItem_lookup now r).1]; rfl
  · intro now1 now2 r1 r2 ht hd hts
    rw [(putTelemetryItem_lookup now1 r1).1, (putTelemetryItem_lookup now2 r2).1,
      (putTelemetryItem_lookup now1 r1).2.1, (putTelemetryItem_lookup now2 r2).2.1,
      ht, hd, hts]
    exact ⟨rfl, rfl⟩

/-- Witness for C14: the same sample delivered twice, stored at two different
times with two different verdict fields. -/
theorem C14_witness :
    (putTelemetryItem Time.zero
      { TenantID := "acme-clinic", DeviceID := "watch-0000"
        Timestamp := "2024-01-01T00:00:00Z", HeartRate := 80, TempC := F64.fin 37
        SpO2 := 96, Steps := 10, BatteryPct := 90, FWVersion := "1.0.0"
        AnomalyFlag := false, AnomalyType := "" }).lookup "SK" =
    (putTelemetryItem { unix := 1704067200, nsec := 0, offset := 0 }
      { TenantID := "acme-clinic", DeviceID := "watch-0000"
        Timestamp := "2024-01-01T00:00:00Z", HeartRate := 80, TempC := F64.fin 37
        SpO2 := 96, Steps := 10, BatteryPct := 90, FWVersion := "1.0.1"
        AnomalyFlag := false, AnomalyType := "" }).lookup "SK" :=
  (C14_durable_key_schema.2.2 Time.zero { unix := 1704067200, nsec := 0, offset := 0 }
    { TenantID := "acme-clinic", DeviceID := "watch-0000"
      Timestamp := "2024-01-01T00:00:00Z", HeartRate := 80, TempC := F64.fin 37
      SpO2 := 96, Steps := 10, BatteryPct := 90, FWVersion := "1.0.0"
      AnomalyFlag := false, AnomalyType := "" }
    { TenantID := "acme-clinic", DeviceID := "watch-0000"
      Timestamp := "2024-01-01T00:00:00Z", HeartRate := 80, TempC := F64.fin 37
      SpO2 := 96, Steps := 10, BatteryPct := 90, FWVersion := "1.0.1"
      AnomalyFlag := false, AnomalyType := "" } rfl rfl rfl).2

/-- Claim C19: for every record and every clock reading `now` (nanoseconds
below one second), the `ttl` attribute `PutTelemetry` writes is the decimal
rendering of `now.Unix() + 2592000`, thirty days being 2592000 seconds; the
duration `30 * 24 * time.Hour` fits an int64 count of nanoseconds, and whenever
the seconds Go keeps for `now` (counted from year 1) leave room for 2592000 more
in an int64 (and `now.Unix()` itself is an int64), the seconds of the sum and
the returned Unix time fit an int64 too, so nothing overflows. -/
theorem C19_ttl_thirty_days :
    (∀ (now : Time) (r : TelemetryRecord), now.nsec < 1000000000 →
      (putTelemetryItem now r).lookup "ttl" =
        some (AttributeValue.N (fmtD (now.Unix + 2592000)))) ∧
    (30 * 24 * 3600 : Int) = 2592000 ∧
    (0 ≤ 30 * 24 * Time.Hour ∧ 30 * 24 * Time.Hour < 2 ^ 63) ∧
    (∀ (now : Time), now.nsec < 1000000000 →
      -(2 ^ 63) ≤ now.Unix →
      now.Unix + unixToInternal + 2592000 < 2 ^ 63 →
      (now.Add (30 * 24 * Time.Hour)).Unix = now.Unix + 2592000 ∧
      -(2 ^ 63) ≤ (now.Add (30 * 24 * Time.Hour)).Unix + unixToInternal ∧
      (now.Add (30 * 24 * Time.Hour)).Unix + unixToInternal < 2 ^ 63 ∧
      -(2 ^ 63) ≤ (now.Add (30 * 24 * Time.Hour)).Unix ∧
      (now.Add (30 * 24 * Time.Hour)).Unix < 2 ^ 63) := by
  refine ⟨?_, by norm_num, ?_, ?_⟩
  · intro now r h
    rw [(putTelemetryItem_lookup now r).2.2.1, add_thirtyDays now h]
    rfl
  · unfold Time.Hour
    constructor <;> norm_num
  · intro now h hlo hhi
    rw [add_thirtyDays now h]
    have e : ({ now with unix := now.unix + 2592000 } : Time).Unix = now.Unix + 2592000 := rfl
    rw [e]
    unfold Time.Unix unixToInternal at *
    refine ⟨rfl, ?_, ?_, ?_, ?_⟩ <;> omega

/-- Witness for C19: a clock reading on 2024-01-01. -/
theorem C19_witness :
    (putTelemetryItem { unix := 1704067200, nsec := 0, offset := 0 }
      { TenantID := "acme-clinic", DeviceID := "watch-0000"
        Timestamp := "2024-01-01T00:00:00Z", HeartRate := 80, TempC := F64.fin 37
        SpO2 := 96, Steps := 10, BatteryPct := 90, FWVersion := "1.0.0"
        AnomalyFlag := false, AnomalyType := "" }).lookup "ttl" =
      some (AttributeValue.N (fmtD (1704067200 + 2592000))) :=
  C19_ttl_thirty_days.1 { unix := 1704067200, nsec := 0, offset := 0 } _ (by decide)

/-! ### The cache -/

/-- Two texts cut at their first separator agree on both sides. -/
theorem split_first_sep {α : Type} (c : α) (l1 : List α) :
    ∀ (l2 r1 r2 : List α), c ∉ l1 → c ∉ l2 → l1 ++ c :: r1 = l2 ++ c :: r2 →
      l1 = l2 ∧ r1 = r2 := by
  induction l1 with
  | nil =>
    intro l2 r1 r2 _ h2 h
    cases l2 with
    | nil => simpa using h
    | cons b l2 =>
      simp only [List.nil_append, List.cons_append, List.cons.injEq] at h
      exact absurd (h.1 ▸ List.mem_cons_self _ _) h2
  | cons a l1 ih =>
    intro l2 r1 r2 h1 h2 h
    cases l2 with
    | nil =>
      simp only [List.nil_append, List.cons_append, List.cons.injEq] at h
      exact absurd (h.1 ▸ List.mem_cons_self _ _) h1
    | cons b l2 =>
      simp only [List.cons_append, List.cons.injEq] at h
      obtain ⟨hl, hr⟩ := ih l2 r1 r2 (fun hm => h1 (List.mem_cons_of_mem _ hm))
        (fun hm => h2 (List.mem_cons_of_mem _ hm)) h.2
      exact ⟨by rw [h.1, hl], hr⟩

/-- Two texts cut at their last separator agree on both sides. -/
theorem split_last_sep {α : Type} (c : α) (l1 l2 r1 r2 : List α) (h1 : c ∉ r1) (h2 : c ∉ r2)
    (h : l1 ++ c :: r1 = l2 ++ c :: r2) : l1 = l2 ∧ r1 = r2 := by
  have hrev : r1.reverse ++ c :: l1.reverse = r2.reverse ++ c :: l2.reverse := by
    have := congrArg List.reverse h
    simpa using this
  obtain ⟨hr, hl⟩ := split_first_sep c r1.reverse r2.reverse l1.reverse l2.reverse
    (by simpa using h1) (by simpa using h2) hrev
  exact ⟨List.reverse_injective hl, List.reverse_injective hr⟩

/-- The characters of a cache key. -/
theorem cacheKey_data (tenantID deviceID : String) :
    (cacheKey tenantID deviceID).data =
      "latest:".data ++ (tenantID.data ++ ':' :: deviceID.data) := by
  unfold cacheKey
  simp [String.data_append]

/-- The key under which `SetLatest` writes. -/
theorem setLatest_key (timeMarshalJSON : Time → Option String) (o : Outcome)
    (tenantID deviceID : String) (x : LatestTelemetry)
    (h : (SetLatest timeMarshalJSON o tenantID deviceID x).2 = none) :
    (SetLatest timeMarshalJSON o tenantID deviceID x).1 =
      [Effect.redisSet (cacheKey tenantID deviceID) x 600] := by
  unfold SetLatest at h ⊢
  cases hj : jsonMarshalErr timeMarshalJSON x with
  | some e => rw [hj] at h; cases h
  | none => rfl

/-- A time whose zone offset is a whole number of minutes is read back from its
JSON text as it was. -/
theorem time_jsonRoundTrip_minutes (t : Time) (h : t.offset % 60 = 0) :
    t.jsonRoundTrip = t := by
  have hz : Int.tdiv t.offset 60 * 60 = t.offset :=
    Int.tdiv_mul_cancel (Int.dvd_of_emod_eq_zero h)
  unfold Time.jsonRoundTrip
  simp only [hz]
  cases t
  simp

/-- A cache value whose timestamp has a zone offset of whole minutes is read
back from its JSON document as it was. -/
theorem latest_jsonRoundTrip_minutes (x : LatestTelemetry) (h : x.Timestamp.offset % 60 = 0) :
    x.jsonRoundTrip = Except.ok x := by
  unfold LatestTelemetry.jsonRoundTrip
  rw [time_jsonRoundTrip_minutes x.Timestamp h]

/-- `GetLatest` looks at nothing but the entry under the key of the pair. -/
theorem getLatest_key (getErr : Option String)
    (rt : LatestTelemetry → Except String LatestTelemetry) (st : CacheState) (now : Nat)
    (tenantID deviceID : String) :
    GetLatest getErr rt st now tenantID deviceID =
      match getErr with
      | some e => Except.error ("failed to get cache: " ++ e)
      | none =>
        match st.get now (cacheKey tenantID deviceID) with
        | none => Except.error ("no cached data for device " ++ deviceID)
        | some v =>
          match rt v with
          | Except.error e => Except.error ("failed to unmarshal data: " ++ e)
          | Except.ok data => Except.ok data := rfl

/-- A read of the key just written, before and after the expiry. -/
theorem get_set_same (st : CacheState) (t now : Nat) (key : String) (x : LatestTelemetry)
    (ttl : Nat) :
    (st.set t key x ttl).get now key = if now < t + ttl * 1000 then some x else none := by
  simp [CacheState.get, CacheState.set]

/-- A write leaves the other keys alone. -/
theorem get_set_other (st : CacheState) (t now : Nat) (key key2 : String) (x : LatestTelemetry)
    (ttl : Nat) (h : key2 ≠ key) :
    (st.set t key x ttl).get now key2 = st.get now key2 := by
  simp [CacheState.get, CacheState.set, h]

/-- Claim C12 fails as stated: a value whose timestamp carries the zone offset
`+01:00:01` (3601 seconds) is accepted by `SetLatest`, and `GetLatest` one
millisecond later returns a different value: the zone is read back as `+01:00`
and the instant one second later, because the JSON text of a time keeps the
zone in whole minutes. -/
theorem C12_counterexample_zone_seconds :
    (SetLatest Time.marshalJSONErr { now := Time.zero, putItemErr := none, redisSetErr := none }
        "acme-clinic" "watch-0000"
        { DeviceID := "watch-0000", Timestamp := { unix := 1704067200, nsec := 0, offset := 3601 }
          HeartRate := 80, TempC := F64.fin 37, SpO2 := 96, Steps := 10
          BatteryPct := 90 }).2 = none ∧
    GetLatest none LatestTelemetry.jsonRoundTrip
      ((SetLatest Time.marshalJSONErr
          { now := Time.zero, putItemErr := none, redisSetErr := none }
          "acme-clinic" "watch-0000"
          { DeviceID := "watch-0000"
            Timestamp := { unix := 1704067200, nsec := 0, offset := 3601 }
            HeartRate := 80, TempC := F64.fin 37, SpO2 := 96, Steps := 10
            BatteryPct := 90 }).1.foldl (CacheState.exec 0) (fun _ => none))
      1 "acme-clinic" "watch-0000" =
    Except.ok
      { DeviceID := "watch-0000", Timestamp := { unix := 1704067201, nsec := 0, offset := 3600 }
        HeartRate := 80, TempC := F64.fin 37, SpO2 := 96, Steps := 10, BatteryPct := 90 } ∧
    ({ DeviceID := "watch-0000", Timestamp := { unix := 1704067201, nsec := 0, offset := 3600 }
       HeartRate := 80, TempC := F64.fin 37, SpO2 := 96, Steps := 10
       BatteryPct := 90 } : LatestTelemetry) ≠
      { DeviceID := "watch-0000", Timestamp := { unix := 1704067200, nsec := 0, offset := 3601 }
        HeartRate := 80, TempC := F64.fin 37, SpO2 := 96, Steps := 10, BatteryPct := 90 } := by
  have hset : (SetLatest Time.marshalJSONErr
      { now := Time.zero, putItemErr := none, redisSetErr := none } "acme-clinic" "watch-0000"
      { DeviceID := "watch-0000", Timestamp := { unix := 1704067200, nsec := 0, offset := 3601 }
        HeartRate := 80, TempC := F64.fin 37, SpO2 := 96, Steps := 10
        BatteryPct := 90 }).2 = none := by decide
  refine ⟨hset, ?_, ?_⟩
  · rw [setLatest_key _ _ _ _ _ hset, getLatest_key]
    have hst : [Effect.redisSet (cacheKey "acme-clinic" "watch-0000")
        ({ DeviceID := "watch-0000"
           Timestamp := { unix := 1704067200, nsec := 0, offset := 3601 }
           HeartRate := 80, TempC := F64.fin 37, SpO2 := 96, Steps := 10
           BatteryPct := 90 } : LatestTelemetry) 600].foldl
          (CacheState.exec 0) (fun _ => none) =
        CacheState.set (fun _ => none) 0 (cacheKey "acme-clinic" "watch-0000")
          { DeviceID := "watch-0000"
            Timestamp := { unix := 1704067200, nsec := 0, offset := 3601 }
            HeartRate := 80, TempC := F64.fin 37, SpO2 := 96, Steps := 10
            BatteryPct := 90 } 600 := rfl
    rw [hst, get_set_same]
    rfl
  · intro h
    have h2 := congrArg (fun v : LatestTelemetry => v.Timestamp.offset) h
    simp at h2

/-- Claim C12, amended: for every prior cache state, every tenant, device and
value `x`, once `SetLatest(tenant, device, x)` has succeeded at time `t`
(milliseconds), `GetLatest(tenant, device)` answered by the cache at any time
before `t + 600` seconds, with no write in between, returns what
`json.Unmarshal` makes of the document `json.Marshal` wrote for `x`: that is
`x` itself whenever JSON round-trips `x`, and it does so when the timestamp of
`x` carries a zone offset of whole minutes below 24 hours; from `t + 600`
seconds on `GetLatest` returns the not-found error. The prior contents of the
cache play no part, whatever timestamp they carry. -/
theorem C12_cache_round_trip (st : CacheState) (t : Nat)
    (timeMarshalJSON : Time → Option String) (o : Outcome)
    (tenantID deviceID : String) (x : LatestTelemetry)
    (jsonRoundTrip : LatestTelemetry → Except String LatestTelemetry)
    (hset : (SetLatest timeMarshalJSON o tenantID deviceID x).2 = none) :
    (jsonRoundTrip x = Except.ok x → ∀ now, now < t + 600 * 1000 →
      GetLatest none jsonRoundTrip
        ((SetLatest timeMarshalJSON o tenantID deviceID x).1.foldl (CacheState.exec t) st)
        now tenantID deviceID = Except.ok x) ∧
    (∀ now, now < t + 600 * 1000 →
      GetLatest none jsonRoundTrip
        ((SetLatest timeMarshalJSON o tenantID deviceID x).1.foldl (CacheState.exec t) st)
        now tenantID deviceID =
          match jsonRoundTrip x with
          | Except.error e => Except.error ("failed to unmarshal data: " ++ e)
          | Except.ok data => Except.ok data) ∧
    (∀ now, t + 600 * 1000 ≤ now →
      GetLatest none jsonRoundTrip
        ((SetLatest timeMarshalJSON o tenantID deviceID x).1.foldl (CacheState.exec t) st)
        now tenantID deviceID =
          Except.error ("no cached data for device " ++ deviceID)) ∧
    (x.Timestamp.offset % 60 = 0 → x.Timestamp.offset.natAbs < 86400 →
      ∀ now, now < t + 600 * 1000 →
      GetLatest none LatestTelemetry.jsonRoundTrip
        ((SetLatest timeMarshalJSON o tenantID deviceID x).1.foldl (CacheState.exec t) st)
        now tenantID deviceID = Except.ok x) := by
  rw [setLatest_key timeMarshalJSON o tenantID deviceID x hset]
  have hst : [Effect.redisSet (cacheKey tenantID deviceID) x 600].foldl (CacheState.exec t) st =
      st.set t (cacheKey tenantID deviceID) x 600 := rfl
  rw [hst]
  have hbefore : ∀ (rt : LatestTelemetry → Except String LatestTelemetry) (now : Nat),
      now < t + 600 * 1000 →
      GetLatest none rt (st.set t (cacheKey tenantID deviceID) x 600)
        now tenantID deviceID =
          match rt x with
          | Except.error e => Except.error ("failed to unmarshal data: " ++ e)
          | Except.ok data => Except.ok data := by
    intro rt now hnow
    rw [getLatest_key, get_set_same, if_pos hnow]
  refine ⟨?_, hbefore jsonRoundTrip, ?_, ?_⟩
  · intro hrt now hnow
    rw [hbefore jsonRoundTrip now hnow, hrt]
  · intro now hnow
    rw [getLatest_key, get_set_same, if_neg (by omega)]
  · intro hmin _ now hnow
    rw [hbefore LatestTelemetry.jsonRoundTrip now hnow, latest_jsonRoundTrip_minutes x hmin]

/-- Witness for C12: the cache already holds an entry for the same device with
a later sample timestamp and a longer life; the new value, whose timestamp is
in UTC, replaces it and is read back as it was. -/
theorem C12_witness :
    GetLatest none LatestTelemetry.jsonRoundTrip
      ((SetLatest Time.marshalJSONErr
          { now := Time.zero, putItemErr := none, redisSetErr := none }
          "acme-clinic" "watch-0000"
          { DeviceID := "watch-0000", Timestamp := { unix := 1704067200, nsec := 0, offset := 0 }
            HeartRate := 80, TempC := F64.fin 37, SpO2 := 96, Steps := 10
            BatteryPct := 90 }).1.foldl (CacheState.exec 5000)
        (fun k => if k = "latest:acme-clinic:watch-0000" then
          some { value :=
                  { DeviceID := "watch-0000"
                    Timestamp := { unix := 1704070800, nsec := 0, offset := 0 }
                    HeartRate := 170, TempC := F64.fin 37, SpO2 := 96, Steps := 12
                    BatteryPct := 89 }
                 expiresAt := 9000000 }
          else none))
      604999 "acme-clinic" "watch-0000" =
    Except.ok
      { DeviceID := "watch-0000", Timestamp := { unix := 1704067200, nsec := 0, offset := 0 }
        HeartRate := 80, TempC := F64.fin 37, SpO2 := 96, Steps := 10, BatteryPct := 90 } :=
  (C12_cache_round_trip
    (fun k => if k = "latest:acme-clinic:watch-0000" then
      some { value :=
              { DeviceID := "watch-0000"
                Timestamp := { unix := 1704070800, nsec := 0, offset := 0 }
                HeartRate := 170, TempC := F64.fin 37, SpO2 := 96, Steps := 12
                BatteryPct := 89 }
             expiresAt := 9000000 }
      else none)
    5000 Time.marshalJSONErr { now := Time.zero, putItemErr := none, redisSetErr := none }
    "acme-clinic" "watch-0000"
    { DeviceID := "watch-0000", Timestamp := { unix := 1704067200, nsec := 0, offset := 0 }
      HeartRate := 80, TempC := F64.fin 37, SpO2 := 96, Steps := 10, BatteryPct := 90 }
    Except.ok (by decide)).2.2.2 (by decide) (by decide) 604999 (by decide)

/-- Claim C13 fails as stated: the pairs ("a:b", "c") and ("a", "b:c") are
different and get the same key "latest:a:b:c", so a value written for the first
is returned for the second. -/
theorem C13_counterexample_colon :
    cacheKey "a:b" "c" = cacheKey "a" "b:c" ∧
    (("a:b", "c") : String × String) ≠ ("a", "b:c") ∧
    GetLatest none Except.ok
      ((SetLatest Time.marshalJSONErr
          { now := Time.zero, putItemErr := none, redisSetErr := none } "a:b" "c"
          { DeviceID := "c", Timestamp := Time.zero, HeartRate := 80, TempC := F64.fin 37
            SpO2 := 96, Steps := 10, BatteryPct := 90 }).1.foldl (CacheState.exec 0)
        (fun _ => none))
      1 "a" "b:c" =
    Except.ok
      { DeviceID := "c", Timestamp := Time.zero, HeartRate := 80, TempC := F64.fin 37
        SpO2 := 96, Steps := 10, BatteryPct := 90 } := by
  refine ⟨by decide, by decide, ?_⟩
  rw [setLatest_key Time.marshalJSONErr
    { now := Time.zero, putItemErr := none, redisSetErr := none } "a:b" "c"
    { DeviceID := "c", Timestamp := Time.zero, HeartRate := 80, TempC := F64.fin 37
      SpO2 := 96, Steps := 10, BatteryPct := 90 } (by decide), getLatest_key]
  have hk : cacheKey "a" "b:c" = cacheKey "a:b" "c" := by decide
  have hst : [Effect.redisSet (cacheKey "a:b" "c")
      ({ DeviceID := "c", Timestamp := Time.zero, HeartRate := 80, TempC := F64.fin 37
         SpO2 := 96, Steps := 10, BatteryPct := 90 } : LatestTelemetry) 600].foldl
        (CacheState.exec 0) (fun _ => none) =
      CacheState.set (fun _ => none) 0 (cacheKey "a:b" "c")
        { DeviceID := "c", Timestamp := Time.zero, HeartRate := 80, TempC := F64.fin 37
          SpO2 := 96, Steps := 10, BatteryPct := 90 } 600 := rfl
  rw [hst, hk, get_set_same]
  rfl

/-- Claim C13, amended: the key `SetLatest` writes and `GetLatest` reads is
`"latest:" + tenant + ":" + device`; two pairs whose tenant ids contain no
colon (or whose device ids contain none) get the same key only if they are the
same pair; and for such pairs a value written for one pair leaves what
`GetLatest` returns for a different pair unchanged. -/
theorem C13_cache_key_injective :
    (∀ tenantID deviceID : String,
      cacheKey tenantID deviceID = "latest:" ++ tenantID ++ ":" ++ deviceID) ∧
    (∀ (timeMarshalJSON : Time → Option String) (o : Outcome) (tenantID deviceID : String)
      (x : LatestTelemetry),
      (SetLatest timeMarshalJSON o tenantID deviceID x).2 = none →
      (SetLatest timeMarshalJSON o tenantID deviceID x).1 =
        [Effect.redisSet (cacheKey tenantID deviceID) x 600]) ∧
    (∀ (getErr : Option String) (rt : LatestTelemetry → Except String LatestTelemetry)
      (st1 st2 : CacheState) (now : Nat) (tenantID deviceID : String),
      st1 (cacheKey tenantID deviceID) = st2 (cacheKey tenantID deviceID) →
      GetLatest getErr rt st1 now tenantID deviceID =
        GetLatest getErr rt st2 now tenantID deviceID) ∧
    (∀ t1 d1 t2 d2 : String,
      ((':' ∉ t1.data ∧ ':' ∉ t2.data) ∨ (':' ∉ d1.data ∧ ':' ∉ d2.data)) →
      cacheKey t1 d1 = cacheKey t2 d2 → t1 = t2 ∧ d1 = d2) ∧
    (∀ (timeMarshalJSON : Time → Option String) (o : Outcome)
      (rt : LatestTelemetry → Except String LatestTelemetry)
      (st : CacheState) (t now : Nat) (t1 d1 t2 d2 : String) (x : LatestTelemetry),
      ((':' ∉ t1.data ∧ ':' ∉ t2.data) ∨ (':' ∉ d1.data ∧ ':' ∉ d2.data)) →
      (t1, d1) ≠ (t2, d2) →
      GetLatest none rt
          ((SetLatest timeMarshalJSON o t1 d1 x).1.foldl (CacheState.exec t) st) now t2 d2 =
        GetLatest none rt st now t2 d2) := by
  have hinj : ∀ t1 d1 t2 d2 : String,
      ((':' ∉ t1.data ∧ ':' ∉ t2.data) ∨ (':' ∉ d1.data ∧ ':' ∉ d2.data)) →
      cacheKey t1 d1 = cacheKey t2 d2 → t1 = t2 ∧ d1 = d2 := by
    intro t1 d1 t2 d2 hc hk
    have hd := congrArg String.data hk
    rw [cacheKey_data, cacheKey_data] at hd
    have hd2 := List.append_cancel_left hd
    rcases hc with ⟨h1, h2⟩ | ⟨h1, h2⟩
    · obtain ⟨ht, hdv⟩ := split_first_sep ':' _ _ _ _ h1 h2 hd2
      exact ⟨String.ext ht, String.ext hdv⟩
    · obtain ⟨ht, hdv⟩ := split_last_sep ':' _ _ _ _ h1 h2 hd2
      exact ⟨String.ext ht, String.ext hdv⟩
  refine ⟨fun _ _ => rfl, setLatest_key, ?_, hinj, ?_⟩
  · intro getErr rt st1 st2 now tenantID deviceID h
    rw [getLatest_key, getLatest_key]
    unfold CacheState.get
    rw [h]
  · intro timeMarshalJSON o rt st t now t1 d1 t2 d2 x hc hne
    have hkey : cacheKey t2 d2 ≠ cacheKey t1 d1 := by
      intro hk
      obtain ⟨h1, h2⟩ := hinj t1 d1 t2 d2 hc hk.symm
      exact hne (by rw [h1, h2])
    unfold SetLatest
    cases hj : jsonMarshalErr timeMarshalJSON x with
    | some e => rfl
    | none =>
      show GetLatest none rt (st.set t ("latest:" ++ t1 ++ ":" ++ d1) x 600) now t2 d2 = _
      rw [getLatest_key, getLatest_key]
      have := get_set_other st t now (cacheKey t1 d1) (cacheKey t2 d2) x 600 hkey
      unfold cacheKey at this ⊢
      rw [this]

/-- Witness for C13: a write for one watch changes nothing for another watch of
the same tenant. -/
theorem C13_witness :
    GetLatest none Except.ok
      ((SetLatest Time.marshalJSONErr
          { now := Time.zero, putItemErr := none, redisSetErr := none }
          "acme-clinic" "watch-0000"
          { DeviceID := "watch-0000", Timestamp := Time.zero, HeartRate := 80
            TempC := F64.fin 37, SpO2 := 96, Steps := 10, BatteryPct := 90 }).1.foldl
        (CacheState.exec 0) (fun _ => none))
      1 "acme-clinic" "watch-0001" =
    GetLatest none Except.ok (fun _ => none) 1 "acme-clinic" "watch-0001" :=
  C13_cache_key_injective.2.2.2.2 Time.marshalJSONErr
    { now := Time.zero, putItemErr := none, redisSetErr := none } Except.ok (fun _ => none)
    0 1 "acme-clinic" "watch-0000" "acme-clinic" "watch-0001"
    { DeviceID := "watch-0000", Timestamp := Time.zero, HeartRate := 80
      TempC := F64.fin 37, SpO2 := 96, Steps := 10, BatteryPct := 90 }
    (Or.inl ⟨by decide, by decide⟩) (by decide)

/-! ### The stream-processing variant -/

/-- The hypoxia reason with the threshold printed by `%d` is the one with the
literal `90`. -/
theorem hypoxia_reason_eq (spo2 : Int) :
    "SpO2 " ++ fmtD spo2 ++ "% below threshold " ++ fmtD 90 ++ "%" =
      "SpO2 " ++ fmtD spo2 ++ "% below threshold 90%" := by
  have h90 : fmtD 90 = "90" := by decide
  rw [h90, String.append_assoc, String.append_assoc ("SpO2 " ++ fmtD spo2)]
  congr 1

/-- The two classifiers are the same function of the three vitals. -/
theorem detectAnomaly_eq_detect (t : Telemetry) :
    Lambda.detectAnomaly t =
      NewSimpleDetector.Detect t.Metrics.HeartRate t.Metrics.TempC t.Metrics.SpO2 := by
  unfold Lambda.detectAnomaly SimpleDetector.Detect NewSimpleDetector Lambda.hrThreshold
    Lambda.tempThreshold AnomalyResult.none
  simp only
  split
  · rfl
  · split
    · rfl
    · split
      · rw [hypoxia_reason_eq]
      · rfl

/-- Claim C15: for every telemetry value `t`, the lambda processor's
`detectAnomaly(t)` equals `NewSimpleDetector().Detect(t.Metrics.HeartRate,
t.Metrics.TempC, t.Metrics.SpO2)`, in the flag, the type and the reason. -/
theorem C15_lambda_same_classification (t : Telemetry) :
    Lambda.detectAnomaly t =
      NewSimpleDetector.Detect t.Metrics.HeartRate t.Metrics.TempC t.Metrics.SpO2 ∧
    (Lambda.detectAnomaly t).IsAnomaly =
      (NewSimpleDetector.Detect t.Metrics.HeartRate t.Metrics.TempC t.Metrics.SpO2).IsAnomaly ∧
    (Lambda.detectAnomaly t).AnomalyType =
      (NewSimpleDetector.Detect t.Metrics.HeartRate t.Metrics.TempC
        t.Metrics.SpO2).AnomalyType ∧
    (Lambda.detectAnomaly t).Reason =
      (NewSimpleDetector.Detect t.Metrics.HeartRate t.Metrics.TempC t.Metrics.SpO2).Reason := by
  have h := detectAnomaly_eq_detect t
  exact ⟨h, by rw [h], by rw [h], by rw [h]⟩

/-! ### Subscriptions -/

/-- The broadcast loop reads nothing of a session but its mailbox: from two
states with the same registry and the same mailboxes it panics alike or ends in
two states with the same registry and the same mailboxes. -/
theorem broadcastLoop_congr (m : Msg) (cs : List ClientPtr) :
    ∀ (s1 s2 : HubState), s1.clients = s2.clients → (∀ c, s1.send c = s2.send c) →
      (∀ e, WSHub.broadcastLoop m cs s1 = Except.error e →
        WSHub.broadcastLoop m cs s2 = Except.error e) ∧
      (∀ a, WSHub.broadcastLoop m cs s1 = Except.ok a →
        ∃ b, WSHub.broadcastLoop m cs s2 = Except.ok b ∧ a.clients = b.clients ∧
          ∀ c, a.send c = b.send c) := by
  induction cs with
  | nil =>
    intro s1 s2 hc hs
    constructor
    · intro e h; cases h
    · intro a h
      have : Except.ok s1 = (Except.ok a : Except Panic HubState) := h
      injection this with h1
      subst h1
      exact ⟨s2, rfl, hc, hs⟩
  | cons c cs ih =>
    intro s1 s2 hc hs
    unfold WSHub.broadcastLoop
    rw [← hs c]
    rcases trySend_cases (s1.send c) m with ⟨hcl, ht⟩ | ⟨hopen, _, ht⟩ | ⟨hopen, _, ht⟩
    · rw [ht]
      exact ⟨fun e h => h, fun a h => by cases h⟩
    · rw [ht]
      simp only
      apply ih
      · exact hc
      · intro x
        rw [setSend_send, setSend_send, hs x]
    · rw [ht]
      simp only
      rw [close_open _ hopen]
      simp only
      apply ih
      · show s1.clients.erase c = s2.clients.erase c
        rw [hc]
      · intro x
        show (s1.setSend c _).send x = (s2.setSend c _).send x
        rw [setSend_send, setSend_send, hs x]

/-- The broadcast loop leaves tenant scopes and subscription sets as they are. -/
theorem broadcastLoop_meta (m : Msg) (cs : List ClientPtr) :
    ∀ (s a : HubState), WSHub.broadcastLoop m cs s = Except.ok a →
      ∀ x, (a.heap x).tenantID = (s.heap x).tenantID ∧ (a.heap x).subs = (s.heap x).subs := by
  induction cs with
  | nil =>
    intro s a h x
    have : Except.ok s = (Except.ok a : Except Panic HubState) := h
    injection this with h1
    subst h1
    exact ⟨rfl, rfl⟩
  | cons c cs ih =>
    intro s a h x
    unfold WSHub.broadcastLoop at h
    rcases trySend_cases (s.send c) m with ⟨_, ht⟩ | ⟨_, _, ht⟩ | ⟨hopen, _, ht⟩
    · rw [ht] at h; cases h
    · rw [ht] at h
      simp only at h
      have h1 := ih _ a h x
      have h2 := setSend_meta s c x { s.send c with buf := (s.send c).buf ++ [m] }
      exact ⟨h1.1.trans h2.1, h1.2.trans h2.2⟩
    · rw [ht] at h
      simp only at h
      rw [close_open _ hopen] at h
      simp only at h
      have h1 := ih _ a h x
      have h2 := setSend_meta s c x { s.send c with closed := true }
      exact ⟨h1.1.trans h2.1, h1.2.trans h2.2⟩

/-- Claim C16: for every message and every two hub states with the same registry
and the same mailboxes (they differ at most in subscription sets and tenant
scopes), processing a broadcast panics in both or ends, in both, with the same
registry and the same mailbox for every session, and it changes no subscription
set; the same holds for `WSHub.Broadcast` on an envelope; and in a well-formed
state every registered session with fewer than 256 queued messages gets the
envelope at the tail of its mailbox, whatever its subscription set and tenant
scope are, also when it has not subscribed to the envelope's device. -/
theorem C16_broadcast_ignores_subscriptions :
    (∀ (m : Msg) (s1 s2 : HubState), s1.clients = s2.clients → (∀ c, s1.send c = s2.send c) →
      (∀ e, WSHub.step s1 (Event.broadcast m) = Except.error e ↔
        WSHub.step s2 (Event.broadcast m) = Except.error e) ∧
      (∀ a, WSHub.step s1 (Event.broadcast m) = Except.ok a →
        ∃ b, WSHub.step s2 (Event.broadcast m) = Except.ok b ∧ a.clients = b.clients ∧
          (∀ c, a.send c = b.send c) ∧
          (∀ c, (a.heap c).subs = (s1.heap c).subs ∧ (b.heap c).subs = (s2.heap c).subs))) ∧
    (∀ (marshal : WSMessage → Except String Msg) (msg : WSMessage) (s1 s2 : HubState),
      s1.clients = s2.clients → (∀ c, s1.send c = s2.send c) →
      ∀ a, WSHub.Broadcast marshal s1 msg = Except.ok a →
        ∃ b, WSHub.Broadcast marshal s2 msg = Except.ok b ∧ a.clients = b.clients ∧
          ∀ c, a.send c = b.send c) ∧
    (∀ (marshal : WSMessage → Except String Msg) (msg : WSMessage) (data : Msg)
      (s : HubState) (c : ClientPtr),
      WellFormed s → marshal msg = Except.ok data → c ∈ s.clients →
      (s.send c).buf.length < 256 → msg.DeviceID ∉ (s.heap c).subs →
      ∃ a, WSHub.Broadcast marshal s msg = Except.ok a ∧
        (a.send c).buf = (s.send c).buf ++ [data] ∧ c ∈ a.clients) := by
  have hstep : ∀ (m : Msg) (s1 s2 : HubState), s1.clients = s2.clients →
      (∀ c, s1.send c = s2.send c) →
      (∀ e, WSHub.step s1 (Event.broadcast m) = Except.error e →
        WSHub.step s2 (Event.broadcast m) = Except.error e) ∧
      (∀ a, WSHub.step s1 (Event.broadcast m) = Except.ok a →
        ∃ b, WSHub.step s2 (Event.broadcast m) = Except.ok b ∧ a.clients = b.clients ∧
          ∀ c, a.send c = b.send c) := by
    intro m s1 s2 hc hs
    rw [step_broadcast, step_broadcast, ← hc]
    exact broadcastLoop_congr m s1.clients s1 s2 hc hs
  refine ⟨?_, ?_, ?_⟩
  · intro m s1 s2 hc hs
    refine ⟨fun e => ⟨(hstep m s1 s2 hc hs).1 e,
      (hstep m s2 s1 hc.symm (fun c => (hs c).symm)).1 e⟩, ?_⟩
    intro a ha
    obtain ⟨b, hb, h1, h2⟩ := (hstep m s1 s2 hc hs).2 a ha
    refine ⟨b, hb, h1, h2, fun c => ⟨?_, ?_⟩⟩
    · rw [step_broadcast] at ha
      exact (broadcastLoop_meta m _ s1 a ha c).2
    · rw [step_broadcast] at hb
      exact (broadcastLoop_meta m _ s2 b hb c).2
  · intro marshal msg s1 s2 hc hs a ha
    unfold WSHub.Broadcast at ha ⊢
    cases hm : marshal msg with
    | error e =>
      rw [hm] at ha
      simp only at ha ⊢
      injection ha with ha
      subst ha
      exact ⟨s2, rfl, hc, hs⟩
    | ok data =>
      rw [hm] at ha
      simp only at ha ⊢
      exact (hstep data s1 s2 hc hs).2 a ha
  · intro marshal msg data s c hwf hm hc hlen _
    unfold WSHub.Broadcast
    rw [hm]
    simp only
    obtain ⟨a, ha⟩ := step_total s (Event.broadcast data) hwf.1 (fun x hx => (hwf.2 x hx).1)
    have hroom : (s.send c).buf.length < (s.send c).cap := by rw [(hwf.2 c hc).2]; exact hlen
    have hmem := (step_mem s a _ hwf.1 ha c).2 ⟨hc, hroom⟩
    refine ⟨a, ha, ?_, hmem⟩
    rw [step_broadcast] at ha
    rw [(broadcastLoop_ok data s.clients s a hwf.1 hwf.1 ha).2.2.1 c hc hroom]

/-- Witness for C16: a session subscribed to another device still gets the envelope. -/
theorem C16_witness :
    ∃ a, WSHub.Broadcast (fun _ => Except.ok [1])
        { clients := [0]
          heap := fun _ => { send := Chan.make 256, tenantID := "acme-clinic"
                             subs := ["watch-0001"] } }
        { type := "telemetry", DeviceID := "watch-0000", TenantID := "other-clinic"
          Timestamp := "2024-01-01T00:00:00Z", Data := none } = Except.ok a ∧
      (a.send 0).buf = [] ++ [[1]] ∧ 0 ∈ a.clients :=
  C16_broadcast_ignores_subscriptions.2.2 (fun _ => Except.ok [1])
    { type := "telemetry", DeviceID := "watch-0000", TenantID := "other-clinic"
      Timestamp := "2024-01-01T00:00:00Z", Data := none }
    [1]
    { clients := [0]
      heap := fun _ => { send := Chan.make 256, tenantID := "acme-clinic"
                         subs := ["watch-0001"] } }
    0 ⟨by decide, fun _ _ => ⟨rfl, rfl⟩⟩ rfl (by decide) (by decide) (by decide)

/-- A frame that does not parse is skipped. -/
theorem readPump_error (unmarshal : Msg → Except String WSMessage) (c : WSClient)
    (message : Msg) (e : String) (h : unmarshal message = Except.error e) :
    c.readPump unmarshal message = c := by
  unfold WSClient.readPump
  rw [h]

/-- A subscribe frame inserts its device id. -/
theorem readPump_subscribe (unmarshal : Msg → Except String WSMessage) (c : WSClient)
    (message : Msg) (msg : WSMessage) (h : unmarshal message = Except.ok msg)
    (ht : msg.type = "subscribe") (hd : msg.DeviceID ≠ "") :
    c.readPump unmarshal message = { c with subs := c.subs.insert msg.DeviceID } := by
  unfold WSClient.readPump
  rw [h]
  simp only
  rw [if_pos ⟨ht, hd⟩]

/-- An unsubscribe frame deletes its device id. -/
theorem readPump_unsubscribe (unmarshal : Msg → Except String WSMessage) (c : WSClient)
    (message : Msg) (msg : WSMessage) (h : unmarshal message = Except.ok msg)
    (ht : msg.type = "unsubscribe") (hd : msg.DeviceID ≠ "") :
    c.readPump unmarshal message =
      { c with subs := c.subs.filter (fun d => d ≠ msg.DeviceID) } := by
  unfold WSClient.readPump
  rw [h]
  simp only
  have hns : ¬ (msg.type = "subscribe" ∧ msg.DeviceID ≠ "") := by
    rw [ht]; exact fun hc => absurd hc.1 (by decide)
  rw [if_neg hns, if_pos ⟨ht, hd⟩]

/-- Any other frame leaves the session as it is. -/
theorem readPump_other (unmarshal : Msg → Except String WSMessage) (c : WSClient)
    (message : Msg) (msg : WSMessage) (h : unmarshal message = Except.ok msg)
    (hor : (msg.type ≠ "subscribe" ∧ msg.type ≠ "unsubscribe") ∨ msg.DeviceID = "") :
    c.readPump unmarshal message = c := by
  unfold WSClient.readPump
  rw [h]
  simp only
  have hns : ¬ (msg.type = "subscribe" ∧ msg.DeviceID ≠ "") := by
    rintro ⟨h1, h2⟩
    rcases hor with ⟨h3, _⟩ | h3
    · exact h3 h1
    · exact h2 h3
  have hnu : ¬ (msg.type = "unsubscribe" ∧ msg.DeviceID ≠ "") := by
    rintro ⟨h1, h2⟩
    rcases hor with ⟨_, h3⟩ | h3
    · exact h3 h1
    · exact h2 h3
  rw [if_neg hns, if_neg hnu]

/-- Claim C17: for every session and every frame read from the client, a frame
that parses with type "subscribe" and a non-empty device id makes the
subscription set the old set plus that device id; one with type "unsubscribe"
and a non-empty device id makes it the old set minus that device id; every
other frame (another type, an empty device id, a body that does not parse)
leaves the session as it is; handling the same frame a second time changes
nothing more; the mailbox and the tenant scope are never touched. -/
theorem C17_subscription_frames (unmarshal : Msg → Except String WSMessage) (c : WSClient)
    (message : Msg) :
    (∀ msg, unmarshal message = Except.ok msg → msg.type = "subscribe" → msg.DeviceID ≠ "" →
      ∀ d, d ∈ (c.readPump unmarshal message).subs ↔ d = msg.DeviceID ∨ d ∈ c.subs) ∧
    (∀ msg, unmarshal message = Except.ok msg → msg.type = "unsubscribe" →
      msg.DeviceID ≠ "" →
      ∀ d, d ∈ (c.readPump unmarshal message).subs ↔ d ∈ c.subs ∧ d ≠ msg.DeviceID) ∧
    (∀ msg, unmarshal message = Except.ok msg →
      ((msg.type ≠ "subscribe" ∧ msg.type ≠ "unsubscribe") ∨ msg.DeviceID = "") →
      c.readPump unmarshal message = c) ∧
    (∀ e, unmarshal message = Except.error e → c.readPump unmarshal message = c) ∧
    (c.readPump unmarshal message).readPump unmarshal message = c.readPump unmarshal message ∧
    (c.readPump unmarshal message).send = c.send ∧
    (c.readPump unmarshal message).tenantID = c.tenantID := by
  refine ⟨?_, ?_, fun msg h hor => readPump_other unmarshal c message msg h hor,
    fun e h => readPump_error unmarshal c message e h, ?_⟩
  · intro msg h ht hd d
    rw [readPump_subscribe unmarshal c message msg h ht hd]
    exact List.mem_insert_iff
  · intro msg h ht hd d
    rw [readPump_unsubscribe unmarshal c message msg h ht hd]
    simp [List.mem_filter]
  · cases hu : unmarshal message with
    | error e =>
      rw [readPump_error unmarshal c message e hu, readPump_error unmarshal c message e hu]
      exact ⟨rfl, rfl, rfl⟩
    | ok msg =>
      by_cases hd : msg.DeviceID = ""
      · rw [readPump_other unmarshal c message msg hu (Or.inr hd),
          readPump_other unmarshal c message msg hu (Or.inr hd)]
        exact ⟨rfl, rfl, rfl⟩
      · by_cases hs : msg.type = "subscribe"
        · rw [readPump_subscribe unmarshal c message msg hu hs hd,
            readPump_subscribe unmarshal _ message msg hu hs hd]
          refine ⟨?_, rfl, rfl⟩
          have hin : msg.DeviceID ∈ c.subs.insert msg.DeviceID :=
            List.mem_insert_iff.2 (Or.inl rfl)
          show ({ c with subs := (c.subs.insert msg.DeviceID).insert msg.DeviceID } : WSClient) = _
          rw [List.insert_of_mem hin]
        · by_cases hun : msg.type = "unsubscribe"
          · rw [readPump_unsubscribe unmarshal c message msg hu hun hd,
              readPump_unsubscribe unmarshal _ message msg hu hun hd]
            refine ⟨?_, rfl, rfl⟩
            simp [List.filter_filter]
          · rw [readPump_other unmarshal c message msg hu (Or.inl ⟨hs, hun⟩),
              readPump_other unmarshal c message msg hu (Or.inl ⟨hs, hun⟩)]
            exact ⟨rfl, rfl, rfl⟩

/-- Witness for C17: a subscribe frame for "watch-0000" on a session subscribed
to "watch-0001". -/
theorem C17_witness :
    ∀ d, d ∈ (WSClient.readPump
        (fun _ => Except.ok { type := "subscribe", DeviceID := "watch-0000", TenantID := ""
                              Timestamp := "", Data := none })
        { send := Chan.make 256, tenantID := "acme-clinic", subs := ["watch-0001"] }
        [1]).subs ↔ d = "watch-0000" ∨ d ∈ ["watch-0001"] :=
  (C17_subscription_frames
    (fun _ => Except.ok { type := "subscribe", DeviceID := "watch-0000", TenantID := ""
                          Timestamp := "", Data := none })
    { send := Chan.make 256, tenantID := "acme-clinic", subs := ["watch-0001"] }
    [1]).1 _ rfl rfl (by decide)

/-! ### The lambda handler -/

/-- Notifications of two runs of effects, one after the other. -/
theorem published_append (a b : List Lambda.Effect) :
    Lambda.published (a ++ b) = Lambda.published a ++ Lambda.published b := by
  induction a with
  | nil => rfl
  | cons e a ih => cases e <;> simp [Lambda.published, ih]

/-- Stored items of two runs of effects, one after the other. -/
theorem stored_append (a b : List Lambda.Effect) :
    Lambda.stored (a ++ b) = Lambda.stored a ++ Lambda.stored b := by
  induction a with
  | nil => rfl
  | cons e a ih => cases e <;> simp [Lambda.stored, ih]

/-- What handling one record that parses publishes, stores and returns. -/
theorem processRecord_parsed (cfg : Lambda.Config) (unmarshal : Msg → Except String Telemetry)
    (o : Lambda.Outcome) (data : Msg) (t : Telemetry) (h : unmarshal data = Except.ok t) :
    Lambda.published (Lambda.processRecord cfg unmarshal o data).1 =
      (if (Lambda.detectAnomaly t).IsAnomaly = true then
        [(cfg.snsTopicARN, Lambda.alertSubject t (Lambda.detectAnomaly t),
          Lambda.alertMessage t (Lambda.detectAnomaly t))]
      else []) ∧
    Lambda.stored (Lambda.processRecord cfg unmarshal o data).1 =
      [Lambda.storeTelemetryItem o.now t (Lambda.detectAnomaly t)] ∧
    (Lambda.processRecord cfg unmarshal o data).2 = o.putItemErr := by
  unfold Lambda.processRecord
  rw [h]
  simp only
  refine ⟨?_, ?_, trivial⟩
  · cases (Lambda.detectAnomaly t).IsAnomaly <;> cases o.publishErr <;> cases o.putItemErr <;>
      simp [Lambda.published]
  · cases (Lambda.detectAnomaly t).IsAnomaly <;> cases o.publishErr <;> cases o.putItemErr <;>
      simp [Lambda.stored]

/-- A record that does not parse is logged and skipped. -/
theorem processRecord_invalid (cfg : Lambda.Config) (unmarshal : Msg → Except String Telemetry)
    (o : Lambda.Outcome) (data : Msg) (err : String) (h : unmarshal data = Except.error err) :
    Lambda.processRecord cfg unmarshal o data =
      ([Lambda.Effect.log ("❌ Failed to unmarshal record: " ++ err)], none) := by
  unfold Lambda.processRecord
  rw [h]

/-- The loop goes on after a record whose store succeeds. -/
theorem handlerLoop_cons_ok (cfg : Lambda.Config) (unmarshal : Msg → Except String Telemetry)
    (r : Msg × Lambda.Outcome) (rest : List (Msg × Lambda.Outcome))
    (h : (Lambda.processRecord cfg unmarshal r.2 r.1).2 = none) :
    Lambda.handlerLoop cfg unmarshal (r :: rest) =
      ((Lambda.processRecord cfg unmarshal r.2 r.1).1 ++
          (Lambda.handlerLoop cfg unmarshal rest).1,
        (Lambda.handlerLoop cfg unmarshal rest).2) := by
  rw [Lambda.handlerLoop]
  cases hp : Lambda.processRecord cfg unmarshal r.2 r.1 with
  | mk effs res =>
    rw [hp] at h
    simp only at h
    subst h
    rfl

/-- The loop handles the records one by one as long as every store succeeds. -/
theorem handlerLoop_append (cfg : Lambda.Config) (unmarshal : Msg → Except String Telemetry)
    (before after : List (Msg × Lambda.Outcome))
    (hok : ∀ r ∈ before, (Lambda.processRecord cfg unmarshal r.2 r.1).2 = none) :
    (Lambda.handlerLoop cfg unmarshal (before ++ after)).1 =
      before.flatMap (fun r => (Lambda.processRecord cfg unmarshal r.2 r.1).1) ++
        (Lambda.handlerLoop cfg unmarshal after).1 ∧
    (Lambda.handlerLoop cfg unmarshal (before ++ after)).2 =
      (Lambda.handlerLoop cfg unmarshal after).2 := by
  induction before with
  | nil => exact ⟨rfl, rfl⟩
  | cons r before ih =>
    have hr := hok r (List.mem_cons_self _ _)
    obtain ⟨ih1, ih2⟩ := ih (fun x hx => hok x (List.mem_cons_of_mem _ hx))
    rw [List.cons_append, handlerLoop_cons_ok cfg unmarshal r (before ++ after) hr]
    simp only [List.flatMap_cons, List.append_assoc]
    exact ⟨by rw [ih1], ih2⟩

/-- The loop stops at the first record whose store fails. -/
theorem handlerLoop_fail (cfg : Lambda.Config) (unmarshal : Msg → Except String Telemetry)
    (r : Msg × Lambda.Outcome) (after : List (Msg × Lambda.Outcome)) (err : String)
    (h : (Lambda.processRecord cfg unmarshal r.2 r.1).2 = some err) :
    Lambda.handlerLoop cfg unmarshal (r :: after) =
      ((Lambda.processRecord cfg unmarshal r.2 r.1).1, some err) := by
  rw [Lambda.handlerLoop]
  cases hp : Lambda.processRecord cfg unmarshal r.2 r.1 with
  | mk effs res =>
    rw [hp] at h
    simp only at h
    subst h
    rfl

/-- The notification text names the device, the tenant, the timestamp, the
anomaly type and the reason. -/
theorem alertMessage_contains (t : Telemetry) (a : AnomalyResult) :
    Contains (Lambda.alertMessage t a) t.DeviceID ∧
    Contains (Lambda.alertMessage t a) t.TenantID ∧
    Contains (Lambda.alertMessage t a) t.Timestamp ∧
    Contains (Lambda.alertMessage t a) a.AnomalyType ∧
    Contains (Lambda.alertMessage t a) a.Reason := by
  refine ⟨⟨"🚨 HEALTH ALERT 🚨\n\nDevice: ",
      "\nTenant: " ++ t.TenantID ++ "\nTimestamp: " ++ t.Timestamp ++
      "\n\nAnomaly Type: " ++ a.AnomalyType ++ "\nDetails: " ++ a.Reason ++
      "\n\nVitals:\n- Heart Rate: " ++ fmtD t.Metrics.HeartRate ++
      " bpm\n- Temperature: " ++ fmtF 1 t.Metrics.TempC ++
      "°C\n- SpO2: " ++ fmtD t.Metrics.SpO2 ++
      "%\n- Steps: " ++ fmtD t.Metrics.Steps ++
      "\n- Battery: " ++ fmtD t.BatteryPct ++
      "%\n\nAction Required: Please check patient immediately.", ?_⟩,
    ⟨"🚨 HEALTH ALERT 🚨\n\nDevice: " ++ t.DeviceID ++ "\nTenant: ",
      "\nTimestamp: " ++ t.Timestamp ++
      "\n\nAnomaly Type: " ++ a.AnomalyType ++ "\nDetails: " ++ a.Reason ++
      "\n\nVitals:\n- Heart Rate: " ++ fmtD t.Metrics.HeartRate ++
      " bpm\n- Temperature: " ++ fmtF 1 t.Metrics.TempC ++
      "°C\n- SpO2: " ++ fmtD t.Metrics.SpO2 ++
      "%\n- Steps: " ++ fmtD t.Metrics.Steps ++
      "\n- Battery: " ++ fmtD t.BatteryPct ++
      "%\n\nAction Required: Please check patient immediately.", ?_⟩,
    ⟨"🚨 HEALTH ALERT 🚨\n\nDevice: " ++ t.DeviceID ++ "\nTenant: " ++ t.TenantID ++
      "\nTimestamp: ",
      "\n\nAnomaly Type: " ++ a.AnomalyType ++ "\nDetails: " ++ a.Reason ++
      "\n\nVitals:\n- Heart Rate: " ++ fmtD t.Metrics.HeartRate ++
      " bpm\n- Temperature: " ++ fmtF 1 t.Metrics.TempC ++
      "°C\n- SpO2: " ++ fmtD t.Metrics.SpO2 ++
      "%\n- Steps: " ++ fmtD t.Metrics.Steps ++
      "\n- Battery: " ++ fmtD t.BatteryPct ++
      "%\n\nAction Required: Please check patient immediately.", ?_⟩,
    ⟨"🚨 HEALTH ALERT 🚨\n\nDevice: " ++ t.DeviceID ++ "\nTenant: " ++ t.TenantID ++
      "\nTimestamp: " ++ t.Timestamp ++ "\n\nAnomaly Type: ",
      "\nDetails: " ++ a.Reason ++
      "\n\nVitals:\n- Heart Rate: " ++ fmtD t.Metrics.HeartRate ++
      " bpm\n- Temperature: " ++ fmtF 1 t.Metrics.TempC ++
      "°C\n- SpO2: " ++ fmtD t.Metrics.SpO2 ++
      "%\n- Steps: " ++ fmtD t.Metrics.Steps ++
      "\n- Battery: " ++ fmtD t.BatteryPct ++
      "%\n\nAction Required: Please check patient immediately.", ?_⟩,
    ⟨"🚨 HEALTH ALERT 🚨\n\nDevice: " ++ t.DeviceID ++ "\nTenant: " ++ t.TenantID ++
      "\nTimestamp: " ++ t.Timestamp ++ "\n\nAnomaly Type: " ++ a.AnomalyType ++
      "\nDetails: ",
      "\n\nVitals:\n- Heart Rate: " ++ fmtD t.Metrics.HeartRate ++
      " bpm\n- Temperature: " ++ fmtF 1 t.Metrics.TempC ++
      "°C\n- SpO2: " ++ fmtD t.Metrics.SpO2 ++
      "%\n- Steps: " ++ fmtD t.Metrics.Steps ++
      "\n- Battery: " ++ fmtD t.BatteryPct ++
      "%\n\nAction Required: Please check patient immediately.", ?_⟩⟩ <;>
  · unfold Lambda.alertMessage
    simp only [String.append_assoc]

/-- Claim C18: for every batch handed to the lambda handler, a record that
parses publishes exactly one notification when `detectAnomaly` gives a positive
verdict and none when it gives a negative one; the text of the notification
contains the record's device id, tenant id, timestamp, anomaly type and reason;
the record is stored whatever the outcome of the publish; a record that does
not parse publishes and stores nothing and does not stop the batch; the wrapper
of the loop adds log lines only; and the records of a batch are handled one by
one, in order, up to and including the first one whose store fails, after which
the handler returns that error. -/
theorem C18_alerting_contract (cfg : Lambda.Config)
    (unmarshal : Msg → Except String Telemetry) :
    (∀ (o : Lambda.Outcome) (data : Msg) (t : Telemetry), unmarshal data = Except.ok t →
      Lambda.published (Lambda.processRecord cfg unmarshal o data).1 =
        (if (Lambda.detectAnomaly t).IsAnomaly = true then
          [(cfg.snsTopicARN, Lambda.alertSubject t (Lambda.detectAnomaly t),
            Lambda.alertMessage t (Lambda.detectAnomaly t))]
        else []) ∧
      Lambda.stored (Lambda.processRecord cfg unmarshal o data).1 =
        [Lambda.storeTelemetryItem o.now t (Lambda.detectAnomaly t)] ∧
      (Lambda.processRecord cfg unmarshal o data).2 = o.putItemErr ∧
      Contains (Lambda.alertMessage t (Lambda.detectAnomaly t)) t.DeviceID ∧
      Contains (Lambda.alertMessage t (Lambda.detectAnomaly t)) t.TenantID ∧
      Contains (Lambda.alertMessage t (Lambda.detectAnomaly t)) t.Timestamp ∧
      Contains (Lambda.alertMessage t (Lambda.detectAnomaly t))
        (Lambda.detectAnomaly t).AnomalyType ∧
      Contains (Lambda.alertMessage t (Lambda.detectAnomaly t))
        (Lambda.detectAnomaly t).Reason) ∧
    (∀ (o : Lambda.Outcome) (data : Msg) (err : String),
      unmarshal data = Except.error err →
      Lambda.published (Lambda.processRecord cfg unmarshal o data).1 = [] ∧
      Lambda.stored (Lambda.processRecord cfg unmarshal o data).1 = [] ∧
      (Lambda.processRecord cfg unmarshal o data).2 = none) ∧
    (∀ (records : List (Msg × Lambda.Outcome)),
      Lambda.published (Lambda.handler cfg unmarshal records).1 =
        Lambda.published (Lambda.handlerLoop cfg unmarshal records).1 ∧
      Lambda.stored (Lambda.handler cfg unmarshal records).1 =
        Lambda.stored (Lambda.handlerLoop cfg unmarshal records).1 ∧
      (Lambda.handler cfg unmarshal records).2 =
        (Lambda.handlerLoop cfg unmarshal records).2) ∧
    (∀ (before after : List (Msg × Lambda.Outcome)) (r : Msg × Lambda.Outcome),
      (∀ x ∈ before, (Lambda.processRecord cfg unmarshal x.2 x.1).2 = none) →
      (Lambda.handlerLoop cfg unmarshal (before ++ r :: after)).1 =
        before.flatMap (fun x => (Lambda.processRecord cfg unmarshal x.2 x.1).1) ++
          (Lambda.processRecord cfg unmarshal r.2 r.1).1 ++
          (match (Lambda.processRecord cfg unmarshal r.2 r.1).2 with
           | none => (Lambda.handlerLoop cfg unmarshal after).1
           | some _ => []) ∧
      (Lambda.handlerLoop cfg unmarshal (before ++ r :: after)).2 =
        (match (Lambda.processRecord cfg unmarshal r.2 r.1).2 with
         | none => (Lambda.handlerLoop cfg unmarshal after).2
         | some err => some err)) := by
  refine ⟨?_, ?_, ?_, ?_⟩
  · intro o data t h
    obtain ⟨h1, h2, h3⟩ := processRecord_parsed cfg unmarshal o data t h
    obtain ⟨c1, c2, c3, c4, c5⟩ := alertMessage_contains t (Lambda.detectAnomaly t)
    exact ⟨h1, h2, h3, c1, c2, c3, c4, c5⟩
  · intro o data err h
    rw [processRecord_invalid cfg unmarshal o data err h]
    exact ⟨rfl, rfl, rfl⟩
  · intro records
    unfold Lambda.handler
    simp only [published_append, stored_append]
    cases (Lambda.handlerLoop cfg unmarshal records).2 <;>
      simp [Lambda.published, Lambda.stored]
  · intro before after r hok
    obtain ⟨h1, h2⟩ := handlerLoop_append cfg unmarshal before (r :: after) hok
    rw [h1, h2]
    cases hr : (Lambda.processRecord cfg unmarshal r.2 r.1).2 with
    | none =>
      rw [handlerLoop_cons_ok cfg unmarshal r after hr]
      simp only [List.append_assoc]
      exact ⟨trivial, trivial⟩
    | some err =>
      rw [handlerLoop_fail cfg unmarshal r after err hr]
      simp only [List.append_assoc, List.append_nil]
      exact ⟨trivial, trivial⟩

/-- Witness for C18: a tachycardia sample whose publish fails is still stored,
and exactly one notification was attempted. -/
theorem C18_witness :
    (Lambda.published (Lambda.processRecord
        { tableName := "healthsense-telemetry", snsTopicARN := "arn:aws:sns:alerts" }
        (fun _ => Except.ok
          { TenantID := "acme-clinic", DeviceID := "watch-0000"
            Timestamp := "2024-01-01T00:00:00Z"
            Metrics := { HeartRate := 160, TempC := F64.fin 37, SpO2 := 96, Steps := 10 }
            BatteryPct := 90, FWVersion := "1.0.0" })
        { now := Time.zero, publishErr := some "throttled", putItemErr := none }
        [1]).1).length = 1 ∧
    (Lambda.stored (Lambda.processRecord
        { tableName := "healthsense-telemetry", snsTopicARN := "arn:aws:sns:alerts" }
        (fun _ => Except.ok
          { TenantID := "acme-clinic", DeviceID := "watch-0000"
            Timestamp := "2024-01-01T00:00:00Z"
            Metrics := { HeartRate := 160, TempC := F64.fin 37, SpO2 := 96, Steps := 10 }
            BatteryPct := 90, FWVersion := "1.0.0" })
        { now := Time.zero, publishErr := some "throttled", putItemErr := none }
        [1]).1).length = 1 := by
  have h := (C18_alerting_contract
    { tableName := "healthsense-telemetry", snsTopicARN := "arn:aws:sns:alerts" }
    (fun _ => Except.ok
      { TenantID := "acme-clinic", DeviceID := "watch-0000"
        Timestamp := "2024-01-01T00:00:00Z"
        Metrics := { HeartRate := 160, TempC := F64.fin 37, SpO2 := 96, Steps := 10 }
        BatteryPct := 90, FWVersion := "1.0.0" })).1
    { now := Time.zero, publishErr := some "throttled", putItemErr := none } [1]
    { TenantID := "acme-clinic", DeviceID := "watch-0000"
      Timestamp := "2024-01-01T00:00:00Z"
      Metrics := { HeartRate := 160, TempC := F64.fin 37, SpO2 := 96, Steps := 10 }
      BatteryPct := 90, FWVersion := "1.0.0" } rfl
  have hpos : (Lambda.detectAnomaly
      { TenantID := "acme-clinic", DeviceID := "watch-0000"
        Timestamp := "2024-01-01T00:00:00Z"
        Metrics := { HeartRate := 160, TempC := F64.fin 37, SpO2 := 96, Steps := 10 }
        BatteryPct := 90, FWVersion := "1.0.0" }).IsAnomaly = true := by
    rw [detectAnomaly_eq_detect]
    exact ((detect_default 160 (F64.fin 37) 96).1 (by decide)).1
  rw [h.1, h.2.1, if_pos hpos]
  exact ⟨rfl, rfl⟩

/-! ### The cache entry written by the handler -/

/-- The only cache write of the handler carries the value it assembled from the
parsed message, under the key of the message's tenant and device. -/
theorem handler_redisSet (lib : Lib) (o : Outcome) (payload : Msg) (t : Telemetry)
    (hparse : lib.unmarshal payload = Except.ok t) (key : String) (v : LatestTelemetry)
    (ttl : Nat) (hmem : Effect.redisSet key v ttl ∈ messageHandler lib o payload) :
    key = "latest:" ++ t.TenantID ++ ":" ++ t.DeviceID ∧ v = cacheDataOf lib t ∧ ttl = 600 := by
  unfold messageHandler at hmem
  rw [hparse] at hmem
  simp only [PutTelemetry, pushToWebSocket] at hmem
  obtain ⟨hok, hbad⟩ := setLatest_cases lib.timeMarshalJSON o t.TenantID t.DeviceID
    (cacheDataOf lib t)
  cases hm : jsonMarshalErr lib.timeMarshalJSON (cacheDataOf lib t) with
  | some e =>
    rw [hbad e hm] at hmem
    cases hj : jsonFloatErr t.Metrics.TempC <;>
      cases hI : (classify t).IsAnomaly <;> cases hp : o.putItemErr <;>
      rw [hj, hI, hp] at hmem <;> simp at hmem
  | none =>
    rw [hok hm] at hmem
    cases hj : jsonFloatErr t.Metrics.TempC <;>
      cases hI : (classify t).IsAnomaly <;> cases hp : o.putItemErr <;>
      cases hr : o.redisSetErr <;> rw [hj, hI, hp, hr] at hmem <;> simp at hmem <;>
      exact ⟨hmem.1, hmem.2.1, hmem.2.2⟩

/-- The handler does write to the cache when `json.Marshal` accepts the value
it assembled. -/
theorem handler_redisSet_mem (lib : Lib) (o : Outcome) (payload : Msg) (t : Telemetry)
    (hparse : lib.unmarshal payload = Except.ok t)
    (hmarshal : jsonMarshalErr lib.timeMarshalJSON (cacheDataOf lib t) = none) :
    Effect.redisSet ("latest:" ++ t.TenantID ++ ":" ++ t.DeviceID) (cacheDataOf lib t) 600 ∈
      messageHandler lib o payload := by
  unfold messageHandler
  rw [hparse]
  simp only [(setLatest_cases lib.timeMarshalJSON o t.TenantID t.DeviceID
    (cacheDataOf lib t)).1 hmarshal]
  simp

/-- When `json.Marshal` rejects the value the handler assembled, the handler
sends nothing to the cache. -/
theorem handler_no_redisSet (lib : Lib) (o : Outcome) (payload : Msg) (t : Telemetry)
    (hparse : lib.unmarshal payload = Except.ok t) (e : String)
    (hmarshal : jsonMarshalErr lib.timeMarshalJSON (cacheDataOf lib t) = some e)
    (key : String) (v : LatestTelemetry) (ttl : Nat) :
    Effect.redisSet key v ttl ∉ messageHandler lib o payload := by
  intro hmem
  unfold messageHandler at hmem
  rw [hparse] at hmem
  simp only [PutTelemetry, pushToWebSocket] at hmem
  rw [(setLatest_cases lib.timeMarshalJSON o t.TenantID t.DeviceID
    (cacheDataOf lib t)).2 e hmarshal] at hmem
  cases hj : jsonFloatErr t.Metrics.TempC <;>
    cases hI : (classify t).IsAnomaly <;> cases hp : o.putItemErr <;>
    rw [hj, hI, hp] at hmem <;> simp at hmem

/-- Claim C20 fails as stated: a message that is valid JSON with the `ts` text
"yesterday", which `time.Parse` rejects, is cached with the zero time as its
`Timestamp`, not with an instant denoted by `ts`. -/
theorem C20_counterexample_unparsed_ts :
    Lib.timeParse
      { unmarshal := fun _ => Except.ok
          { TenantID := "acme-clinic", DeviceID := "watch-0000", Timestamp := "yesterday"
            Metrics := { HeartRate := 80, TempC := F64.fin 37, SpO2 := 96, Steps := 10 }
            BatteryPct := 90, FWVersion := "1.0.0" }
        timeParse := fun s => if s = "2024-01-01T00:00:00Z" then
            Except.ok { unix := 1704067200, nsec := 0, offset := 0 }
          else Except.error ("parsing time \"" ++ s ++ "\" as RFC3339")
        timeMarshalJSON := Time.marshalJSONErr }
      "yesterday" = Except.error "parsing time \"yesterday\" as RFC3339" ∧
    Effect.redisSet "latest:acme-clinic:watch-0000"
        { DeviceID := "watch-0000", Timestamp := Time.zero, HeartRate := 80
          TempC := F64.fin 37, SpO2 := 96, Steps := 10, BatteryPct := 90 } 600 ∈
      messageHandler
        { unmarshal := fun _ => Except.ok
            { TenantID := "acme-clinic", DeviceID := "watch-0000", Timestamp := "yesterday"
              Metrics := { HeartRate := 80, TempC := F64.fin 37, SpO2 := 96, Steps := 10 }
              BatteryPct := 90, FWVersion := "1.0.0" }
          timeParse := fun s => if s = "2024-01-01T00:00:00Z" then
              Except.ok { unix := 1704067200, nsec := 0, offset := 0 }
            else Except.error ("parsing time \"" ++ s ++ "\" as RFC3339")
          timeMarshalJSON := Time.marshalJSONErr }
        { now := Time.zero, putItemErr := none, redisSetErr := none } [1] := by
  refine ⟨by simp, ?_⟩
  exact handler_redisSet_mem
    { unmarshal := fun _ => Except.ok
        { TenantID := "acme-clinic", DeviceID := "watch-0000", Timestamp := "yesterday"
          Metrics := { HeartRate := 80, TempC := F64.fin 37, SpO2 := 96, Steps := 10 }
          BatteryPct := 90, FWVersion := "1.0.0" }
      timeParse := fun s => if s = "2024-01-01T00:00:00Z" then
          Except.ok { unix := 1704067200, nsec := 0, offset := 0 }
        else Except.error ("parsing time \"" ++ s ++ "\" as RFC3339")
      timeMarshalJSON := Time.marshalJSONErr }
    { now := Time.zero, putItemErr := none, redisSetErr := none } [1]
    { TenantID := "acme-clinic", DeviceID := "watch-0000", Timestamp := "yesterday"
      Metrics := { HeartRate := 80, TempC := F64.fin 37, SpO2 := 96, Steps := 10 }
      BatteryPct := 90, FWVersion := "1.0.0" } rfl (by decide)

/-- Claim C20, amended: for every inbound message that parses, the value the
consumer's handler hands to `SetLatest` has the device id, heart rate,
temperature, spo2, steps and battery of the message; its `Timestamp` is the
instant `time.Parse` reads from the message's `ts` when `ts` parses as RFC3339,
and the zero time when it does not. That value, under the key of the message's
tenant and device, is the only one the handler ever writes to the cache: it is
written when `json.Marshal` accepts it, and nothing is written when it does
not. -/
theorem C20_cache_entry_fields (lib : Lib) (o : Outcome) (payload : Msg) (t : Telemetry)
    (hparse : lib.unmarshal payload = Except.ok t) :
    (∀ (key : String) (v : LatestTelemetry) (ttl : Nat),
      Effect.redisSet key v ttl ∈ messageHandler lib o payload →
      key = "latest:" ++ t.TenantID ++ ":" ++ t.DeviceID ∧ v = cacheDataOf lib t) ∧
    (jsonMarshalErr lib.timeMarshalJSON (cacheDataOf lib t) = none →
      Effect.redisSet ("latest:" ++ t.TenantID ++ ":" ++ t.DeviceID) (cacheDataOf lib t) 600 ∈
        messageHandler lib o payload) ∧
    (∀ e, jsonMarshalErr lib.timeMarshalJSON (cacheDataOf lib t) = some e →
      ∀ (key : String) (v : LatestTelemetry) (ttl : Nat),
        Effect.redisSet key v ttl ∉ messageHandler lib o payload) ∧
    (cacheDataOf lib t).DeviceID = t.DeviceID ∧
    (cacheDataOf lib t).HeartRate = t.Metrics.HeartRate ∧
    (cacheDataOf lib t).TempC = t.Metrics.TempC ∧
    (cacheDataOf lib t).SpO2 = t.Metrics.SpO2 ∧
    (cacheDataOf lib t).Steps = t.Metrics.Steps ∧
    (cacheDataOf lib t).BatteryPct = t.BatteryPct ∧
    (∀ ts, lib.timeParse t.Timestamp = Except.ok ts → (cacheDataOf lib t).Timestamp = ts) ∧
    (∀ e, lib.timeParse t.Timestamp = Except.error e →
      (cacheDataOf lib t).Timestamp = Time.zero) := by
  refine ⟨?_, handler_redisSet_mem lib o payload t hparse,
    fun e he => handler_no_redisSet lib o payload t hparse e he,
    rfl, rfl, rfl, rfl, rfl, rfl, ?_, ?_⟩
  · intro key v ttl hmem
    obtain ⟨h1, h2, _⟩ := handler_redisSet lib o payload t hparse key v ttl hmem
    exact ⟨h1, h2⟩
  · intro ts h
    unfold cacheDataOf
    rw [h]
  · intro e h
    unfold cacheDataOf
    rw [h]

/-- Witness for C20: a message whose `ts` parses is cached with that instant. -/
theorem C20_witness :
    (cacheDataOf
      { unmarshal := fun _ => Except.ok
          { TenantID := "acme-clinic", DeviceID := "watch-0000"
            Timestamp := "2024-01-01T00:00:00Z"
            Metrics := { HeartRate := 80, TempC := F64.fin 37, SpO2 := 96, Steps := 10 }
            BatteryPct := 90, FWVersion := "1.0.0" }
        timeParse := fun s => if s = "2024-01-01T00:00:00Z" then
            Except.ok { unix := 1704067200, nsec := 0, offset := 0 }
          else Except.error ("parsing time \"" ++ s ++ "\" as RFC3339")
        timeMarshalJSON := Time.marshalJSONErr }
      { TenantID := "acme-clinic", DeviceID := "watch-0000"
        Timestamp := "2024-01-01T00:00:00Z"
        Metrics := { HeartRate := 80, TempC := F64.fin 37, SpO2 := 96, Steps := 10 }
        BatteryPct := 90, FWVersion := "1.0.0" }).Timestamp =
      { unix := 1704067200, nsec := 0, offset := 0 } :=
  (C20_cache_entry_fields
    { unmarshal := fun _ => Except.ok
        { TenantID := "acme-clinic", DeviceID := "watch-0000"
          Timestamp := "2024-01-01T00:00:00Z"
          Metrics := { HeartRate := 80, TempC := F64.fin 37, SpO2 := 96, Steps := 10 }
          BatteryPct := 90, FWVersion := "1.0.0" }
      timeParse := fun s => if s = "2024-01-01T00:00:00Z" then
          Except.ok { unix := 1704067200, nsec := 0, offset := 0 }
        else Except.error ("parsing time \"" ++ s ++ "\" as RFC3339")
      timeMarshalJSON := Time.marshalJSONErr }
    { now := Time.zero, putItemErr := none, redisSetErr := none } [1]
    { TenantID := "acme-clinic", DeviceID := "watch-0000"
      Timestamp := "2024-01-01T00:00:00Z"
      Metrics := { HeartRate := 80, TempC := F64.fin 37, SpO2 := 96, Steps := 10 }
      BatteryPct := 90, FWVersion := "1.0.0" } rfl).2.2.2.2.2.2.2.2.2.1
    { unix := 1704067200, nsec := 0, offset := 0 } rfl

/-! ## Third part: the two store paths, the writer loop -/

/-! ### The two store paths -/

/-- The item of the core path and the item of the lambda path, for one sample
and one clock reading, are the same list of attributes. -/
theorem storeItems_eq (now : Time) (t : Telemetry) :
    putTelemetryItem now (recordOf t (classify t)) =
      Lambda.storeTelemetryItem now t (Lambda.detectAnomaly t) := by
  rw [detectAnomaly_eq_detect]
  have hflag := detect_flag_iff_type t.Metrics.HeartRate t.Metrics.TempC t.Metrics.SpO2
  unfold putTelemetryItem Lambda.storeTelemetryItem recordOf classify
  simp only
  by_cases h : (NewSimpleDetector.Detect t.Metrics.HeartRate t.Metrics.TempC
      t.Metrics.SpO2).IsAnomaly = true
  · rw [if_pos (hflag.1 h), if_pos h]
  · rw [if_neg (fun hn => h (hflag.2 hn)), if_neg h]

/-- Claim C21: for every telemetry sample and every ingestion time, the item
built by the core path (default `Detect`, the `TelemetryRecord` assembled by
the consumer, `PutTelemetry`) equals the item built by the lambda path
(`detectAnomaly`, `storeTelemetry`): the same attributes with the same values,
so every attribute name looks up the same in both, and `anomaly_type` is
present in one exactly when it is present in the other. -/
theorem C21_lambda_stores_what_core_stores (now : Time) (t : Telemetry) :
    putTelemetryItem now (recordOf t (classify t)) =
      Lambda.storeTelemetryItem now t (Lambda.detectAnomaly t) ∧
    (∀ name : String,
      (putTelemetryItem now (recordOf t (classify t))).lookup name =
        (Lambda.storeTelemetryItem now t (Lambda.detectAnomaly t)).lookup name) ∧
    (((putTelemetryItem now (recordOf t (classify t))).lookup "anomaly_type").isSome =
      ((Lambda.storeTelemetryItem now t (Lambda.detectAnomaly t)).lookup "anomaly_type").isSome) := by
  refine ⟨storeItems_eq now t, fun name => ?_, ?_⟩
  · rw [storeItems_eq]
  · rw [storeItems_eq]

/-! ### The writer loop -/

theorem textFrames_append (fs gs : List Frame) :
    textFrames (fs ++ gs) = textFrames fs ++ textFrames gs := by
  induction fs with
  | nil => rfl
  | cons f fs ih => cases f <;> simp [textFrames, ih]

theorem batchBytes_concat (cur : List Msg) (m : Msg) (h : cur ≠ []) :
    batchBytes (cur ++ [m]) = batchBytes cur ++ [10] ++ m := by
  cases cur with
  | nil => exact absurd rfl h
  | cons a as => simp [batchBytes, List.flatMap_append]

theorem writePumpRun_nil (s : WriterState) : WSClient.writePumpRun s [] = s := rfl

theorem writePumpRun_cons (s : WriterState) (ev : WriterEvent) (evs : List WriterEvent) :
    WSClient.writePumpRun s (ev :: evs) =
      WSClient.writePumpRun (WSClient.writePump s ev) evs := rfl

theorem writePumpRun_append (s : WriterState) (evs₁ evs₂ : List WriterEvent) :
    WSClient.writePumpRun s (evs₁ ++ evs₂) =
      WSClient.writePumpRun (WSClient.writePumpRun s evs₁) evs₂ := by
  simp [WSClient.writePumpRun, List.foldl_append]

/-- The passes of the `for` loop with no hub move in between take the next
`n` queued messages, each after a newline byte. -/
theorem loopPasses (ms : List Msg) (s : WriterState) (w : List UInt8) (rest : List Msg)
    (hphase : s.phase = WriterPhase.writing w ms.length) (hbuf : s.send.buf = ms ++ rest) :
    WSClient.writePumpRun s (List.replicate ms.length WriterEvent.loopPass) =
      { s with send := { s.send with buf := rest },
               phase := WriterPhase.writing (w ++ ms.flatMap (fun x => 10 :: x)) 0 } := by
  induction ms generalizing s w with
  | nil =>
    obtain ⟨⟨buf, cap, closed⟩, phase, conn⟩ := s
    simp only [List.nil_append] at hbuf
    simp only [List.length_nil] at hphase
    subst hbuf; subst hphase
    simp [WSClient.writePumpRun]
  | cons m ms ih =>
    obtain ⟨⟨buf, cap, closed⟩, phase, conn⟩ := s
    simp only at hbuf hphase
    subst hbuf; subst hphase
    rw [List.length_cons, List.replicate_succ, writePumpRun_cons]
    have hstep : WSClient.writePump
        { send := { buf := m :: ms ++ rest, cap := cap, closed := closed },
          phase := WriterPhase.writing w (ms.length + 1), conn := conn } WriterEvent.loopPass =
        { send := { buf := ms ++ rest, cap := cap, closed := closed },
          phase := WriterPhase.writing (w ++ [10] ++ m) ms.length, conn := conn } := by
      simp [WSClient.writePump, Chan.recv]
    rw [hstep, ih _ (w ++ [10] ++ m) rfl rfl]
    simp [List.flatMap_cons]

/-- One iteration of the writer loop with no hub move in between and no write
error: the message taken and everything queued behind it leave in one frame. -/
theorem writePump_iteration (s : WriterState) (m0 : Msg) (rest : List Msg)
    (hphase : s.phase = WriterPhase.atSelect) (hbuf : s.send.buf = m0 :: rest) :
    WSClient.writePumpRun s
        ([WriterEvent.recvSend, WriterEvent.nextWriter false] ++
          List.replicate rest.length WriterEvent.loopPass ++ [WriterEvent.closeWriter false]) =
      { send := { s.send with buf := [] }, phase := WriterPhase.atSelect,
        conn := s.conn ++ [Frame.text (batchBytes (m0 :: rest))] } := by
  obtain ⟨⟨buf, cap, closed⟩, phase, conn⟩ := s
  simp only at hbuf hphase
  subst hbuf; subst hphase
  rw [writePumpRun_append, writePumpRun_append]
  have h2 : WSClient.writePumpRun
      { send := { buf := m0 :: rest, cap := cap, closed := closed },
        phase := WriterPhase.atSelect, conn := conn }
      [WriterEvent.recvSend, WriterEvent.nextWriter false] =
      { send := { buf := rest, cap := cap, closed := closed },
        phase := WriterPhase.writing m0 rest.length, conn := conn } := by
    simp [WSClient.writePumpRun, WSClient.writePump, Chan.recv, Chan.len]
  rw [h2, loopPasses rest _ m0 [] rfl (by simp)]
  simp [WSClient.writePumpRun, WSClient.writePump, batchBytes]

/-- After the writer loop has returned no move writes to the connection. -/
theorem writePump_returned (s : WriterState) (evs : List WriterEvent)
    (h : s.phase = WriterPhase.returned) :
    (WSClient.writePumpRun s evs).phase = WriterPhase.returned ∧
      (WSClient.writePumpRun s evs).conn = s.conn := by
  induction evs generalizing s with
  | nil => exact ⟨h, rfl⟩
  | cons ev evs ih =>
    rw [writePumpRun_cons]
    have hstep : (WSClient.writePump s ev).phase = WriterPhase.returned ∧
        (WSClient.writePump s ev).conn = s.conn := by
      cases ev <;> simp [WSClient.writePump, h]
    obtain ⟨h1, h2⟩ := ih _ hstep.1
    exact ⟨h1, h2.trans hstep.2⟩

theorem hubSend_buf (ch : Chan) (m : Msg) :
    (ch.hubSend m).buf =
      ch.buf ++ (if ch.closed = false ∧ ch.buf.length < ch.cap then [m] else []) := by
  unfold Chan.hubSend Chan.trySend
  by_cases hc : ch.closed = true
  · simp [hc]
  · by_cases hl : ch.buf.length < ch.cap
    · simp [hc, hl]
    · simp [hc, hl]

theorem hubClose_buf (ch : Chan) : ch.hubClose.buf = ch.buf := by
  unfold Chan.hubClose Chan.close
  by_cases hc : ch.closed = true <;> simp [hc]

/-- One move without a write error: the batch in progress and the mailbox
account for what was there before plus what the hub enqueued, and whatever left
them went out as one text frame. -/
theorem writePump_conserves (s : WriterState) (ev : WriterEvent) (cur : List Msg)
    (hev : noWriteError [ev] = true) (hcur : inProgress s cur) :
    ∃ (groups : List (List Msg)) (cur1 : List Msg),
      inProgress (WSClient.writePump s ev) cur1 ∧
      textFrames (WSClient.writePump s ev).conn =
        textFrames s.conn ++ groups.map batchBytes ∧
      (∀ g ∈ groups, g ≠ []) ∧
      groups.flatten ++ cur1 ++ (WSClient.writePump s ev).send.buf =
        cur ++ s.send.buf ++ enqueued s [ev] := by
  obtain ⟨send, phase, conn⟩ := s
  cases ev with
  | hubSend m =>
    refine ⟨[], cur, ?_, by simp [WSClient.writePump], by simp, ?_⟩
    · cases phase with
      | writing w n =>
        obtain ⟨h1, h2, h3⟩ := hcur
        refine ⟨h1, h2, ?_⟩
        show n ≤ (send.hubSend m).buf.length
        rw [hubSend_buf, List.length_append]
        exact Nat.le_trans h3 (Nat.le_add_right _ _)
      | atSelect => exact hcur
      | received m1 => exact hcur
      | returned => exact hcur
    · show [].flatten ++ cur ++ (send.hubSend m).buf = _
      rw [hubSend_buf]
      simp [enqueued]
  | hubClose =>
    refine ⟨[], cur, ?_, by simp [WSClient.writePump], by simp, ?_⟩
    · cases phase with
      | writing w n =>
        obtain ⟨h1, h2, h3⟩ := hcur
        refine ⟨h1, h2, ?_⟩
        show n ≤ send.hubClose.buf.length
        rw [hubClose_buf]
        exact h3
      | atSelect => exact hcur
      | received m1 => exact hcur
      | returned => exact hcur
    · show [].flatten ++ cur ++ send.hubClose.buf = _
      rw [hubClose_buf]
      simp [enqueued]
  | recvSend =>
    cases phase with
    | atSelect =>
      have hc : cur = [] := hcur
      subst hc
      obtain ⟨buf, cap, closed⟩ := send
      cases buf with
      | nil =>
        cases closed with
        | true =>
          exact ⟨[], [], rfl, by simp [WSClient.writePump, textFrames_append, textFrames],
            by simp, by simp [WSClient.writePump, enqueued]⟩
        | false =>
          exact ⟨[], [], rfl, by simp [WSClient.writePump], by simp,
            by simp [WSClient.writePump, enqueued]⟩
      | cons m ms =>
        exact ⟨[], [m], rfl, by simp [WSClient.writePump], by simp,
          by simp [WSClient.writePump, enqueued, Chan.recv]⟩
    | received m1 =>
      exact ⟨[], cur, hcur, by simp [WSClient.writePump], by simp,
        by simp [WSClient.writePump, enqueued]⟩
    | writing w n =>
      exact ⟨[], cur, hcur, by simp [WSClient.writePump], by simp,
        by simp [WSClient.writePump, enqueued]⟩
    | returned =>
      exact ⟨[], cur, hcur, by simp [WSClient.writePump], by simp,
        by simp [WSClient.writePump, enqueued]⟩
  | nextWriter err =>
    cases err with
    | true => simp [noWriteError] at hev
    | false =>
      cases phase with
      | received m1 =>
        have hc : cur = [m1] := hcur
        subst hc
        refine ⟨[], [m1], ?_, by simp [WSClient.writePump], by simp,
          by simp [WSClient.writePump, enqueued]⟩
        show [m1] ≠ [] ∧ m1 = batchBytes [m1] ∧ send.len ≤ send.buf.length
        exact ⟨by simp, by simp [batchBytes], Nat.le_refl _⟩
      | atSelect =>
        exact ⟨[], cur, hcur, by simp [WSClient.writePump], by simp,
          by simp [WSClient.writePump, enqueued]⟩
      | writing w n =>
        exact ⟨[], cur, hcur, by simp [WSClient.writePump], by simp,
          by simp [WSClient.writePump, enqueued]⟩
      | returned =>
        exact ⟨[], cur, hcur, by simp [WSClient.writePump], by simp,
          by simp [WSClient.writePump, enqueued]⟩
  | loopPass =>
    cases phase with
    | writing w n =>
      obtain ⟨h1, h2, h3⟩ := hcur
      cases n with
      | zero =>
        exact ⟨[], cur, ⟨h1, h2, h3⟩, by simp [WSClient.writePump], by simp,
          by simp [WSClient.writePump, enqueued]⟩
      | succ n =>
        obtain ⟨buf, cap, closed⟩ := send
        cases buf with
        | nil => simp at h3
        | cons m ms =>
          refine ⟨[], cur ++ [m], ?_, by simp [WSClient.writePump], by simp,
            by simp [WSClient.writePump, enqueued, Chan.recv]⟩
          show cur ++ [m] ≠ [] ∧ w ++ [10] ++ m = batchBytes (cur ++ [m]) ∧ n ≤ ms.length
          refine ⟨by simp, ?_, ?_⟩
          · rw [batchBytes_concat cur m h1, h2]
          · simpa using h3
    | atSelect =>
      exact ⟨[], cur, hcur, by simp [WSClient.writePump], by simp,
        by simp [WSClient.writePump, enqueued]⟩
    | received m1 =>
      exact ⟨[], cur, hcur, by simp [WSClient.writePump], by simp,
        by simp [WSClient.writePump, enqueued]⟩
    | returned =>
      exact ⟨[], cur, hcur, by simp [WSClient.writePump], by simp,
        by simp [WSClient.writePump, enqueued]⟩
  | closeWriter err =>
    cases err with
    | true => simp [noWriteError] at hev
    | false =>
      cases phase with
      | writing w n =>
        obtain ⟨h1, h2, h3⟩ := hcur
        cases n with
        | zero =>
          refine ⟨[cur], [], rfl, ?_, by simpa using h1, by simp [WSClient.writePump, enqueued]⟩
          simp [WSClient.writePump, textFrames_append, textFrames, h2]
        | succ n =>
          exact ⟨[], cur, ⟨h1, h2, h3⟩, by simp [WSClient.writePump], by simp,
            by simp [WSClient.writePump, enqueued]⟩
      | atSelect =>
        exact ⟨[], cur, hcur, by simp [WSClient.writePump], by simp,
          by simp [WSClient.writePump, enqueued]⟩
      | received m1 =>
        exact ⟨[], cur, hcur, by simp [WSClient.writePump], by simp,
          by simp [WSClient.writePump, enqueued]⟩
      | returned =>
        exact ⟨[], cur, hcur, by simp [WSClient.writePump], by simp,
          by simp [WSClient.writePump, enqueued]⟩
  | tick err =>
    cases err with
    | true => simp [noWriteError] at hev
    | false =>
      cases phase with
      | atSelect =>
        exact ⟨[], cur, hcur, by simp [WSClient.writePump, textFrames_append, textFrames],
          by simp, by simp [WSClient.writePump, enqueued]⟩
      | writing w n =>
        exact ⟨[], cur, hcur, by simp [WSClient.writePump], by simp,
          by simp [WSClient.writePump, enqueued]⟩
      | received m1 =>
        exact ⟨[], cur, hcur, by simp [WSClient.writePump], by simp,
          by simp [WSClient.writePump, enqueued]⟩
      | returned =>
        exact ⟨[], cur, hcur, by simp [WSClient.writePump], by simp,
          by simp [WSClient.writePump, enqueued]⟩

theorem noWriteError_cons (ev : WriterEvent) (evs : List WriterEvent)
    (h : noWriteError (ev :: evs) = true) :
    noWriteError [ev] = true ∧ noWriteError evs = true := by
  cases ev with
  | nextWriter err => cases err <;> simp_all [noWriteError]
  | closeWriter err => cases err <;> simp_all [noWriteError]
  | tick err => cases err <;> simp_all [noWriteError]
  | hubSend m => simp_all [noWriteError]
  | hubClose => simp_all [noWriteError]
  | recvSend => simp_all [noWriteError]
  | loopPass => simp_all [noWriteError]

theorem enqueued_cons (s : WriterState) (ev : WriterEvent) (evs : List WriterEvent) :
    enqueued s (ev :: evs) = enqueued s [ev] ++ enqueued (WSClient.writePump s ev) evs := by
  simp [enqueued]

/-- Any interleaving of hub moves and writer statements without a write error:
the frames written are batches, and their messages, the batch in progress and
the mailbox account in order for what was there plus what the hub enqueued. -/
theorem writePumpRun_conserves (evs : List WriterEvent) (s : WriterState) (cur : List Msg)
    (hev : noWriteError evs = true) (hcur : inProgress s cur) :
    ∃ (groups : List (List Msg)) (cur1 : List Msg),
      inProgress (WSClient.writePumpRun s evs) cur1 ∧
      textFrames (WSClient.writePumpRun s evs).conn =
        textFrames s.conn ++ groups.map batchBytes ∧
      (∀ g ∈ groups, g ≠ []) ∧
      groups.flatten ++ cur1 ++ (WSClient.writePumpRun s evs).send.buf =
        cur ++ s.send.buf ++ enqueued s evs := by
  induction evs generalizing s cur with
  | nil => exact ⟨[], cur, hcur, by simp [writePumpRun_nil], by simp, by simp [writePumpRun_nil, enqueued]⟩
  | cons ev evs ih =>
    obtain ⟨hev1, hev2⟩ := noWriteError_cons ev evs hev
    obtain ⟨g1, c1, hc1, hf1, hne1, hacc1⟩ := writePump_conserves s ev cur hev1 hcur
    obtain ⟨g2, c2, hc2, hf2, hne2, hacc2⟩ := ih (WSClient.writePump s ev) c1 hev2 hc1
    refine ⟨g1 ++ g2, c2, ?_, ?_, ?_, ?_⟩
    · rw [writePumpRun_cons]; exact hc2
    · rw [writePumpRun_cons, hf2, hf1, List.map_append, List.append_assoc]
    · intro g hg
      rcases List.mem_append.1 hg with h | h
      · exact hne1 g h
      · exact hne2 g h
    · rw [writePumpRun_cons, enqueued_cons, List.flatten_append]
      calc g1.flatten ++ g2.flatten ++ c2 ++ (WSClient.writePumpRun (WSClient.writePump s ev) evs).send.buf
          = g1.flatten ++ (g2.flatten ++ c2 ++
              (WSClient.writePumpRun (WSClient.writePump s ev) evs).send.buf) := by
            simp [List.append_assoc]
        _ = g1.flatten ++ (c1 ++ (WSClient.writePump s ev).send.buf ++
              enqueued (WSClient.writePump s ev) evs) := by rw [hacc2]
        _ = (g1.flatten ++ c1 ++ (WSClient.writePump s ev).send.buf) ++
              enqueued (WSClient.writePump s ev) evs := by simp [List.append_assoc]
        _ = cur ++ s.send.buf ++ (enqueued s [ev] ++ enqueued (WSClient.writePump s ev) evs) := by
            rw [hacc1]; simp [List.append_assoc]

/-- Claim C22 (amended): from the `select` of the writer loop, (1) when the
mailbox holds `m0` and `k` further messages and the loop runs one iteration
with no hub move in between and no write error, it writes exactly one more
frame, a text frame whose bytes are `m0` followed in queue order by a newline
byte and each further message, and leaves the mailbox empty; (2) over any
interleaving of hub moves and writer statements without a write error, the text
frames written are the batches of non-empty groups of messages, and the
messages of those groups in order, then the batch in progress, then the
messages still queued, are exactly the messages that were queued at the start
followed by those the hub enqueued, in enqueue order: none lost, none
duplicated; (3) when `NextWriter` fails after `m0` was taken, no frame is
written then or by any later move: `m0` is not delivered. -/
theorem C22_writer_batches_in_order (s : WriterState) (evs : List WriterEvent)
    (hphase : s.phase = WriterPhase.atSelect) (herr : noWriteError evs = true) :
    (∀ (m0 : Msg) (rest : List Msg), s.send.buf = m0 :: rest →
      WSClient.writePumpRun s
          ([WriterEvent.recvSend, WriterEvent.nextWriter false] ++
            List.replicate rest.length WriterEvent.loopPass ++
            [WriterEvent.closeWriter false]) =
        { send := { s.send with buf := [] }, phase := WriterPhase.atSelect,
          conn := s.conn ++ [Frame.text (m0 ++ rest.flatMap (fun x => 10 :: x))] }) ∧
    (∃ (groups : List (List Msg)) (cur : List Msg),
      inProgress (WSClient.writePumpRun s evs) cur ∧
      textFrames (WSClient.writePumpRun s evs).conn =
        textFrames s.conn ++ groups.map batchBytes ∧
      (∀ g ∈ groups, g ≠ []) ∧
      groups.flatten ++ cur ++ (WSClient.writePumpRun s evs).send.buf =
        s.send.buf ++ enqueued s evs) ∧
    (∀ (m0 : Msg) (rest : List Msg) (later : List WriterEvent), s.send.buf = m0 :: rest →
      (WSClient.writePumpRun s
          ([WriterEvent.recvSend, WriterEvent.nextWriter true] ++ later)).conn = s.conn ∧
      (WSClient.writePumpRun s
          ([WriterEvent.recvSend, WriterEvent.nextWriter true] ++ later)).phase =
        WriterPhase.returned) := by
  refine ⟨fun m0 rest hbuf => writePump_iteration s m0 rest hphase hbuf, ?_, ?_⟩
  · have hcur : inProgress s [] := by
      unfold inProgress
      rw [hphase]
    obtain ⟨groups, cur, h1, h2, h3, h4⟩ := writePumpRun_conserves evs s [] herr hcur
    exact ⟨groups, cur, h1, h2, h3, by simpa using h4⟩
  · intro m0 rest later hbuf
    have h2 : (WSClient.writePumpRun s
          [WriterEvent.recvSend, WriterEvent.nextWriter true]).phase = WriterPhase.returned ∧
        (WSClient.writePumpRun s
          [WriterEvent.recvSend, WriterEvent.nextWriter true]).conn = s.conn := by
      simp [WSClient.writePumpRun, WSClient.writePump, hphase, hbuf]
    rw [writePumpRun_append]
    obtain ⟨h3, h4⟩ := writePump_returned _ later h2.1
    exact ⟨h4.trans h2.2, h3⟩

/-- Witness for C22: a mailbox holding three messages. Run alone, one iteration
writes them in one frame; in the second run the hub enqueues a fourth message
between the receive and the length snapshot. -/
theorem C22_witness :
    WSClient.writePumpRun
        { send := { buf := [[1], [2], [3]], cap := 256, closed := false },
          phase := WriterPhase.atSelect, conn := [] }
        [WriterEvent.recvSend, WriterEvent.nextWriter false, WriterEvent.loopPass,
          WriterEvent.loopPass, WriterEvent.closeWriter false] =
      { send := { buf := [], cap := 256, closed := false }, phase := WriterPhase.atSelect,
        conn := [Frame.text [1, 10, 2, 10, 3]] } ∧
    (∃ (groups : List (List Msg)) (cur : List Msg),
      inProgress (WSClient.writePumpRun
          { send := { buf := [[1], [2], [3]], cap := 256, closed := false },
            phase := WriterPhase.atSelect, conn := [] }
          [WriterEvent.recvSend, WriterEvent.hubSend [4], WriterEvent.nextWriter false,
            WriterEvent.loopPass, WriterEvent.loopPass]) cur ∧
      textFrames (WSClient.writePumpRun
          { send := { buf := [[1], [2], [3]], cap := 256, closed := false },
            phase := WriterPhase.atSelect, conn := [] }
          [WriterEvent.recvSend, WriterEvent.hubSend [4], WriterEvent.nextWriter false,
            WriterEvent.loopPass, WriterEvent.loopPass]).conn =
        textFrames [] ++ groups.map batchBytes ∧
      (∀ g ∈ groups, g ≠ []) ∧
      groups.flatten ++ cur ++ (WSClient.writePumpRun
          { send := { buf := [[1], [2], [3]], cap := 256, closed := false },
            phase := WriterPhase.atSelect, conn := [] }
          [WriterEvent.recvSend, WriterEvent.hubSend [4], WriterEvent.nextWriter false,
            WriterEvent.loopPass, WriterEvent.loopPass]).send.buf =
        [[1], [2], [3]] ++ enqueued
          { send := { buf := [[1], [2], [3]], cap := 256, closed := false },
            phase := WriterPhase.atSelect, conn := [] }
          [WriterEvent.recvSend, WriterEvent.hubSend [4], WriterEvent.nextWriter false,
            WriterEvent.loopPass, WriterEvent.loopPass]) :=
  ⟨(C22_writer_batches_in_order
      { send := { buf := [[1], [2], [3]], cap := 256, closed := false },
        phase := WriterPhase.atSelect, conn := [] }
      [WriterEvent.recvSend, WriterEvent.hubSend [4], WriterEvent.nextWriter false,
        WriterEvent.loopPass, WriterEvent.loopPass] rfl rfl).1 [1] [[2], [3]] rfl,
   (C22_writer_batches_in_order
      { send := { buf := [[1], [2], [3]], cap := 256, closed := false },
        phase := WriterPhase.atSelect, conn := [] }
      [WriterEvent.recvSend, WriterEvent.hubSend [4], WriterEvent.nextWriter false,
        WriterEvent.loopPass, WriterEvent.loopPass] rfl rfl).2.1⟩

/-- Counterexample to C22 as stated. A mailbox holds `[1]` and `[2]`. First
run: the writer takes `[1]` and `NextWriter` fails; the loop has returned, no
frame was written, `[1]` is in no frame and no longer in the mailbox, and
nothing that follows writes a frame. Second run: the hub enqueues `[3]` after
the writer took `[1]` and before it read the queue length; the one frame
written carries three messages, not the two that were queued at the receive. -/
theorem C22_counterexample_write_error :
    WSClient.writePumpRun
        { send := { buf := [[1], [2]], cap := 256, closed := false },
          phase := WriterPhase.atSelect, conn := [] }
        [WriterEvent.recvSend, WriterEvent.nextWriter true] =
      { send := { buf := [[2]], cap := 256, closed := false },
        phase := WriterPhase.returned, conn := [] } ∧
    (∀ evs : List WriterEvent,
      (WSClient.writePumpRun
        { send := { buf := [[1], [2]], cap := 256, closed := false },
          phase := WriterPhase.atSelect, conn := [] }
        ([WriterEvent.recvSend, WriterEvent.nextWriter true] ++ evs)).conn = []) ∧
    WSClient.writePumpRun
        { send := { buf := [[1], [2]], cap := 256, closed := false },
          phase := WriterPhase.atSelect, conn := [] }
        [WriterEvent.recvSend, WriterEvent.hubSend [3], WriterEvent.nextWriter false,
          WriterEvent.loopPass, WriterEvent.loopPass, WriterEvent.closeWriter false] =
      { send := { buf := [], cap := 256, closed := false },
        phase := WriterPhase.atSelect, conn := [Frame.text [1, 10, 2, 10, 3]] } ∧
    Frame.text [1, 10, 2, 10, 3] ≠ Frame.text (batchBytes [[1], [2]]) := by
  refine ⟨by decide, ?_, by decide, by decide⟩
  intro evs
  rw [writePumpRun_append]
  exact (writePump_returned _ evs (by decide)).2.trans (by decide)

end HealthSense
